import Mathlib

/-
Verification development for the C64 emulator core in tools/c64_emulator.py.

The Python classes CIATimer, MemoryMap and CPU6502 are embedded as Lean
structures and pure state-passing functions.  Machine integers follow the
Python semantics: Python ints are unbounded, masks are explicit, and the
expressions that can go negative (timer counters, subtraction results)
are modelled on Int with Euclidean mod standing in for the two/s-complement
behaviour of the Python bitwise operators on negative numbers.
-/

set_option maxHeartbeats 4000000
set_option maxRecDepth 4096

namespace C64

/-- Python r & 0xFF for a possibly negative int r (two/s complement low byte). -/
def pyByte (r : Int) : Nat := (r.emod 256).toNat

/-- Python (r >> 8) & 0xFF for a possibly negative int r. -/
def pyHiByte (r : Int) : Nat := ((r.fdiv 256).emod 256).toNat

/-- Python r & 0xFFFF for a possibly negative int r. -/
def pyWord (r : Int) : Nat := (r.emod 65536).toNat

/-- Bit 7 test of a possibly negative int, as Python (r & 0x80) != 0. -/
def pyBit7 (r : Int) : Bool := (r.emod 256).toNat &&& 0x80 ≠ 0

/-- CIA timer state (class CIATimer).  The counter is an Int because the
Python update subtracts elapsed cycles before testing for underflow, and
with a latch of 0 the counter can in fact go (and stay) negative. -/
structure CIATimer where
  latch : Nat := 0xFFFF
  counter : Int := 0xFFFF
  running : Bool := false
  irq_enabled : Bool := false
  one_shot : Bool := false
  input_mode : Nat := 0
deriving DecidableEq, Repr

/-- CIATimer.update: decrement by the elapsed cycles, reload from the latch
on underflow, report whether an IRQ should be triggered.  Mirrors the early
returns of the Python method. -/
def CIATimer.update (t : CIATimer) (cycles : Nat) : CIATimer × Bool :=
  if !t.running then (t, false)
  else if t.input_mode = 0 then
    let original_counter := t.counter
    let counter1 : Int := t.counter - cycles
    if original_counter > 0 ∧ counter1 ≤ 0 then
      let t1 := { t with counter := (t.latch : Int) }
      if t.irq_enabled then (t1, true)
      else if t.one_shot then ({ t1 with running := false }, false)
      else (t1, false)
    else ({ t with counter := counter1 }, false)
  else (t, false)

/-- CIATimer.reset: counter back to the latch value. -/
def CIATimer.reset (t : CIATimer) : CIATimer :=
  { t with counter := (t.latch : Int) }

/-- C64 memory map (class MemoryMap).  RAM and the VIC register shadow are
total functions from address to stored byte; the three ROM images are
optional byte functions.  The UDP debug logger and UI back references of the
Python class are pure side channels and are omitted (they are None / absent
in the modelled configuration).  The lazily created _vic_regs bytearray is
modelled as an always present zero-initialised shadow. -/
structure MemoryMap where
  ram : Nat → Nat := fun _ => 0
  basic_rom : Option (Nat → Nat) := none
  kernal_rom : Option (Nat → Nat) := none
  char_rom : Option (Nat → Nat) := none
  cia1_timer_a : CIATimer := {}
  cia1_timer_b : CIATimer := {}
  cia1_icr : Nat := 0
  pending_irq : Bool := false
  video_standard : String := "pal"
  raster_line : Nat := 300
  vic_interrupt_state : Nat := 0
  vic_regs : Nat → Nat := fun _ => 0

/-- MemoryMap._read_vic. -/
def MemoryMap.read_vic (m : MemoryMap) (reg : Nat) : Nat :=
  if reg = 0x11 then (((m.raster_line >>> 8) &&& 0x01) <<< 7) ||| (1 <<< 3)
  else if reg = 0x12 then m.raster_line &&& 0xFF
  else if reg = 0x19 then 0x00
  else if reg = 0x20 then m.vic_regs 0x20 &&& 0x0F
  else if reg = 0x21 then m.vic_regs 0x21 &&& 0x0F
  else if reg < 0x40 then m.vic_regs reg else 0

/-- MemoryMap._write_vic. -/
def MemoryMap.write_vic (m : MemoryMap) (reg value : Nat) : MemoryMap :=
  let m1 := { m with vic_regs := fun r => if r = reg then value else m.vic_regs r }
  if reg = 0x19 then { m1 with vic_interrupt_state := 0 } else m1

/-- MemoryMap._read_cia1.  Reading the ICR (reg 0x0D) acknowledges the
interrupt: it returns the current value and clears both the ICR and the
pending IRQ line, so the read returns the new map as well. -/
def MemoryMap.read_cia1 (m : MemoryMap) (reg : Nat) : Nat × MemoryMap :=
  if reg = 0x04 then (pyByte m.cia1_timer_a.counter, m)
  else if reg = 0x05 then (pyHiByte m.cia1_timer_a.counter, m)
  else if reg = 0x06 then (pyByte m.cia1_timer_b.counter, m)
  else if reg = 0x07 then (pyHiByte m.cia1_timer_b.counter, m)
  else if reg = 0x0D then
    (m.cia1_icr, { m with cia1_icr := 0, pending_irq := false })
  else if reg = 0x0E then
    let r1 := if m.cia1_timer_a.running then 0x01 else 0
    let r2 := if m.cia1_timer_a.one_shot then r1 ||| 0x08 else r1
    let r3 := if m.cia1_timer_a.input_mode ≠ 0 then r2 ||| (m.cia1_timer_a.input_mode <<< 5) else r2
    (r3, m)
  else if reg = 0x0F then
    let r1 := if m.cia1_timer_b.running then 0x01 else 0
    let r2 := if m.cia1_timer_b.one_shot then r1 ||| 0x08 else r1
    let r3 := if m.cia1_timer_b.input_mode ≠ 0 then r2 ||| (m.cia1_timer_b.input_mode <<< 5) else r2
    (r3, m)
  else (0, m)

/-- Latch low byte write of a timer: latch = (latch & 0xFF00) | value, and
when the timer is stopped the write mirrors into the counter.  The counter
bits are taken through its low 16 bits exactly as the Python bitwise ops do
on a possibly negative counter. -/
def CIATimer.write_latch_lo (t : CIATimer) (value : Nat) : CIATimer :=
  let t1 := { t with latch := (t.latch &&& 0xFF00) ||| value }
  if !t.running then
    { t1 with counter := ((((pyWord t.counter) &&& 0xFF00) ||| value : Nat) : Int) }
  else t1

/-- Latch high byte write of a timer, with the same stopped-mirroring rule. -/
def CIATimer.write_latch_hi (t : CIATimer) (value : Nat) : CIATimer :=
  let t1 := { t with latch := (t.latch &&& 0x00FF) ||| (value <<< 8) }
  if !t.running then
    { t1 with counter := ((((pyWord t.counter) &&& 0x00FF) ||| (value <<< 8) : Nat) : Int) }
  else t1

/-- Control register write of a timer (regs 0x0E / 0x0F): bit 0 starts or
stops it, reloading the counter from the latch on a stopped-to-running
transition, bit 3 selects one-shot mode, bits 5-6 select the input mode. -/
def CIATimer.write_control (t : CIATimer) (value : Nat) : CIATimer :=
  let t1 :=
    if value &&& 0x01 ≠ 0 then
      let t0 := if !t.running then { t with counter := (t.latch : Int) } else t
      { t0 with running := true }
    else { t with running := false }
  { t1 with one_shot := value &&& 0x08 ≠ 0, input_mode := (value >>> 5) &&& 0x03 }

/-- MemoryMap._write_cia1. -/
def MemoryMap.write_cia1 (m : MemoryMap) (reg value : Nat) : MemoryMap :=
  if reg = 0x04 then { m with cia1_timer_a := m.cia1_timer_a.write_latch_lo value }
  else if reg = 0x05 then { m with cia1_timer_a := m.cia1_timer_a.write_latch_hi value }
  else if reg = 0x06 then { m with cia1_timer_b := m.cia1_timer_b.write_latch_lo value }
  else if reg = 0x07 then { m with cia1_timer_b := m.cia1_timer_b.write_latch_hi value }
  else if reg = 0x0D then
    if value &&& 0x80 ≠ 0 then
      let m1 := if value &&& 0x01 ≠ 0 then
        { m with cia1_timer_a := { m.cia1_timer_a with irq_enabled := true } } else m
      if value &&& 0x02 ≠ 0 then
        { m1 with cia1_timer_b := { m1.cia1_timer_b with irq_enabled := true } } else m1
    else
      let m1 := if value &&& 0x01 ≠ 0 then
        { m with cia1_timer_a := { m.cia1_timer_a with irq_enabled := false } } else m
      if value &&& 0x02 ≠ 0 then
        { m1 with cia1_timer_b := { m1.cia1_timer_b with irq_enabled := false } } else m1
  else if reg = 0x0E then { m with cia1_timer_a := m.cia1_timer_a.write_control value }
  else if reg = 0x0F then { m with cia1_timer_b := m.cia1_timer_b.write_control value }
  else m

/-- MemoryMap._read_io: dispatch to VIC, SID (always 0), CIA1, CIA2 (always
0); all other I/O addresses read 0. -/
def MemoryMap.read_io_area (m : MemoryMap) (addr : Nat) : Nat × MemoryMap :=
  if 0xD000 ≤ addr ∧ addr < 0xD000 + 0x40 then (m.read_vic (addr - 0xD000), m)
  else if 0xD400 ≤ addr ∧ addr < 0xD400 + 0x20 then (0, m)
  else if 0xDC00 ≤ addr ∧ addr < 0xDC00 + 0x10 then m.read_cia1 (addr - 0xDC00)
  else if 0xDD00 ≤ addr ∧ addr < 0xDD00 + 0x10 then (0, m)
  else (0, m)

/-- MemoryMap._write_io: dispatch to VIC, SID (ignored), CIA1, CIA2
(ignored); all other I/O writes are discarded. -/
def MemoryMap.write_io_area (m : MemoryMap) (addr value : Nat) : MemoryMap :=
  if 0xD000 ≤ addr ∧ addr < 0xD000 + 0x40 then m.write_vic (addr - 0xD000) value
  else if 0xD400 ≤ addr ∧ addr < 0xD400 + 0x20 then m
  else if 0xDC00 ≤ addr ∧ addr < 0xDC00 + 0x10 then m.write_cia1 (addr - 0xDC00) value
  else if 0xDD00 ≤ addr ∧ addr < 0xDD00 + 0x10 then m
  else m

/-- MemoryMap.read: mask the address to 16 bits, then follow the banking
decision tree of the source (I/O or character ROM window first, then BASIC
ROM, then KERNAL ROM, then plain RAM).  Because reading the CIA ICR has a
side effect, the read returns the possibly updated map. -/
def MemoryMap.read (m : MemoryMap) (addr : Nat) : Nat × MemoryMap :=
  let a := addr &&& 0xFFFF
  if 0xD000 ≤ a ∧ a < 0xE000 then
    if m.ram 0x01 &&& 0x03 = 0x03 then m.read_io_area a
    else match m.char_rom with
      | some rom => (rom (a - 0xD000), m)
      | none => (m.ram a, m)
  else if 0xA000 ≤ a ∧ a < 0xC000 then
    if m.ram 0x01 &&& 0x07 = 0x07 then
      match m.basic_rom with
      | some rom => (rom (a - 0xA000), m)
      | none => (m.ram a, m)
    else (m.ram a, m)
  else if 0xE000 ≤ a ∧ a < 0x10000 then
    if m.ram 0x01 &&& 0x07 = 0x07 then
      match m.kernal_rom with
      | some rom => (rom (a - 0xE000), m)
      | none => (m.ram a, m)
    else (m.ram a, m)
  else (m.ram a, m)

/-- Store a byte into the flat RAM array. -/
def MemoryMap.set_ram (m : MemoryMap) (a value : Nat) : MemoryMap :=
  { m with ram := fun x => if x = a then value else m.ram x }

/-- MemoryMap.write: mask address and value, then write to RAM underneath
the ROM windows, or dispatch to the I/O registers when the I/O window is
banked in; everything else is plain RAM. -/
def MemoryMap.write (m : MemoryMap) (addr value : Nat) : MemoryMap :=
  let a := addr &&& 0xFFFF
  let v := value &&& 0xFF
  if 0xA000 ≤ a ∧ a < 0xC000 then m.set_ram a v
  else if 0xE000 ≤ a ∧ a < 0x10000 then m.set_ram a v
  else if 0xD000 ≤ a ∧ a < 0xE000 then
    if m.ram 0x01 &&& 0x03 = 0x03 then m.write_io_area a v
    else m.set_ram a v
  else m.set_ram a v

/-- 6502 CPU registers (dataclass CPUState).  The run_injected flag models
the lazily created _run_injected attribute of CPU6502 that makes the RUN
auto-injection in the CHRIN trap a one-shot. -/
structure CPUState where
  pc : Nat := 0x0000
  a : Nat := 0
  x : Nat := 0
  y : Nat := 0
  sp : Nat := 0xFF
  p : Nat := 0x04
  cycles : Nat := 0
  stopped : Bool := false
  run_injected : Bool := false
deriving DecidableEq, Repr

/-- A CPU together with its memory map (CPU6502 with self.state and
self.memory). -/
structure Machine where
  cpu : CPUState
  mem : MemoryMap

/-- CPU6502._get_flag. -/
def getFlag (p flag : Nat) : Bool := p &&& flag != 0

/-- CPU6502._set_flag.  Clearing is Python p &= ~flag, which clears exactly
the bits of flag; for the single-bit flags used by the CPU this equals
subtracting the currently set part p &&& flag. -/
def setFlag (p flag : Nat) (value : Bool) : Nat :=
  if value then p ||| flag else p - (p &&& flag)

/-- CPU6502._update_flags: Z from the masked value, N from its bit 7. -/
def updateFlags (p value : Nat) : Nat :=
  let v := value &&& 0xFF
  setFlag (setFlag p 0x02 (v == 0)) 0x80 (v &&& 0x80 != 0)

/-- CPU6502._read_word: little-endian 16-bit read, re-entering read for both
bytes so that banking (and the ICR side effect) is honoured. -/
def read_word (m : MemoryMap) (addr : Nat) : Nat × MemoryMap :=
  let r1 := m.read addr
  let r2 := r1.2.read ((addr + 1) &&& 0xFFFF)
  (r1.1 ||| (r2.1 <<< 8), r2.2)

/- Instruction implementations.  Each mirrors one method of CPU6502 (or one
inline branch of _execute_opcode) and returns the new machine and the cycle
count the Python method returns. -/

def lda_imm (s : Machine) : Machine × Nat :=
  let r := s.mem.read (s.cpu.pc + 1)
  (⟨{ s.cpu with
      a := r.1, p := updateFlags s.cpu.p r.1,
      pc := (s.cpu.pc + 2) &&& 0xFFFF }, r.2⟩, 2)

def lda_zp (s : Machine) : Machine × Nat :=
  let r1 := s.mem.read (s.cpu.pc + 1)
  let r2 := r1.2.read r1.1
  (⟨{ s.cpu with
      a := r2.1, p := updateFlags s.cpu.p r2.1,
      pc := (s.cpu.pc + 2) &&& 0xFFFF }, r2.2⟩, 3)

def lda_zpx (s : Machine) : Machine × Nat :=
  let r1 := s.mem.read (s.cpu.pc + 1)
  let r2 := r1.2.read ((r1.1 + s.cpu.x) &&& 0xFF)
  (⟨{ s.cpu with
      a := r2.1, p := updateFlags s.cpu.p r2.1,
      pc := (s.cpu.pc + 2) &&& 0xFFFF }, r2.2⟩, 4)

def lda_abs (s : Machine) : Machine × Nat :=
  let r1 := read_word s.mem (s.cpu.pc + 1)
  let r2 := r1.2.read r1.1
  (⟨{ s.cpu with
      a := r2.1, p := updateFlags s.cpu.p r2.1,
      pc := (s.cpu.pc + 3) &&& 0xFFFF }, r2.2⟩, 4)

def lda_absx (s : Machine) : Machine × Nat :=
  let r1 := read_word s.mem (s.cpu.pc + 1)
  let r2 := r1.2.read ((r1.1 + s.cpu.x) &&& 0xFFFF)
  (⟨{ s.cpu with
      a := r2.1, p := updateFlags s.cpu.p r2.1,
      pc := (s.cpu.pc + 3) &&& 0xFFFF }, r2.2⟩, 4)

def lda_absy (s : Machine) : Machine × Nat :=
  let r1 := read_word s.mem (s.cpu.pc + 1)
  let r2 := r1.2.read ((r1.1 + s.cpu.y) &&& 0xFFFF)
  (⟨{ s.cpu with
      a := r2.1, p := updateFlags s.cpu.p r2.1,
      pc := (s.cpu.pc + 3) &&& 0xFFFF }, r2.2⟩, 4)

def lda_indx (s : Machine) : Machine × Nat :=
  let r1 := s.mem.read (s.cpu.pc + 1)
  let zp_addr := (r1.1 + s.cpu.x) &&& 0xFF
  let r2 := r1.2.read zp_addr
  let r3 := r2.2.read ((zp_addr + 1) &&& 0xFF)
  let r4 := r3.2.read (r2.1 ||| (r3.1 <<< 8))
  (⟨{ s.cpu with
      a := r4.1, p := updateFlags s.cpu.p r4.1,
      pc := (s.cpu.pc + 2) &&& 0xFFFF }, r4.2⟩, 6)

def lda_indy (s : Machine) : Machine × Nat :=
  let r1 := s.mem.read (s.cpu.pc + 1)
  let r2 := r1.2.read r1.1
  let r3 := r2.2.read ((r1.1 + 1) &&& 0xFF)
  let r4 := r3.2.read (((r2.1 ||| (r3.1 <<< 8)) + s.cpu.y) &&& 0xFFFF)
  (⟨{ s.cpu with
      a := r4.1, p := updateFlags s.cpu.p r4.1,
      pc := (s.cpu.pc + 2) &&& 0xFFFF }, r4.2⟩, 5)

def ldx_imm (s : Machine) : Machine × Nat :=
  let r := s.mem.read (s.cpu.pc + 1)
  (⟨{ s.cpu with
      x := r.1, p := updateFlags s.cpu.p r.1,
      pc := (s.cpu.pc + 2) &&& 0xFFFF }, r.2⟩, 2)

def ldx_zp (s : Machine) : Machine × Nat :=
  let r1 := s.mem.read (s.cpu.pc + 1)
  let r2 := r1.2.read r1.1
  (⟨{ s.cpu with
      x := r2.1, p := updateFlags s.cpu.p r2.1,
      pc := (s.cpu.pc + 2) &&& 0xFFFF }, r2.2⟩, 3)

def ldx_zpy (s : Machine) : Machine × Nat :=
  let r1 := s.mem.read (s.cpu.pc + 1)
  let r2 := r1.2.read ((r1.1 + s.cpu.y) &&& 0xFF)
  (⟨{ s.cpu with
      x := r2.1, p := updateFlags s.cpu.p r2.1,
      pc := (s.cpu.pc + 2) &&& 0xFFFF }, r2.2⟩, 4)

def ldx_abs (s : Machine) : Machine × Nat :=
  let r1 := read_word s.mem (s.cpu.pc + 1)
  let r2 := r1.2.read r1.1
  (⟨{ s.cpu with
      x := r2.1, p := updateFlags s.cpu.p r2.1,
      pc := (s.cpu.pc + 3) &&& 0xFFFF }, r2.2⟩, 4)

def ldx_absy (s : Machine) : Machine × Nat :=
  let r1 := read_word s.mem (s.cpu.pc + 1)
  let r2 := r1.2.read ((r1.1 + s.cpu.y) &&& 0xFFFF)
  (⟨{ s.cpu with
      x := r2.1, p := updateFlags s.cpu.p r2.1,
      pc := (s.cpu.pc + 3) &&& 0xFFFF }, r2.2⟩, 4)

def ldy_imm (s : Machine) : Machine × Nat :=
  let r := s.mem.read (s.cpu.pc + 1)
  (⟨{ s.cpu with
      y := r.1, p := updateFlags s.cpu.p r.1,
      pc := (s.cpu.pc + 2) &&& 0xFFFF }, r.2⟩, 2)

def ldy_zp (s : Machine) : Machine × Nat :=
  let r1 := s.mem.read (s.cpu.pc + 1)
  let r2 := r1.2.read r1.1
  (⟨{ s.cpu with
      y := r2.1, p := updateFlags s.cpu.p r2.1,
      pc := (s.cpu.pc + 2) &&& 0xFFFF }, r2.2⟩, 3)

def ldy_zpx (s : Machine) : Machine × Nat :=
  let r1 := s.mem.read (s.cpu.pc + 1)
  let r2 := r1.2.read ((r1.1 + s.cpu.x) &&& 0xFF)
  (⟨{ s.cpu with
      y := r2.1, p := updateFlags s.cpu.p r2.1,
      pc := (s.cpu.pc + 2) &&& 0xFFFF }, r2.2⟩, 4)

def ldy_abs (s : Machine) : Machine × Nat :=
  let r1 := read_word s.mem (s.cpu.pc + 1)
  let r2 := r1.2.read r1.1
  (⟨{ s.cpu with
      y := r2.1, p := updateFlags s.cpu.p r2.1,
      pc := (s.cpu.pc + 3) &&& 0xFFFF }, r2.2⟩, 4)

def sta_zp (s : Machine) : Machine × Nat :=
  let r1 := s.mem.read (s.cpu.pc + 1)
  (⟨{ s.cpu with
      pc := (s.cpu.pc + 2) &&& 0xFFFF }, r1.2.write r1.1 s.cpu.a⟩, 3)

def sta_zpx (s : Machine) : Machine × Nat :=
  let r1 := s.mem.read (s.cpu.pc + 1)
  (⟨{ s.cpu with
      pc := (s.cpu.pc + 2) &&& 0xFFFF },
    r1.2.write ((r1.1 + s.cpu.x) &&& 0xFF) s.cpu.a⟩, 4)

def sta_abs (s : Machine) : Machine × Nat :=
  let r1 := read_word s.mem (s.cpu.pc + 1)
  (⟨{ s.cpu with
      pc := (s.cpu.pc + 3) &&& 0xFFFF }, r1.2.write r1.1 s.cpu.a⟩, 4)

def sta_absx (s : Machine) : Machine × Nat :=
  let r1 := read_word s.mem (s.cpu.pc + 1)
  (⟨{ s.cpu with
      pc := (s.cpu.pc + 3) &&& 0xFFFF },
    r1.2.write ((r1.1 + s.cpu.x) &&& 0xFFFF) s.cpu.a⟩, 5)

def sta_absy (s : Machine) : Machine × Nat :=
  let r1 := read_word s.mem (s.cpu.pc + 1)
  (⟨{ s.cpu with
      pc := (s.cpu.pc + 3) &&& 0xFFFF },
    r1.2.write ((r1.1 + s.cpu.y) &&& 0xFFFF) s.cpu.a⟩, 5)

def sta_indx (s : Machine) : Machine × Nat :=
  let r1 := s.mem.read (s.cpu.pc + 1)
  let zp_addr := (r1.1 + s.cpu.x) &&& 0xFF
  let r2 := r1.2.read zp_addr
  let r3 := r2.2.read ((zp_addr + 1) &&& 0xFF)
  (⟨{ s.cpu with
      pc := (s.cpu.pc + 2) &&& 0xFFFF },
    r3.2.write (r2.1 ||| (r3.1 <<< 8)) s.cpu.a⟩, 6)

def sta_indy (s : Machine) : Machine × Nat :=
  let r1 := s.mem.read (s.cpu.pc + 1)
  let r2 := r1.2.read r1.1
  let r3 := r2.2.read ((r1.1 + 1) &&& 0xFF)
  (⟨{ s.cpu with
      pc := (s.cpu.pc + 2) &&& 0xFFFF },
    r3.2.write (((r2.1 ||| (r3.1 <<< 8)) + s.cpu.y) &&& 0xFFFF) s.cpu.a⟩, 6)

def stx_zp (s : Machine) : Machine × Nat :=
  let r1 := s.mem.read (s.cpu.pc + 1)
  (⟨{ s.cpu with
      pc := (s.cpu.pc + 2) &&& 0xFFFF }, r1.2.write r1.1 s.cpu.x⟩, 3)

def stx_abs (s : Machine) : Machine × Nat :=
  let r1 := read_word s.mem (s.cpu.pc + 1)
  (⟨{ s.cpu with
      pc := (s.cpu.pc + 3) &&& 0xFFFF }, r1.2.write r1.1 s.cpu.x⟩, 4)

def sty_zp (s : Machine) : Machine × Nat :=
  let r1 := s.mem.read (s.cpu.pc + 1)
  (⟨{ s.cpu with
      pc := (s.cpu.pc + 2) &&& 0xFFFF }, r1.2.write r1.1 s.cpu.y⟩, 3)

def sty_abs (s : Machine) : Machine × Nat :=
  let r1 := read_word s.mem (s.cpu.pc + 1)
  (⟨{ s.cpu with
      pc := (s.cpu.pc + 3) &&& 0xFFFF }, r1.2.write r1.1 s.cpu.y⟩, 4)

def sty_zpx (s : Machine) : Machine × Nat :=
  let r1 := s.mem.read (s.cpu.pc + 1)
  (⟨{ s.cpu with
      pc := (s.cpu.pc + 2) &&& 0xFFFF },
    r1.2.write ((r1.1 + s.cpu.x) &&& 0xFF) s.cpu.y⟩, 4)

def sax_zp (s : Machine) : Machine × Nat :=
  let r1 := s.mem.read (s.cpu.pc + 1)
  (⟨{ s.cpu with
      pc := (s.cpu.pc + 2) &&& 0xFFFF },
    r1.2.write r1.1 (s.cpu.a &&& s.cpu.x)⟩, 3)

def nop_imm80 (s : Machine) : Machine × Nat :=
  (⟨{ s.cpu with
      pc := (s.cpu.pc + 1) &&& 0xFFFF }, s.mem⟩, 2)

def lax_indx (s : Machine) : Machine × Nat :=
  let r1 := s.mem.read (s.cpu.pc + 1)
  let zp_addr := (r1.1 + s.cpu.x) &&& 0xFF
  let r2 := r1.2.read zp_addr
  let r3 := r2.2.read ((zp_addr + 1) &&& 0xFF)
  let r4 := r3.2.read (r2.1 ||| (r3.1 <<< 8))
  (⟨{ s.cpu with
      a := r4.1, x := r4.1, p := updateFlags s.cpu.p r4.1,
      pc := (s.cpu.pc + 2) &&& 0xFFFF }, r4.2⟩, 6)

def lax_zp (s : Machine) : Machine × Nat :=
  let r1 := s.mem.read (s.cpu.pc + 1)
  let r2 := r1.2.read r1.1
  (⟨{ s.cpu with
      a := r2.1, x := r2.1, p := updateFlags s.cpu.p r2.1,
      pc := (s.cpu.pc + 2) &&& 0xFFFF }, r2.2⟩, 3)

def lax_abs (s : Machine) : Machine × Nat :=
  let r1 := read_word s.mem (s.cpu.pc + 1)
  let r2 := r1.2.read r1.1
  (⟨{ s.cpu with
      a := r2.1, x := r2.1, p := updateFlags s.cpu.p r2.1,
      pc := (s.cpu.pc + 3) &&& 0xFFFF }, r2.2⟩, 4)

def lax_absy (s : Machine) : Machine × Nat :=
  let r1 := read_word s.mem (s.cpu.pc + 1)
  let r2 := r1.2.read ((r1.1 + s.cpu.y) &&& 0xFFFF)
  (⟨{ s.cpu with
      a := r2.1, x := r2.1, p := updateFlags s.cpu.p r2.1,
      pc := (s.cpu.pc + 3) &&& 0xFFFF }, r2.2⟩, 4)

def dcp_zp (s : Machine) : Machine × Nat :=
  let r1 := s.mem.read (s.cpu.pc + 1)
  let r2 := r1.2.read r1.1
  let value := pyByte ((r2.1 : Int) - 1)
  let m3 := r2.2.write r1.1 value
  let result : Int := (s.cpu.a : Int) - value
  let p1 := setFlag s.cpu.p 0x01 (decide (result ≥ 0))
  let p2 := setFlag p1 0x02 (decide (result = 0))
  let p3 := setFlag p2 0x80 (pyBit7 result)
  (⟨{ s.cpu with
      p := p3, pc := (s.cpu.pc + 2) &&& 0xFFFF }, m3⟩, 5)

def adc_core (s : Machine) (value : Nat) (m : MemoryMap) (pcinc cyc : Nat) : Machine × Nat :=
  let carry := if getFlag s.cpu.p 0x01 then 1 else 0
  let result := s.cpu.a + value + carry
  let p1 := setFlag s.cpu.p 0x01 (decide (result > 0xFF))
  let a1 := result &&& 0xFF
  (⟨{ s.cpu with
      a := a1, p := updateFlags p1 a1,
      pc := (s.cpu.pc + pcinc) &&& 0xFFFF }, m⟩, cyc)

def adc_imm (s : Machine) : Machine × Nat :=
  let r := s.mem.read (s.cpu.pc + 1)
  adc_core s r.1 r.2 2 2

def adc_zp (s : Machine) : Machine × Nat :=
  let r1 := s.mem.read (s.cpu.pc + 1)
  let r2 := r1.2.read r1.1
  adc_core s r2.1 r2.2 2 3

def adc_abs (s : Machine) : Machine × Nat :=
  let r1 := read_word s.mem (s.cpu.pc + 1)
  let r2 := r1.2.read r1.1
  adc_core s r2.1 r2.2 3 4

/-- SBC without the V flag (methods _sbc_imm and _sbc_abs do not set V). -/
def sbc_core_noV (s : Machine) (value : Nat) (m : MemoryMap) (pcinc cyc : Nat) : Machine × Nat :=
  let carry : Int := if getFlag s.cpu.p 0x01 then 1 else 0
  let result : Int := (s.cpu.a : Int) - value - (1 - carry)
  let p1 := setFlag s.cpu.p 0x01 (decide (result ≥ 0))
  let a1 := pyByte result
  (⟨{ s.cpu with
      a := a1, p := updateFlags p1 a1,
      pc := (s.cpu.pc + pcinc) &&& 0xFFFF }, m⟩, cyc)

/-- SBC with the V flag, set from bit 7 of (a ^ value) and (a ^ result); for
the possibly negative result its bit 7 is that of its low byte. -/
def sbc_core_V (s : Machine) (value : Nat) (m : MemoryMap) (pcinc cyc : Nat) : Machine × Nat :=
  let carry : Int := if getFlag s.cpu.p 0x01 then 1 else 0
  let result : Int := (s.cpu.a : Int) - value - (1 - carry)
  let p1 := setFlag s.cpu.p 0x01 (decide (result ≥ 0))
  let p2 := setFlag p1 0x40
    (((s.cpu.a ^^^ value) &&& 0x80 != 0) && ((s.cpu.a ^^^ pyByte result) &&& 0x80 != 0))
  let a1 := pyByte result
  (⟨{ s.cpu with
      a := a1, p := updateFlags p2 a1,
      pc := (s.cpu.pc + pcinc) &&& 0xFFFF }, m⟩, cyc)

def sbc_imm (s : Machine) : Machine × Nat :=
  let r := s.mem.read (s.cpu.pc + 1)
  sbc_core_noV s r.1 r.2 2 2

def sbc_zp (s : Machine) : Machine × Nat :=
  let r1 := s.mem.read (s.cpu.pc + 1)
  let r2 := r1.2.read r1.1
  sbc_core_V s r2.1 r2.2 2 3

def sbc_indx (s : Machine) : Machine × Nat :=
  let r1 := s.mem.read (s.cpu.pc + 1)
  let zp_addr := (r1.1 + s.cpu.x) &&& 0xFF
  let r2 := r1.2.read zp_addr
  let r3 := r2.2.read ((zp_addr + 1) &&& 0xFF)
  let r4 := r3.2.read (r2.1 ||| (r3.1 <<< 8))
  sbc_core_V s r4.1 r4.2 2 6

def sbc_abs (s : Machine) : Machine × Nat :=
  let r1 := read_word s.mem (s.cpu.pc + 1)
  let r2 := r1.2.read r1.1
  sbc_core_noV s r2.1 r2.2 3 4

def sbc_absx (s : Machine) : Machine × Nat :=
  let r1 := read_word s.mem (s.cpu.pc + 1)
  let r2 := r1.2.read ((r1.1 + s.cpu.x) &&& 0xFFFF)
  sbc_core_V s r2.1 r2.2 3 4

def and_imm (s : Machine) : Machine × Nat :=
  let r := s.mem.read (s.cpu.pc + 1)
  let a1 := s.cpu.a &&& r.1
  (⟨{ s.cpu with
      a := a1, p := updateFlags s.cpu.p a1,
      pc := (s.cpu.pc + 2) &&& 0xFFFF }, r.2⟩, 2)

def and_zp (s : Machine) : Machine × Nat :=
  let r1 := s.mem.read (s.cpu.pc + 1)
  let r2 := r1.2.read r1.1
  let a1 := s.cpu.a &&& r2.1
  (⟨{ s.cpu with
      a := a1, p := updateFlags s.cpu.p a1,
      pc := (s.cpu.pc + 2) &&& 0xFFFF }, r2.2⟩, 3)

def and_abs (s : Machine) : Machine × Nat :=
  let r1 := read_word s.mem (s.cpu.pc + 1)
  let r2 := r1.2.read r1.1
  let a1 := s.cpu.a &&& r2.1
  (⟨{ s.cpu with
      a := a1, p := updateFlags s.cpu.p a1,
      pc := (s.cpu.pc + 3) &&& 0xFFFF }, r2.2⟩, 4)

def ora_imm (s : Machine) : Machine × Nat :=
  let r := s.mem.read (s.cpu.pc + 1)
  let a1 := s.cpu.a ||| r.1
  (⟨{ s.cpu with
      a := a1, p := updateFlags s.cpu.p a1,
      pc := (s.cpu.pc + 2) &&& 0xFFFF }, r.2⟩, 2)

def ora_zp (s : Machine) : Machine × Nat :=
  let r1 := s.mem.read (s.cpu.pc + 1)
  let r2 := r1.2.read r1.1
  let a1 := s.cpu.a ||| r2.1
  (⟨{ s.cpu with
      a := a1, p := updateFlags s.cpu.p a1,
      pc := (s.cpu.pc + 2) &&& 0xFFFF }, r2.2⟩, 3)

def ora_abs (s : Machine) : Machine × Nat :=
  let r1 := read_word s.mem (s.cpu.pc + 1)
  let r2 := r1.2.read r1.1
  let a1 := s.cpu.a ||| r2.1
  (⟨{ s.cpu with
      a := a1, p := updateFlags s.cpu.p a1,
      pc := (s.cpu.pc + 3) &&& 0xFFFF }, r2.2⟩, 4)

def ora_absy (s : Machine) : Machine × Nat :=
  let r1 := read_word s.mem (s.cpu.pc + 1)
  let r2 := r1.2.read ((r1.1 + s.cpu.y) &&& 0xFFFF)
  let a1 := s.cpu.a ||| r2.1
  (⟨{ s.cpu with
      a := a1, p := updateFlags s.cpu.p a1,
      pc := (s.cpu.pc + 3) &&& 0xFFFF }, r2.2⟩, 4)

def eor_imm (s : Machine) : Machine × Nat :=
  let r := s.mem.read (s.cpu.pc + 1)
  let a1 := s.cpu.a ^^^ r.1
  (⟨{ s.cpu with
      a := a1, p := updateFlags s.cpu.p a1,
      pc := (s.cpu.pc + 2) &&& 0xFFFF }, r.2⟩, 2)

def eor_zp (s : Machine) : Machine × Nat :=
  let r1 := s.mem.read (s.cpu.pc + 1)
  let r2 := r1.2.read r1.1
  let a1 := s.cpu.a ^^^ r2.1
  (⟨{ s.cpu with
      a := a1, p := updateFlags s.cpu.p a1,
      pc := (s.cpu.pc + 2) &&& 0xFFFF }, r2.2⟩, 3)

def eor_abs (s : Machine) : Machine × Nat :=
  let r1 := read_word s.mem (s.cpu.pc + 1)
  let r2 := r1.2.read r1.1
  let a1 := s.cpu.a ^^^ r2.1
  (⟨{ s.cpu with
      a := a1, p := updateFlags s.cpu.p a1,
      pc := (s.cpu.pc + 3) &&& 0xFFFF }, r2.2⟩, 4)

/-- Compare of a register against a value: result = (reg - value) & 0xFF,
carry from reg >= value, Z and N from the masked result. -/
def cmp_core (s : Machine) (reg value : Nat) (m : MemoryMap) (pcinc cyc : Nat) : Machine × Nat :=
  let result := pyByte ((reg : Int) - value)
  let p1 := setFlag s.cpu.p 0x01 (decide (reg ≥ value))
  (⟨{ s.cpu with
      p := updateFlags p1 result,
      pc := (s.cpu.pc + pcinc) &&& 0xFFFF }, m⟩, cyc)

def cmp_imm (s : Machine) : Machine × Nat :=
  let r := s.mem.read (s.cpu.pc + 1)
  cmp_core s s.cpu.a r.1 r.2 2 2

def cmp_zp (s : Machine) : Machine × Nat :=
  let r1 := s.mem.read (s.cpu.pc + 1)
  let r2 := r1.2.read r1.1
  cmp_core s s.cpu.a r2.1 r2.2 2 3

def cmp_abs (s : Machine) : Machine × Nat :=
  let r1 := read_word s.mem (s.cpu.pc + 1)
  let r2 := r1.2.read r1.1
  cmp_core s s.cpu.a r2.1 r2.2 3 4

def cmp_absx (s : Machine) : Machine × Nat :=
  let r1 := read_word s.mem (s.cpu.pc + 1)
  let r2 := r1.2.read ((r1.1 + s.cpu.x) &&& 0xFFFF)
  cmp_core s s.cpu.a r2.1 r2.2 3 4

def cmp_indx (s : Machine) : Machine × Nat :=
  let r1 := s.mem.read (s.cpu.pc + 1)
  let zp_addr := (r1.1 + s.cpu.x) &&& 0xFF
  let r2 := r1.2.read zp_addr
  let r3 := r2.2.read ((zp_addr + 1) &&& 0xFF)
  let r4 := r3.2.read (r2.1 ||| (r3.1 <<< 8))
  cmp_core s s.cpu.a r4.1 r4.2 2 6

def cmp_indy (s : Machine) : Machine × Nat :=
  let r1 := s.mem.read (s.cpu.pc + 1)
  let r2 := r1.2.read r1.1
  let r3 := r2.2.read ((r1.1 + 1) &&& 0xFF)
  let r4 := r3.2.read (((r2.1 ||| (r3.1 <<< 8)) + s.cpu.y) &&& 0xFFFF)
  cmp_core s s.cpu.a r4.1 r4.2 2 5

def cpx_imm (s : Machine) : Machine × Nat :=
  let r := s.mem.read (s.cpu.pc + 1)
  cmp_core s s.cpu.x r.1 r.2 2 2

def cpx_zp (s : Machine) : Machine × Nat :=
  let r1 := s.mem.read (s.cpu.pc + 1)
  let r2 := r1.2.read r1.1
  cmp_core s s.cpu.x r2.1 r2.2 2 3

def cpx_abs (s : Machine) : Machine × Nat :=
  let r1 := read_word s.mem (s.cpu.pc + 1)
  let r2 := r1.2.read r1.1
  cmp_core s s.cpu.x r2.1 r2.2 3 4

def cpy_imm (s : Machine) : Machine × Nat :=
  let r := s.mem.read (s.cpu.pc + 1)
  cmp_core s s.cpu.y r.1 r.2 2 2

def cpy_zp (s : Machine) : Machine × Nat :=
  let r1 := s.mem.read (s.cpu.pc + 1)
  let r2 := r1.2.read r1.1
  cmp_core s s.cpu.y r2.1 r2.2 2 3

def cpy_abs (s : Machine) : Machine × Nat :=
  let r1 := read_word s.mem (s.cpu.pc + 1)
  let r2 := r1.2.read r1.1
  cmp_core s s.cpu.y r2.1 r2.2 3 4

def inc_zp (s : Machine) : Machine × Nat :=
  let r1 := s.mem.read (s.cpu.pc + 1)
  let r2 := r1.2.read r1.1
  let value := (r2.1 + 1) &&& 0xFF
  (⟨{ s.cpu with
      p := updateFlags s.cpu.p value,
      pc := (s.cpu.pc + 2) &&& 0xFFFF }, r2.2.write r1.1 value⟩, 5)

def inc_abs (s : Machine) : Machine × Nat :=
  let r1 := read_word s.mem (s.cpu.pc + 1)
  let r2 := r1.2.read r1.1
  let value := (r2.1 + 1) &&& 0xFF
  (⟨{ s.cpu with
      p := updateFlags s.cpu.p value,
      pc := (s.cpu.pc + 3) &&& 0xFFFF }, r2.2.write r1.1 value⟩, 6)

def inc_absx (s : Machine) : Machine × Nat :=
  let r1 := read_word s.mem (s.cpu.pc + 1)
  let addr := (r1.1 + s.cpu.x) &&& 0xFFFF
  let r2 := r1.2.read addr
  let value := (r2.1 + 1) &&& 0xFF
  (⟨{ s.cpu with
      p := updateFlags s.cpu.p value,
      pc := (s.cpu.pc + 3) &&& 0xFFFF }, r2.2.write addr value⟩, 7)

def dec_zp (s : Machine) : Machine × Nat :=
  let r1 := s.mem.read (s.cpu.pc + 1)
  let r2 := r1.2.read r1.1
  let value := pyByte ((r2.1 : Int) - 1)
  (⟨{ s.cpu with
      p := updateFlags s.cpu.p value,
      pc := (s.cpu.pc + 2) &&& 0xFFFF }, r2.2.write r1.1 value⟩, 5)

def dec_abs (s : Machine) : Machine × Nat :=
  let r1 := read_word s.mem (s.cpu.pc + 1)
  let r2 := r1.2.read r1.1
  let value := pyByte ((r2.1 : Int) - 1)
  (⟨{ s.cpu with
      p := updateFlags s.cpu.p value,
      pc := (s.cpu.pc + 3) &&& 0xFFFF }, r2.2.write r1.1 value⟩, 6)

def inx (s : Machine) : Machine × Nat :=
  let x1 := (s.cpu.x + 1) &&& 0xFF
  (⟨{ s.cpu with
      x := x1, p := updateFlags s.cpu.p x1,
      pc := (s.cpu.pc + 1) &&& 0xFFFF }, s.mem⟩, 2)

def iny (s : Machine) : Machine × Nat :=
  let y1 := (s.cpu.y + 1) &&& 0xFF
  (⟨{ s.cpu with
      y := y1, p := updateFlags s.cpu.p y1,
      pc := (s.cpu.pc + 1) &&& 0xFFFF }, s.mem⟩, 2)

def dex (s : Machine) : Machine × Nat :=
  let x1 := pyByte ((s.cpu.x : Int) - 1)
  (⟨{ s.cpu with
      x := x1, p := updateFlags s.cpu.p x1,
      pc := (s.cpu.pc + 1) &&& 0xFFFF }, s.mem⟩, 2)

def dey (s : Machine) : Machine × Nat :=
  let y1 := pyByte ((s.cpu.y : Int) - 1)
  (⟨{ s.cpu with
      y := y1, p := updateFlags s.cpu.p y1,
      pc := (s.cpu.pc + 1) &&& 0xFFFF }, s.mem⟩, 2)

def asl_acc (s : Machine) : Machine × Nat :=
  let p1 := setFlag s.cpu.p 0x01 (s.cpu.a &&& 0x80 != 0)
  let a1 := (s.cpu.a <<< 1) &&& 0xFF
  (⟨{ s.cpu with
      a := a1, p := updateFlags p1 a1,
      pc := (s.cpu.pc + 1) &&& 0xFFFF }, s.mem⟩, 2)

def asl_zp (s : Machine) : Machine × Nat :=
  let r1 := s.mem.read (s.cpu.pc + 1)
  let r2 := r1.2.read r1.1
  let p1 := setFlag s.cpu.p 0x01 (r2.1 &&& 0x80 != 0)
  let value := (r2.1 <<< 1) &&& 0xFF
  (⟨{ s.cpu with
      p := updateFlags p1 value,
      pc := (s.cpu.pc + 2) &&& 0xFFFF }, r2.2.write r1.1 value⟩, 5)

def asl_abs (s : Machine) : Machine × Nat :=
  let r1 := read_word s.mem (s.cpu.pc + 1)
  let r2 := r1.2.read r1.1
  let p1 := setFlag s.cpu.p 0x01 (r2.1 &&& 0x80 != 0)
  let value := (r2.1 <<< 1) &&& 0xFF
  (⟨{ s.cpu with
      p := updateFlags p1 value,
      pc := (s.cpu.pc + 3) &&& 0xFFFF }, r2.2.write r1.1 value⟩, 6)

def lsr_acc (s : Machine) : Machine × Nat :=
  let p1 := setFlag s.cpu.p 0x01 (s.cpu.a &&& 0x01 != 0)
  let a1 := (s.cpu.a >>> 1) &&& 0xFF
  (⟨{ s.cpu with
      a := a1, p := updateFlags p1 a1,
      pc := (s.cpu.pc + 1) &&& 0xFFFF }, s.mem⟩, 2)

def lsr_zp (s : Machine) : Machine × Nat :=
  let r1 := s.mem.read (s.cpu.pc + 1)
  let r2 := r1.2.read r1.1
  let p1 := setFlag s.cpu.p 0x01 (r2.1 &&& 0x01 != 0)
  let value := (r2.1 >>> 1) &&& 0xFF
  (⟨{ s.cpu with
      p := updateFlags p1 value,
      pc := (s.cpu.pc + 2) &&& 0xFFFF }, r2.2.write r1.1 value⟩, 5)

def lsr_abs (s : Machine) : Machine × Nat :=
  let r1 := read_word s.mem (s.cpu.pc + 1)
  let r2 := r1.2.read r1.1
  let p1 := setFlag s.cpu.p 0x01 (r2.1 &&& 0x01 != 0)
  let value := (r2.1 >>> 1) &&& 0xFF
  (⟨{ s.cpu with
      p := updateFlags p1 value,
      pc := (s.cpu.pc + 3) &&& 0xFFFF }, r2.2.write r1.1 value⟩, 6)

def rol_acc (s : Machine) : Machine × Nat :=
  let carry := if getFlag s.cpu.p 0x01 then 1 else 0
  let new_carry := s.cpu.a &&& 0x80 != 0
  let a1 := ((s.cpu.a <<< 1) ||| carry) &&& 0xFF
  let p1 := setFlag s.cpu.p 0x01 new_carry
  (⟨{ s.cpu with
      a := a1, p := updateFlags p1 a1,
      pc := (s.cpu.pc + 1) &&& 0xFFFF }, s.mem⟩, 2)

def rol_zp (s : Machine) : Machine × Nat :=
  let r1 := s.mem.read (s.cpu.pc + 1)
  let r2 := r1.2.read r1.1
  let carry := if getFlag s.cpu.p 0x01 then 1 else 0
  let new_carry := r2.1 &&& 0x80 != 0
  let value := ((r2.1 <<< 1) ||| carry) &&& 0xFF
  let p1 := setFlag s.cpu.p 0x01 new_carry
  (⟨{ s.cpu with
      p := updateFlags p1 value,
      pc := (s.cpu.pc + 2) &&& 0xFFFF }, r2.2.write r1.1 value⟩, 5)

def rol_abs (s : Machine) : Machine × Nat :=
  let r1 := read_word s.mem (s.cpu.pc + 1)
  let r2 := r1.2.read r1.1
  let carry := if getFlag s.cpu.p 0x01 then 1 else 0
  let new_carry := r2.1 &&& 0x80 != 0
  let value := ((r2.1 <<< 1) ||| carry) &&& 0xFF
  let p1 := setFlag s.cpu.p 0x01 new_carry
  (⟨{ s.cpu with
      p := updateFlags p1 value,
      pc := (s.cpu.pc + 3) &&& 0xFFFF }, r2.2.write r1.1 value⟩, 6)

def ror_acc (s : Machine) : Machine × Nat :=
  let carry := if getFlag s.cpu.p 0x01 then 1 else 0
  let new_carry := s.cpu.a &&& 0x01 != 0
  let a1 := ((s.cpu.a >>> 1) ||| (carry <<< 7)) &&& 0xFF
  let p1 := setFlag s.cpu.p 0x01 new_carry
  (⟨{ s.cpu with
      a := a1, p := updateFlags p1 a1,
      pc := (s.cpu.pc + 1) &&& 0xFFFF }, s.mem⟩, 2)

def ror_zp (s : Machine) : Machine × Nat :=
  let r1 := s.mem.read (s.cpu.pc + 1)
  let r2 := r1.2.read r1.1
  let carry := if getFlag s.cpu.p 0x01 then 1 else 0
  let new_carry := r2.1 &&& 0x01 != 0
  let value := ((r2.1 >>> 1) ||| (carry <<< 7)) &&& 0xFF
  let p1 := setFlag s.cpu.p 0x01 new_carry
  (⟨{ s.cpu with
      p := updateFlags p1 value,
      pc := (s.cpu.pc + 2) &&& 0xFFFF }, r2.2.write r1.1 value⟩, 5)

def ror_zpx (s : Machine) : Machine × Nat :=
  let r1 := s.mem.read (s.cpu.pc + 1)
  let zp_addr := (r1.1 + s.cpu.x) &&& 0xFF
  let r2 := r1.2.read zp_addr
  let carry := if getFlag s.cpu.p 0x01 then 1 else 0
  let new_carry := r2.1 &&& 0x01 != 0
  let value := ((r2.1 >>> 1) ||| (carry <<< 7)) &&& 0xFF
  let p1 := setFlag s.cpu.p 0x01 new_carry
  (⟨{ s.cpu with
      p := updateFlags p1 value,
      pc := (s.cpu.pc + 2) &&& 0xFFFF }, r2.2.write zp_addr value⟩, 6)

def ror_abs (s : Machine) : Machine × Nat :=
  let r1 := read_word s.mem (s.cpu.pc + 1)
  let r2 := r1.2.read r1.1
  let carry := if getFlag s.cpu.p 0x01 then 1 else 0
  let new_carry := r2.1 &&& 0x01 != 0
  let value := ((r2.1 >>> 1) ||| (carry <<< 7)) &&& 0xFF
  let p1 := setFlag s.cpu.p 0x01 new_carry
  (⟨{ s.cpu with
      p := updateFlags p1 value,
      pc := (s.cpu.pc + 3) &&& 0xFFFF }, r2.2.write r1.1 value⟩, 6)

def rra_absx (s : Machine) : Machine × Nat :=
  let r1 := read_word s.mem (s.cpu.pc + 1)
  let addr := (r1.1 + s.cpu.x) &&& 0xFFFF
  let r2 := r1.2.read addr
  let carry := if getFlag s.cpu.p 0x01 then 1 else 0
  let new_carry := r2.1 &&& 0x01 != 0
  let value := ((r2.1 >>> 1) ||| (carry <<< 7)) &&& 0xFF
  let m3 := r2.2.write addr value
  let p1 := setFlag s.cpu.p 0x01 new_carry
  let carry2 := if getFlag p1 0x01 then 1 else 0
  let result := s.cpu.a + value + carry2
  let p2 := setFlag p1 0x01 (decide (result > 0xFF))
  let a1 := result &&& 0xFF
  (⟨{ s.cpu with
      a := a1, p := updateFlags p2 a1,
      pc := (s.cpu.pc + 3) &&& 0xFFFF }, m3⟩, 7)

def isc_absx (s : Machine) : Machine × Nat :=
  let r1 := read_word s.mem (s.cpu.pc + 1)
  let addr := (r1.1 + s.cpu.x) &&& 0xFFFF
  let r2 := r1.2.read addr
  let value := (r2.1 + 1) &&& 0xFF
  let m3 := r2.2.write addr value
  let carry : Int := if getFlag s.cpu.p 0x01 then 1 else 0
  let result : Int := (s.cpu.a : Int) - value - (1 - carry)
  let p1 := setFlag s.cpu.p 0x01 (decide (result ≥ 0))
  let p2 := setFlag p1 0x40
    (((s.cpu.a ^^^ value) &&& 0x80 != 0) && ((s.cpu.a ^^^ pyByte result) &&& 0x80 != 0))
  let a1 := pyByte result
  (⟨{ s.cpu with
      a := a1, p := updateFlags p2 a1,
      pc := (s.cpu.pc + 3) &&& 0xFFFF }, m3⟩, 7)

/-- CPU6502._branch: read the signed relative offset, take or fall through. -/
def branch (s : Machine) (condition : Bool) : Machine × Nat :=
  let r := s.mem.read (s.cpu.pc + 1)
  let offset : Int := if r.1 &&& 0x80 ≠ 0 then (r.1 : Int) - 256 else (r.1 : Int)
  if condition then
    (⟨{ s.cpu with
        pc := pyWord ((s.cpu.pc : Int) + 2 + offset) }, r.2⟩, 3)
  else
    (⟨{ s.cpu with
        pc := (s.cpu.pc + 2) &&& 0xFFFF }, r.2⟩, 2)

def jmp_abs (s : Machine) : Machine × Nat :=
  let r := read_word s.mem (s.cpu.pc + 1)
  (⟨{ s.cpu with pc := r.1 }, r.2⟩, 3)

/-- CPU6502._jmp_ind with the documented page-boundary bug. -/
def jmp_ind (s : Machine) : Machine × Nat :=
  let r := read_word s.mem (s.cpu.pc + 1)
  let addr := r.1
  if addr &&& 0xFF = 0xFF then
    let rl := r.2.read addr
    let rh := rl.2.read (addr &&& 0xFF00)
    (⟨{ s.cpu with pc := rl.1 ||| (rh.1 <<< 8) }, rh.2⟩, 5)
  else
    let rl := r.2.read addr
    let rh := rl.2.read (addr + 1)
    (⟨{ s.cpu with pc := rl.1 ||| (rh.1 <<< 8) }, rh.2⟩, 5)

def jsr_abs (s : Machine) : Machine × Nat :=
  let r := read_word s.mem (s.cpu.pc + 1)
  let return_addr := (s.cpu.pc + 2) &&& 0xFFFF
  let m1 := r.2.write (0x100 + s.cpu.sp) (return_addr >>> 8)
  let sp1 := pyByte ((s.cpu.sp : Int) - 1)
  let m2 := m1.write (0x100 + sp1) (return_addr &&& 0xFF)
  let sp2 := pyByte ((sp1 : Int) - 1)
  (⟨{ s.cpu with sp := sp2, pc := r.1 }, m2⟩, 6)

/-- CPU6502._rts.  The new program counter is computed exactly as in the
source, (pc_high << 8) | pc_low + 1, where the Python + binds tighter than
the |. -/
def rts (s : Machine) : Machine × Nat :=
  let sp1 := (s.cpu.sp + 1) &&& 0xFF
  let rl := s.mem.read (0x100 + sp1)
  let sp2 := (sp1 + 1) &&& 0xFF
  let rh := rl.2.read (0x100 + sp2)
  (⟨{ s.cpu with
      sp := sp2,
      pc := ((rh.1 <<< 8) ||| (rl.1 + 1)) &&& 0xFFFF }, rh.2⟩, 6)

def rti (s : Machine) : Machine × Nat :=
  let sp1 := (s.cpu.sp + 1) &&& 0xFF
  let rp := s.mem.read (0x100 + sp1)
  let sp2 := (sp1 + 1) &&& 0xFF
  let rl := rp.2.read (0x100 + sp2)
  let sp3 := (sp2 + 1) &&& 0xFF
  let rh := rl.2.read (0x100 + sp3)
  (⟨{ s.cpu with
      sp := sp3, p := rp.1 &&& 0xEF,
      pc := (rl.1 ||| (rh.1 <<< 8)) &&& 0xFFFF }, rh.2⟩, 6)

def pha (s : Machine) : Machine × Nat :=
  let m1 := s.mem.write (0x100 + s.cpu.sp) s.cpu.a
  (⟨{ s.cpu with
      sp := pyByte ((s.cpu.sp : Int) - 1),
      pc := (s.cpu.pc + 1) &&& 0xFFFF }, m1⟩, 3)

def pla (s : Machine) : Machine × Nat :=
  let sp1 := (s.cpu.sp + 1) &&& 0xFF
  let r := s.mem.read (0x100 + sp1)
  (⟨{ s.cpu with
      sp := sp1, a := r.1, p := updateFlags s.cpu.p r.1,
      pc := (s.cpu.pc + 1) &&& 0xFFFF }, r.2⟩, 4)

def php (s : Machine) : Machine × Nat :=
  let m1 := s.mem.write (0x100 + s.cpu.sp) (s.cpu.p ||| 0x10)
  (⟨{ s.cpu with
      sp := pyByte ((s.cpu.sp : Int) - 1),
      pc := (s.cpu.pc + 1) &&& 0xFFFF }, m1⟩, 3)

def plp (s : Machine) : Machine × Nat :=
  let sp1 := (s.cpu.sp + 1) &&& 0xFF
  let r := s.mem.read (0x100 + sp1)
  (⟨{ s.cpu with
      sp := sp1, p := r.1 &&& 0xEF,
      pc := (s.cpu.pc + 1) &&& 0xFFFF }, r.2⟩, 4)

def ply (s : Machine) : Machine × Nat :=
  let sp1 := (s.cpu.sp + 1) &&& 0xFF
  let r := s.mem.read (0x100 + sp1)
  (⟨{ s.cpu with
      sp := sp1, y := r.1, p := updateFlags s.cpu.p r.1,
      pc := (s.cpu.pc + 1) &&& 0xFFFF }, r.2⟩, 4)

def tax (s : Machine) : Machine × Nat :=
  (⟨{ s.cpu with
      x := s.cpu.a, p := updateFlags s.cpu.p s.cpu.a,
      pc := (s.cpu.pc + 1) &&& 0xFFFF }, s.mem⟩, 2)

def tay (s : Machine) : Machine × Nat :=
  (⟨{ s.cpu with
      y := s.cpu.a, p := updateFlags s.cpu.p s.cpu.a,
      pc := (s.cpu.pc + 1) &&& 0xFFFF }, s.mem⟩, 2)

def txa (s : Machine) : Machine × Nat :=
  (⟨{ s.cpu with
      a := s.cpu.x, p := updateFlags s.cpu.p s.cpu.x,
      pc := (s.cpu.pc + 1) &&& 0xFFFF }, s.mem⟩, 2)

def tya (s : Machine) : Machine × Nat :=
  (⟨{ s.cpu with
      a := s.cpu.y, p := updateFlags s.cpu.p s.cpu.y,
      pc := (s.cpu.pc + 1) &&& 0xFFFF }, s.mem⟩, 2)

def tsx (s : Machine) : Machine × Nat :=
  (⟨{ s.cpu with
      x := s.cpu.sp, p := updateFlags s.cpu.p s.cpu.sp,
      pc := (s.cpu.pc + 1) &&& 0xFFFF }, s.mem⟩, 2)

def txs (s : Machine) : Machine × Nat :=
  (⟨{ s.cpu with
      sp := s.cpu.x,
      pc := (s.cpu.pc + 1) &&& 0xFFFF }, s.mem⟩, 2)

def clc (s : Machine) : Machine × Nat :=
  (⟨{ s.cpu with
      p := setFlag s.cpu.p 0x01 false,
      pc := (s.cpu.pc + 1) &&& 0xFFFF }, s.mem⟩, 2)

def sec (s : Machine) : Machine × Nat :=
  (⟨{ s.cpu with
      p := setFlag s.cpu.p 0x01 true,
      pc := (s.cpu.pc + 1) &&& 0xFFFF }, s.mem⟩, 2)

/-- Opcode 0x58 (CLI): clear the pending IRQ line first, then clear the I
flag, then advance the program counter. -/
def cli_op (s : Machine) : Machine × Nat :=
  let m1 := { s.mem with pending_irq := false }
  (⟨{ s.cpu with
      p := setFlag s.cpu.p 0x04 false,
      pc := (s.cpu.pc + 1) &&& 0xFFFF }, m1⟩, 2)

def sei_op (s : Machine) : Machine × Nat :=
  (⟨{ s.cpu with
      p := setFlag s.cpu.p 0x04 true,
      pc := (s.cpu.pc + 1) &&& 0xFFFF }, s.mem⟩, 2)

def cld (s : Machine) : Machine × Nat :=
  (⟨{ s.cpu with
      p := setFlag s.cpu.p 0x08 false,
      pc := (s.cpu.pc + 1) &&& 0xFFFF }, s.mem⟩, 2)

def sed (s : Machine) : Machine × Nat :=
  (⟨{ s.cpu with
      p := setFlag s.cpu.p 0x08 true,
      pc := (s.cpu.pc + 1) &&& 0xFFFF }, s.mem⟩, 2)

def clv (s : Machine) : Machine × Nat :=
  (⟨{ s.cpu with
      p := setFlag s.cpu.p 0x40 false,
      pc := (s.cpu.pc + 1) &&& 0xFFFF }, s.mem⟩, 2)

def brk (s : Machine) : Machine × Nat :=
  let pc_high := (s.cpu.pc + 2) >>> 8
  let pc_low := (s.cpu.pc + 2) &&& 0xFF
  let m1 := s.mem.write (0x100 + s.cpu.sp) pc_high
  let sp1 := pyByte ((s.cpu.sp : Int) - 1)
  let m2 := m1.write (0x100 + sp1) pc_low
  let sp2 := pyByte ((sp1 : Int) - 1)
  let m3 := m2.write (0x100 + sp2) (s.cpu.p ||| 0x10)
  let sp3 := pyByte ((sp2 : Int) - 1)
  let p1 := setFlag s.cpu.p 0x04 true
  let r := read_word m3 0xFFFE
  (⟨{ s.cpu with sp := sp3, p := p1, pc := r.1 }, r.2⟩, 7)

def kil (s : Machine) : Machine × Nat :=
  (⟨{ s.cpu with
      stopped := true,
      pc := (s.cpu.pc + 1) &&& 0xFFFF }, s.mem⟩, 0)

def nop_ea (s : Machine) : Machine × Nat :=
  (⟨{ s.cpu with pc := (s.cpu.pc + 1) &&& 0xFFFF }, s.mem⟩, 2)

def nop_imm2 (s : Machine) : Machine × Nat :=
  (⟨{ s.cpu with pc := (s.cpu.pc + 2) &&& 0xFFFF }, s.mem⟩, 2)

def nop_zp3 (s : Machine) : Machine × Nat :=
  (⟨{ s.cpu with pc := (s.cpu.pc + 2) &&& 0xFFFF }, s.mem⟩, 3)

def nop_absx4 (s : Machine) : Machine × Nat :=
  (⟨{ s.cpu with pc := (s.cpu.pc + 3) &&& 0xFFFF }, s.mem⟩, 4)

def undoc_nop (s : Machine) : Machine × Nat :=
  (⟨{ s.cpu with pc := (s.cpu.pc + 2) &&& 0xFFFF }, s.mem⟩, 3)

/-- Unknown opcode: halt the CPU without advancing the program counter and
report 0 cycles, like the source (the diagnostic printing is a pure side
channel). -/
def unknown_opcode (s : Machine) : Machine × Nat :=
  (⟨{ s.cpu with stopped := true }, s.mem⟩, 0)

def bit_zp (s : Machine) : Machine × Nat :=
  let r1 := s.mem.read (s.cpu.pc + 1)
  let r2 := r1.2.read r1.1
  let p1 := setFlag s.cpu.p 0x40 (r2.1 &&& 0x40 != 0)
  let p2 := setFlag p1 0x80 (r2.1 &&& 0x80 != 0)
  let p3 := setFlag p2 0x02 (s.cpu.a &&& r2.1 == 0)
  (⟨{ s.cpu with
      p := p3, pc := (s.cpu.pc + 2) &&& 0xFFFF }, r2.2⟩, 3)

def bit_abs (s : Machine) : Machine × Nat :=
  let r1 := read_word s.mem (s.cpu.pc + 1)
  let r2 := r1.2.read r1.1
  let p1 := setFlag s.cpu.p 0x40 (r2.1 &&& 0x40 != 0)
  let p2 := setFlag p1 0x80 (r2.1 &&& 0x80 != 0)
  let p3 := setFlag p2 0x02 (s.cpu.a &&& r2.1 == 0)
  (⟨{ s.cpu with
      p := p3, pc := (s.cpu.pc + 3) &&& 0xFFFF }, r2.2⟩, 4)

/-- CPU6502._execute_opcode: the long conditional chain of the source, in
source order (so the specific handlers for 0x80, 0xA3, 0xC7, 0x7A, 0x7F,
0xA7, 0xAF, 0xBF, 0xFF, 0x02 and the NOP groups shadow the later generic
undocumented-opcode list). -/
def execOpcode (s : Machine) (opcode : Nat) : Machine × Nat :=
  if opcode = 0xA9 then lda_imm s
  else if opcode = 0xA5 then lda_zp s
  else if opcode = 0xB5 then lda_zpx s
  else if opcode = 0xAD then lda_abs s
  else if opcode = 0xBD then lda_absx s
  else if opcode = 0xB9 then lda_absy s
  else if opcode = 0xA1 then lda_indx s
  else if opcode = 0xB1 then lda_indy s
  else if opcode = 0xA2 then ldx_imm s
  else if opcode = 0xA6 then ldx_zp s
  else if opcode = 0xAE then ldx_abs s
  else if opcode = 0xB6 then ldx_zpy s
  else if opcode = 0xBE then ldx_absy s
  else if opcode = 0xA0 then ldy_imm s
  else if opcode = 0xA4 then ldy_zp s
  else if opcode = 0xAC then ldy_abs s
  else if opcode = 0xB4 then ldy_zpx s
  else if opcode = 0x85 then sta_zp s
  else if opcode = 0x95 then sta_zpx s
  else if opcode = 0x8D then sta_abs s
  else if opcode = 0x9D then sta_absx s
  else if opcode = 0x99 then sta_absy s
  else if opcode = 0x81 then sta_indx s
  else if opcode = 0x91 then sta_indy s
  else if opcode = 0x86 then stx_zp s
  else if opcode = 0x8E then stx_abs s
  else if opcode = 0x84 then sty_zp s
  else if opcode = 0x8C then sty_abs s
  else if opcode = 0x94 then sty_zpx s
  else if opcode = 0x87 then sax_zp s
  else if opcode = 0x80 then nop_imm80 s
  else if opcode = 0xA3 then lax_indx s
  else if opcode = 0xC7 then dcp_zp s
  else if opcode = 0x69 then adc_imm s
  else if opcode = 0x65 then adc_zp s
  else if opcode = 0x6D then adc_abs s
  else if opcode = 0xE9 then sbc_imm s
  else if opcode = 0xE5 then sbc_zp s
  else if opcode = 0xE1 then sbc_indx s
  else if opcode = 0xED then sbc_abs s
  else if opcode = 0xFD then sbc_absx s
  else if opcode = 0x29 then and_imm s
  else if opcode = 0x25 then and_zp s
  else if opcode = 0x2D then and_abs s
  else if opcode = 0x09 then ora_imm s
  else if opcode = 0x05 then ora_zp s
  else if opcode = 0x0D then ora_abs s
  else if opcode = 0x19 then ora_absy s
  else if opcode = 0x49 then eor_imm s
  else if opcode = 0x45 then eor_zp s
  else if opcode = 0x4D then eor_abs s
  else if opcode = 0xC9 then cmp_imm s
  else if opcode = 0xC5 then cmp_zp s
  else if opcode = 0xCD then cmp_abs s
  else if opcode = 0xDD then cmp_absx s
  else if opcode = 0xE0 then cpx_imm s
  else if opcode = 0xE4 then cpx_zp s
  else if opcode = 0xEC then cpx_abs s
  else if opcode = 0xC0 then cpy_imm s
  else if opcode = 0xC4 then cpy_zp s
  else if opcode = 0xCC then cpy_abs s
  else if opcode = 0xC1 then cmp_indx s
  else if opcode = 0xD1 then cmp_indy s
  else if opcode = 0xE6 then inc_zp s
  else if opcode = 0xEE then inc_abs s
  else if opcode = 0xC6 then dec_zp s
  else if opcode = 0xCE then dec_abs s
  else if opcode = 0xE8 then inx s
  else if opcode = 0xC8 then iny s
  else if opcode = 0xCA then dex s
  else if opcode = 0x88 then dey s
  else if opcode = 0x0A then asl_acc s
  else if opcode = 0x06 then asl_zp s
  else if opcode = 0x0E then asl_abs s
  else if opcode = 0x4A then lsr_acc s
  else if opcode = 0x46 then lsr_zp s
  else if opcode = 0x4E then lsr_abs s
  else if opcode = 0x2A then rol_acc s
  else if opcode = 0x26 then rol_zp s
  else if opcode = 0x2E then rol_abs s
  else if opcode = 0x6A then ror_acc s
  else if opcode = 0x66 then ror_zp s
  else if opcode = 0x76 then ror_zpx s
  else if opcode = 0x6E then ror_abs s
  else if opcode = 0xFE then inc_absx s
  else if opcode = 0x90 then branch s (!getFlag s.cpu.p 0x01)
  else if opcode = 0xB0 then branch s (getFlag s.cpu.p 0x01)
  else if opcode = 0xF0 then branch s (getFlag s.cpu.p 0x02)
  else if opcode = 0xD0 then branch s (!getFlag s.cpu.p 0x02)
  else if opcode = 0x10 then branch s (!getFlag s.cpu.p 0x80)
  else if opcode = 0x30 then branch s (getFlag s.cpu.p 0x80)
  else if opcode = 0x50 then branch s (!getFlag s.cpu.p 0x40)
  else if opcode = 0x70 then branch s (getFlag s.cpu.p 0x40)
  else if opcode = 0x4C then jmp_abs s
  else if opcode = 0x6C then jmp_ind s
  else if opcode = 0x20 then jsr_abs s
  else if opcode = 0x60 then rts s
  else if opcode = 0x40 then rti s
  else if opcode = 0x48 then pha s
  else if opcode = 0x68 then pla s
  else if opcode = 0x08 then php s
  else if opcode = 0x28 then plp s
  else if opcode = 0x7A then ply s
  else if opcode = 0x7F then rra_absx s
  else if opcode = 0xA7 then lax_zp s
  else if opcode = 0xAF then lax_abs s
  else if opcode = 0xBF then lax_absy s
  else if opcode = 0xFF then isc_absx s
  else if opcode = 0xAA then tax s
  else if opcode = 0xA8 then tay s
  else if opcode = 0x8A then txa s
  else if opcode = 0x98 then tya s
  else if opcode = 0xBA then tsx s
  else if opcode = 0x9A then txs s
  else if opcode = 0x18 then clc s
  else if opcode = 0x38 then sec s
  else if opcode = 0x58 then cli_op s
  else if opcode = 0x78 then sei_op s
  else if opcode = 0xD8 then cld s
  else if opcode = 0xF8 then sed s
  else if opcode = 0xB8 then clv s
  else if opcode = 0x00 then brk s
  else if opcode = 0x02 then kil s
  else if opcode = 0xEA then nop_ea s
  else if opcode ∈ [0x80, 0x82, 0x89, 0xC2, 0xE2] then nop_imm2 s
  else if opcode ∈ [0x04, 0x44, 0x64] then nop_zp3 s
  else if opcode ∈ [0x14, 0x1C, 0x3C, 0x5C, 0x7C, 0xDC, 0xFC] then nop_absx4 s
  else if opcode = 0x24 then bit_zp s
  else if opcode = 0x2C then bit_abs s
  else if opcode ∈ [0x02, 0x03, 0x07, 0x0B, 0x0F, 0x12, 0x13, 0x17, 0x1A, 0x1B,
      0x1C, 0x1F, 0x22, 0x27, 0x2F, 0x32, 0x33, 0x34, 0x37, 0x3A, 0x3B, 0x3C,
      0x3F, 0x42, 0x43, 0x47, 0x4B, 0x4F, 0x52, 0x53, 0x54, 0x57, 0x5A, 0x5B,
      0x5C, 0x5F, 0x62, 0x63, 0x64, 0x67, 0x6B, 0x6F, 0x72, 0x73, 0x74, 0x77,
      0x7A, 0x7B, 0x7C, 0x7F, 0x80, 0x82, 0x83, 0x87, 0x8B, 0x8F, 0x92, 0x93,
      0x97, 0x9B, 0x9C, 0x9E, 0x9F, 0xA3, 0xA7, 0xAB, 0xAF, 0xB2, 0xB3, 0xB7,
      0xBB, 0xBF, 0xC2, 0xC3, 0xC7, 0xCB, 0xCF, 0xD2, 0xD3, 0xD4, 0xD7, 0xDA,
      0xDB, 0xDC, 0xDF, 0xE2, 0xE3, 0xE7, 0xEB, 0xEF, 0xF2, 0xF3, 0xF4, 0xF7,
      0xFA, 0xFB, 0xFC, 0xFF] then undoc_nop s
  else unknown_opcode s

/-- CPU6502._update_cia_timers: tick Timer A by the elapsed cycles, latch
its IRQ into the ICR, then tick Timer B (by one per Timer A underflow in
input mode 2, else by the elapsed cycles). -/
def updateCiaTimers (m : MemoryMap) (cycles : Nat) : MemoryMap :=
  let ua := m.cia1_timer_a.update cycles
  let m1 : MemoryMap := { m with cia1_timer_a := ua.1 }
  let m2 : MemoryMap :=
    if ua.2 then
      let m1b : MemoryMap :=
        if m1.cia1_timer_a.irq_enabled then
          { m1 with cia1_icr := m1.cia1_icr ||| 0x01 ||| 0x80, pending_irq := true }
        else m1
      { m1b with cia1_timer_a := m1b.cia1_timer_a.reset }
    else m1
  let timer_a_underflow : Bool :=
    decide (m2.cia1_timer_a.counter ≤ 0) && m2.cia1_timer_a.running
  if m2.cia1_timer_b.input_mode = 2 then
    if timer_a_underflow then
      let ub := m2.cia1_timer_b.update 1
      let m3 := { m2 with cia1_timer_b := ub.1 }
      if ub.2 then
        let m4 := { m3 with cia1_icr := m3.cia1_icr ||| 0x02 ||| 0x80, pending_irq := true }
        { m4 with cia1_timer_b := m4.cia1_timer_b.reset }
      else m3
    else m2
  else
    let ub := m2.cia1_timer_b.update cycles
    let m3 := { m2 with cia1_timer_b := ub.1 }
    if ub.2 then
      let m4 := { m3 with cia1_icr := m3.cia1_icr ||| 0x02 ||| 0x80, pending_irq := true }
      { m4 with cia1_timer_b := m4.cia1_timer_b.reset }
    else m3

/-- CPU6502._handle_cia_interrupt: when ICR bit 0 is latched, increment the
24-bit jiffy clock at $A0/$A1/$A2; nothing else is touched, and neither the
ICR nor the pending IRQ line is cleared here. -/
def handleCiaInterrupt (m : MemoryMap) : MemoryMap :=
  if m.cia1_icr &&& 0x01 ≠ 0 then
    let r0 := m.read 0xA0
    let r1 := r0.2.read 0xA1
    let r2 := r1.2.read 0xA2
    let jiffy := (r0.1 ||| (r1.1 <<< 8) ||| (r2.1 <<< 16)) + 1
    let m4 := r2.2.write 0xA0 (jiffy &&& 0xFF)
    let m5 := m4.write 0xA1 ((jiffy >>> 8) &&& 0xFF)
    m5.write 0xA2 ((jiffy >>> 16) &&& 0xFF)
  else m

/-- The CHRIN trap at $FFCF: pop a byte from the keyboard buffer (pointer at
$F7/$F8, defaulting to $0277) into A, or on an empty buffer auto-inject RUN
plus carriage return once and return 0; then synthesize the RTS using the
same (pc_high << 8) | pc_low + 1 expression as the source, stopping the CPU
if the resulting address is $0000.  Returns 20 cycles. -/
def chrin_trap (s : Machine) : Machine × Nat :=
  let r0 := s.mem.read 0xC6
  let kb_buf_len := r0.1
  let st1 :=
    if kb_buf_len > 0 then
      let rp1 := r0.2.read 0xF7
      let rp2 := rp1.2.read 0xF8
      let ptr0 := rp1.1 ||| (rp2.1 <<< 8)
      let kb_buf_ptr := if ptr0 = 0 then 0x0277 else ptr0
      let rc := rp2.2.read kb_buf_ptr
      let m1 := rc.2.write 0xC6 ((kb_buf_len - 1) &&& 0xFF)
      let m2 := m1.write kb_buf_ptr 0
      (⟨{ s.cpu with a := rc.1 }, m2⟩ : Machine)
    else
      if !s.cpu.run_injected then
        let m1 := r0.2.write (0x0277 + 0) 0x52
        let m2 := m1.write (0x0277 + 1) 0x55
        let m3 := m2.write (0x0277 + 2) 0x4E
        let m4 := m3.write (0x0277 + 3) 0x0D
        let m5 := m4.write 0xC6 4
        (⟨{ s.cpu with run_injected := true, a := 0 }, m5⟩ : Machine)
      else
        (⟨{ s.cpu with a := 0 }, r0.2⟩ : Machine)
  let sp1 := (st1.cpu.sp + 1) &&& 0xFF
  let rl := st1.mem.read (0x100 + sp1)
  let sp2 := (sp1 + 1) &&& 0xFF
  let rh := rl.2.read (0x100 + sp2)
  let pc1 := ((rh.1 <<< 8) ||| (rl.1 + 1)) &&& 0xFFFF
  let cpu1 := { st1.cpu with
      sp := sp2, pc := pc1,
      stopped := if pc1 = 0 then true else st1.cpu.stopped }
  (⟨cpu1, rh.2⟩, 20)

/-- Fill the 1000 screen bytes $0400-$07E7 with $20 (the clear-screen loop
of the CHROUT trap). -/
def clearScreen (m : MemoryMap) : MemoryMap :=
  (List.range 1000).foldl (fun mm i => mm.write (0x0400 + i) 0x20) m

/-- The CHROUT trap at $FFD2: write the character in A at the cursor
position from $D1/$D2 (clamped into screen RAM), handling $0D as carriage
return (next row modulo 25, no scrolling) and $93 as clear screen; update
the cursor pointer and synthesize the RTS exactly as the source, stopping
the CPU when the popped address is $0000.  Returns 20 cycles. -/
def chrout_trap (s : Machine) : Machine × Nat :=
  let char := s.cpu.a
  let r1 := s.mem.read 0xD1
  let r2 := r1.2.read 0xD2
  let cursor_addr0 := r1.1 ||| (r2.1 <<< 8)
  let cursor_addr := if cursor_addr0 < 0x0400 ∨ cursor_addr0 ≥ 0x0400 + 1000
    then 0x0400 else cursor_addr0
  let cm :=
    if char = 0x0D then
      let row := (cursor_addr - 0x0400) / 40
      let row1 := (row + 1) % 25
      ((0x0400 + row1 * 40 : Nat), r2.2)
    else if char = 0x93 then
      ((0x0400 : Nat), clearScreen r2.2)
    else
      if 0x0400 ≤ cursor_addr ∧ cursor_addr < 0x0400 + 1000 then
        let m3 := r2.2.write cursor_addr char
        let c1 := (cursor_addr + 1) &&& 0xFFFF
        (if c1 ≥ 0x0400 + 1000 then (0x0400 : Nat) else c1, m3)
      else (cursor_addr, r2.2)
  let m4 := cm.2.write 0xD1 (cm.1 &&& 0xFF)
  let m5 := m4.write 0xD2 ((cm.1 >>> 8) &&& 0xFF)
  let sp1 := (s.cpu.sp + 1) &&& 0xFF
  let rl := m5.read (0x100 + sp1)
  let sp2 := (sp1 + 1) &&& 0xFF
  let rh := rl.2.read (0x100 + sp2)
  let pc1 := ((rh.1 <<< 8) ||| (rl.1 + 1)) &&& 0xFFFF
  let cpu1 := { s.cpu with
      sp := sp2, pc := pc1,
      stopped := if pc1 = 0 then true else s.cpu.stopped }
  (⟨cpu1, rh.2⟩, 20)

/-- The straight-line tail of CPU6502.step for a normal (non-trap) fetch:
execute the opcode, add its cycles to the counter, tick the CIA timers,
advance the raster line.  The pending-IRQ service that follows in step is
applied separately so that its effect can be stated in isolation. -/
def step_exec (s : Machine) (opcode : Nat) : Machine × Nat :=
  let r := execOpcode s opcode
  let cpu2 := { r.1.cpu with cycles := r.1.cpu.cycles + r.2 }
  let m2 := updateCiaTimers r.1.mem r.2
  let raster_max := if m2.video_standard = "pal" then 312 else 263
  let m3 := { m2 with raster_line := (m2.raster_line + 1) % raster_max }
  (⟨cpu2, m3⟩, r.2)

/-- Fetch the opcode at the program counter (a read, because reading the CIA
ICR has a side effect) and run the normal execution tail. -/
def step_pre (s : Machine) : Machine × Nat :=
  let rOp := s.mem.read s.cpu.pc
  step_exec ⟨s.cpu, rOp.2⟩ rOp.1

/-- CPU6502.step: return 1 immediately when stopped; handle the CINT, CHRIN
and CHROUT traps purely by program-counter value (the trap test does not
consult the banking register); otherwise execute one instruction and, if an
IRQ is pending while the I flag is clear and the CIA ICR has bit 7 set,
run the CIA interrupt service. -/
def step (s : Machine) : Machine × Nat :=
  if s.cpu.stopped then (s, 1)
  else
    let pc := s.cpu.pc
    let rOp := s.mem.read pc
    let s1 : Machine := ⟨s.cpu, rOp.2⟩
    if pc = 0xFF5B then
      (⟨{ s1.cpu with pc := 0xFCFE, sp := s1.cpu.sp + 2 }, s1.mem⟩, 1)
    else if pc = 0xFFCF then chrin_trap s1
    else if pc = 0xFFD2 then chrout_trap s1
    else
      let r := step_exec s1 rOp.1
      let sc := r.1
      let m4 :=
        if sc.mem.pending_irq ∧ ¬ (getFlag sc.cpu.p 0x04 = true) then
          if sc.mem.cia1_icr &&& 0x80 ≠ 0 then handleCiaInterrupt sc.mem else sc.mem
        else sc.mem
      (⟨sc.cpu, m4⟩, r.2)

/- Cycle-count and cycle-counter facts of each instruction helper. -/
@[simp] theorem lda_imm_cyc (s : Machine) : (lda_imm s).2 = 2 := rfl
@[simp] theorem lda_zp_cyc (s : Machine) : (lda_zp s).2 = 3 := rfl
@[simp] theorem lda_zpx_cyc (s : Machine) : (lda_zpx s).2 = 4 := rfl
@[simp] theorem lda_abs_cyc (s : Machine) : (lda_abs s).2 = 4 := rfl
@[simp] theorem lda_absx_cyc (s : Machine) : (lda_absx s).2 = 4 := rfl
@[simp] theorem lda_absy_cyc (s : Machine) : (lda_absy s).2 = 4 := rfl
@[simp] theorem lda_indx_cyc (s : Machine) : (lda_indx s).2 = 6 := rfl
@[simp] theorem lda_indy_cyc (s : Machine) : (lda_indy s).2 = 5 := rfl
@[simp] theorem ldx_imm_cyc (s : Machine) : (ldx_imm s).2 = 2 := rfl
@[simp] theorem ldx_zp_cyc (s : Machine) : (ldx_zp s).2 = 3 := rfl
@[simp] theorem ldx_zpy_cyc (s : Machine) : (ldx_zpy s).2 = 4 := rfl
@[simp] theorem ldx_abs_cyc (s : Machine) : (ldx_abs s).2 = 4 := rfl
@[simp] theorem ldx_absy_cyc (s : Machine) : (ldx_absy s).2 = 4 := rfl
@[simp] theorem ldy_imm_cyc (s : Machine) : (ldy_imm s).2 = 2 := rfl
@[simp] theorem ldy_zp_cyc (s : Machine) : (ldy_zp s).2 = 3 := rfl
@[simp] theorem ldy_zpx_cyc (s : Machine) : (ldy_zpx s).2 = 4 := rfl
@[simp] theorem ldy_abs_cyc (s : Machine) : (ldy_abs s).2 = 4 := rfl
@[simp] theorem sta_zp_cyc (s : Machine) : (sta_zp s).2 = 3 := rfl
@[simp] theorem sta_zpx_cyc (s : Machine) : (sta_zpx s).2 = 4 := rfl
@[simp] theorem sta_abs_cyc (s : Machine) : (sta_abs s).2 = 4 := rfl
@[simp] theorem sta_absx_cyc (s : Machine) : (sta_absx s).2 = 5 := rfl
@[simp] theorem sta_absy_cyc (s : Machine) : (sta_absy s).2 = 5 := rfl
@[simp] theorem sta_indx_cyc (s : Machine) : (sta_indx s).2 = 6 := rfl
@[simp] theorem sta_indy_cyc (s : Machine) : (sta_indy s).2 = 6 := rfl
@[simp] theorem stx_zp_cyc (s : Machine) : (stx_zp s).2 = 3 := rfl
@[simp] theorem stx_abs_cyc (s : Machine) : (stx_abs s).2 = 4 := rfl
@[simp] theorem sty_zp_cyc (s : Machine) : (sty_zp s).2 = 3 := rfl
@[simp] theorem sty_abs_cyc (s : Machine) : (sty_abs s).2 = 4 := rfl
@[simp] theorem sty_zpx_cyc (s : Machine) : (sty_zpx s).2 = 4 := rfl
@[simp] theorem sax_zp_cyc (s : Machine) : (sax_zp s).2 = 3 := rfl
@[simp] theorem nop_imm80_cyc (s : Machine) : (nop_imm80 s).2 = 2 := rfl
@[simp] theorem lax_indx_cyc (s : Machine) : (lax_indx s).2 = 6 := rfl
@[simp] theorem lax_zp_cyc (s : Machine) : (lax_zp s).2 = 3 := rfl
@[simp] theorem lax_abs_cyc (s : Machine) : (lax_abs s).2 = 4 := rfl
@[simp] theorem lax_absy_cyc (s : Machine) : (lax_absy s).2 = 4 := rfl
@[simp] theorem dcp_zp_cyc (s : Machine) : (dcp_zp s).2 = 5 := rfl
@[simp] theorem adc_imm_cyc (s : Machine) : (adc_imm s).2 = 2 := rfl
@[simp] theorem adc_zp_cyc (s : Machine) : (adc_zp s).2 = 3 := rfl
@[simp] theorem adc_abs_cyc (s : Machine) : (adc_abs s).2 = 4 := rfl
@[simp] theorem sbc_imm_cyc (s : Machine) : (sbc_imm s).2 = 2 := rfl
@[simp] theorem sbc_zp_cyc (s : Machine) : (sbc_zp s).2 = 3 := rfl
@[simp] theorem sbc_indx_cyc (s : Machine) : (sbc_indx s).2 = 6 := rfl
@[simp] theorem sbc_abs_cyc (s : Machine) : (sbc_abs s).2 = 4 := rfl
@[simp] theorem sbc_absx_cyc (s : Machine) : (sbc_absx s).2 = 4 := rfl
@[simp] theorem and_imm_cyc (s : Machine) : (and_imm s).2 = 2 := rfl
@[simp] theorem and_zp_cyc (s : Machine) : (and_zp s).2 = 3 := rfl
@[simp] theorem and_abs_cyc (s : Machine) : (and_abs s).2 = 4 := rfl
@[simp] theorem ora_imm_cyc (s : Machine) : (ora_imm s).2 = 2 := rfl
@[simp] theorem ora_zp_cyc (s : Machine) : (ora_zp s).2 = 3 := rfl
@[simp] theorem ora_abs_cyc (s : Machine) : (ora_abs s).2 = 4 := rfl
@[simp] theorem ora_absy_cyc (s : Machine) : (ora_absy s).2 = 4 := rfl
@[simp] theorem eor_imm_cyc (s : Machine) : (eor_imm s).2 = 2 := rfl
@[simp] theorem eor_zp_cyc (s : Machine) : (eor_zp s).2 = 3 := rfl
@[simp] theorem eor_abs_cyc (s : Machine) : (eor_abs s).2 = 4 := rfl
@[simp] theorem cmp_imm_cyc (s : Machine) : (cmp_imm s).2 = 2 := rfl
@[simp] theorem cmp_zp_cyc (s : Machine) : (cmp_zp s).2 = 3 := rfl
@[simp] theorem cmp_abs_cyc (s : Machine) : (cmp_abs s).2 = 4 := rfl
@[simp] theorem cmp_absx_cyc (s : Machine) : (cmp_absx s).2 = 4 := rfl
@[simp] theorem cmp_indx_cyc (s : Machine) : (cmp_indx s).2 = 6 := rfl
@[simp] theorem cmp_indy_cyc (s : Machine) : (cmp_indy s).2 = 5 := rfl
@[simp] theorem cpx_imm_cyc (s : Machine) : (cpx_imm s).2 = 2 := rfl
@[simp] theorem cpx_zp_cyc (s : Machine) : (cpx_zp s).2 = 3 := rfl
@[simp] theorem cpx_abs_cyc (s : Machine) : (cpx_abs s).2 = 4 := rfl
@[simp] theorem cpy_imm_cyc (s : Machine) : (cpy_imm s).2 = 2 := rfl
@[simp] theorem cpy_zp_cyc (s : Machine) : (cpy_zp s).2 = 3 := rfl
@[simp] theorem cpy_abs_cyc (s : Machine) : (cpy_abs s).2 = 4 := rfl
@[simp] theorem inc_zp_cyc (s : Machine) : (inc_zp s).2 = 5 := rfl
@[simp] theorem inc_abs_cyc (s : Machine) : (inc_abs s).2 = 6 := rfl
@[simp] theorem inc_absx_cyc (s : Machine) : (inc_absx s).2 = 7 := rfl
@[simp] theorem dec_zp_cyc (s : Machine) : (dec_zp s).2 = 5 := rfl
@[simp] theorem dec_abs_cyc (s : Machine) : (dec_abs s).2 = 6 := rfl
@[simp] theorem inx_cyc (s : Machine) : (inx s).2 = 2 := rfl
@[simp] theorem iny_cyc (s : Machine) : (iny s).2 = 2 := rfl
@[simp] theorem dex_cyc (s : Machine) : (dex s).2 = 2 := rfl
@[simp] theorem dey_cyc (s : Machine) : (dey s).2 = 2 := rfl
@[simp] theorem asl_acc_cyc (s : Machine) : (asl_acc s).2 = 2 := rfl
@[simp] theorem asl_zp_cyc (s : Machine) : (asl_zp s).2 = 5 := rfl
@[simp] theorem asl_abs_cyc (s : Machine) : (asl_abs s).2 = 6 := rfl
@[simp] theorem lsr_acc_cyc (s : Machine) : (lsr_acc s).2 = 2 := rfl
@[simp] theorem lsr_zp_cyc (s : Machine) : (lsr_zp s).2 = 5 := rfl
@[simp] theorem lsr_abs_cyc (s : Machine) : (lsr_abs s).2 = 6 := rfl
@[simp] theorem rol_acc_cyc (s : Machine) : (rol_acc s).2 = 2 := rfl
@[simp] theorem rol_zp_cyc (s : Machine) : (rol_zp s).2 = 5 := rfl
@[simp] theorem rol_abs_cyc (s : Machine) : (rol_abs s).2 = 6 := rfl
@[simp] theorem ror_acc_cyc (s : Machine) : (ror_acc s).2 = 2 := rfl
@[simp] theorem ror_zp_cyc (s : Machine) : (ror_zp s).2 = 5 := rfl
@[simp] theorem ror_zpx_cyc (s : Machine) : (ror_zpx s).2 = 6 := rfl
@[simp] theorem ror_abs_cyc (s : Machine) : (ror_abs s).2 = 6 := rfl
@[simp] theorem rra_absx_cyc (s : Machine) : (rra_absx s).2 = 7 := rfl
@[simp] theorem isc_absx_cyc (s : Machine) : (isc_absx s).2 = 7 := rfl
@[simp] theorem jmp_abs_cyc (s : Machine) : (jmp_abs s).2 = 3 := rfl
@[simp] theorem jsr_abs_cyc (s : Machine) : (jsr_abs s).2 = 6 := rfl
@[simp] theorem rts_cyc (s : Machine) : (rts s).2 = 6 := rfl
@[simp] theorem rti_cyc (s : Machine) : (rti s).2 = 6 := rfl
@[simp] theorem pha_cyc (s : Machine) : (pha s).2 = 3 := rfl
@[simp] theorem pla_cyc (s : Machine) : (pla s).2 = 4 := rfl
@[simp] theorem php_cyc (s : Machine) : (php s).2 = 3 := rfl
@[simp] theorem plp_cyc (s : Machine) : (plp s).2 = 4 := rfl
@[simp] theorem ply_cyc (s : Machine) : (ply s).2 = 4 := rfl
@[simp] theorem tax_cyc (s : Machine) : (tax s).2 = 2 := rfl
@[simp] theorem tay_cyc (s : Machine) : (tay s).2 = 2 := rfl
@[simp] theorem txa_cyc (s : Machine) : (txa s).2 = 2 := rfl
@[simp] theorem tya_cyc (s : Machine) : (tya s).2 = 2 := rfl
@[simp] theorem tsx_cyc (s : Machine) : (tsx s).2 = 2 := rfl
@[simp] theorem txs_cyc (s : Machine) : (txs s).2 = 2 := rfl
@[simp] theorem clc_cyc (s : Machine) : (clc s).2 = 2 := rfl
@[simp] theorem sec_cyc (s : Machine) : (sec s).2 = 2 := rfl
@[simp] theorem cli_op_cyc (s : Machine) : (cli_op s).2 = 2 := rfl
@[simp] theorem sei_op_cyc (s : Machine) : (sei_op s).2 = 2 := rfl
@[simp] theorem cld_cyc (s : Machine) : (cld s).2 = 2 := rfl
@[simp] theorem sed_cyc (s : Machine) : (sed s).2 = 2 := rfl
@[simp] theorem clv_cyc (s : Machine) : (clv s).2 = 2 := rfl
@[simp] theorem brk_cyc (s : Machine) : (brk s).2 = 7 := rfl
@[simp] theorem kil_cyc (s : Machine) : (kil s).2 = 0 := rfl
@[simp] theorem nop_ea_cyc (s : Machine) : (nop_ea s).2 = 2 := rfl
@[simp] theorem nop_imm2_cyc (s : Machine) : (nop_imm2 s).2 = 2 := rfl
@[simp] theorem nop_zp3_cyc (s : Machine) : (nop_zp3 s).2 = 3 := rfl
@[simp] theorem nop_absx4_cyc (s : Machine) : (nop_absx4 s).2 = 4 := rfl
@[simp] theorem undoc_nop_cyc (s : Machine) : (undoc_nop s).2 = 3 := rfl
@[simp] theorem unknown_opcode_cyc (s : Machine) : (unknown_opcode s).2 = 0 := rfl
@[simp] theorem bit_zp_cyc (s : Machine) : (bit_zp s).2 = 3 := rfl
@[simp] theorem bit_abs_cyc (s : Machine) : (bit_abs s).2 = 4 := rfl
@[simp] theorem branch_cyc (s : Machine) (c : Bool) : (branch s c).2 = if c then 3 else 2 := by
  cases c <;> rfl
@[simp] theorem jmp_ind_cyc (s : Machine) : (jmp_ind s).2 = 5 := by
  unfold jmp_ind
  by_cases h : (read_word s.mem (s.cpu.pc + 1)).1 &&& 0xFF = 0xFF <;> simp [h]
@[simp] theorem lda_imm_pres (s : Machine) : (lda_imm s).1.cpu.cycles = s.cpu.cycles := rfl
@[simp] theorem lda_zp_pres (s : Machine) : (lda_zp s).1.cpu.cycles = s.cpu.cycles := rfl
@[simp] theorem lda_zpx_pres (s : Machine) : (lda_zpx s).1.cpu.cycles = s.cpu.cycles := rfl
@[simp] theorem lda_abs_pres (s : Machine) : (lda_abs s).1.cpu.cycles = s.cpu.cycles := rfl
@[simp] theorem lda_absx_pres (s : Machine) : (lda_absx s).1.cpu.cycles = s.cpu.cycles := rfl
@[simp] theorem lda_absy_pres (s : Machine) : (lda_absy s).1.cpu.cycles = s.cpu.cycles := rfl
@[simp] theorem lda_indx_pres (s : Machine) : (lda_indx s).1.cpu.cycles = s.cpu.cycles := rfl
@[simp] theorem lda_indy_pres (s : Machine) : (lda_indy s).1.cpu.cycles = s.cpu.cycles := rfl
@[simp] theorem ldx_imm_pres (s : Machine) : (ldx_imm s).1.cpu.cycles = s.cpu.cycles := rfl
@[simp] theorem ldx_zp_pres (s : Machine) : (ldx_zp s).1.cpu.cycles = s.cpu.cycles := rfl
@[simp] theorem ldx_zpy_pres (s : Machine) : (ldx_zpy s).1.cpu.cycles = s.cpu.cycles := rfl
@[simp] theorem ldx_abs_pres (s : Machine) : (ldx_abs s).1.cpu.cycles = s.cpu.cycles := rfl
@[simp] theorem ldx_absy_pres (s : Machine) : (ldx_absy s).1.cpu.cycles = s.cpu.cycles := rfl
@[simp] theorem ldy_imm_pres (s : Machine) : (ldy_imm s).1.cpu.cycles = s.cpu.cycles := rfl
@[simp] theorem ldy_zp_pres (s : Machine) : (ldy_zp s).1.cpu.cycles = s.cpu.cycles := rfl
@[simp] theorem ldy_zpx_pres (s : Machine) : (ldy_zpx s).1.cpu.cycles = s.cpu.cycles := rfl
@[simp] theorem ldy_abs_pres (s : Machine) : (ldy_abs s).1.cpu.cycles = s.cpu.cycles := rfl
@[simp] theorem sta_zp_pres (s : Machine) : (sta_zp s).1.cpu.cycles = s.cpu.cycles := rfl
@[simp] theorem sta_zpx_pres (s : Machine) : (sta_zpx s).1.cpu.cycles = s.cpu.cycles := rfl
@[simp] theorem sta_abs_pres (s : Machine) : (sta_abs s).1.cpu.cycles = s.cpu.cycles := rfl
@[simp] theorem sta_absx_pres (s : Machine) : (sta_absx s).1.cpu.cycles = s.cpu.cycles := rfl
@[simp] theorem sta_absy_pres (s : Machine) : (sta_absy s).1.cpu.cycles = s.cpu.cycles := rfl
@[simp] theorem sta_indx_pres (s : Machine) : (sta_indx s).1.cpu.cycles = s.cpu.cycles := rfl
@[simp] theorem sta_indy_pres (s : Machine) : (sta_indy s).1.cpu.cycles = s.cpu.cycles := rfl
@[simp] theorem stx_zp_pres (s : Machine) : (stx_zp s).1.cpu.cycles = s.cpu.cycles := rfl
@[simp] theorem stx_abs_pres (s : Machine) : (stx_abs s).1.cpu.cycles = s.cpu.cycles := rfl
@[simp] theorem sty_zp_pres (s : Machine) : (sty_zp s).1.cpu.cycles = s.cpu.cycles := rfl
@[simp] theorem sty_abs_pres (s : Machine) : (sty_abs s).1.cpu.cycles = s.cpu.cycles := rfl
@[simp] theorem sty_zpx_pres (s : Machine) : (sty_zpx s).1.cpu.cycles = s.cpu.cycles := rfl
@[simp] theorem sax_zp_pres (s : Machine) : (sax_zp s).1.cpu.cycles = s.cpu.cycles := rfl
@[simp] theorem nop_imm80_pres (s : Machine) : (nop_imm80 s).1.cpu.cycles = s.cpu.cycles := rfl
@[simp] theorem lax_indx_pres (s : Machine) : (lax_indx s).1.cpu.cycles = s.cpu.cycles := rfl
@[simp] theorem lax_zp_pres (s : Machine) : (lax_zp s).1.cpu.cycles = s.cpu.cycles := rfl
@[simp] theorem lax_abs_pres (s : Machine) : (lax_abs s).1.cpu.cycles = s.cpu.cycles := rfl
@[simp] theorem lax_absy_pres (s : Machine) : (lax_absy s).1.cpu.cycles = s.cpu.cycles := rfl
@[simp] theorem dcp_zp_pres (s : Machine) : (dcp_zp s).1.cpu.cycles = s.cpu.cycles := rfl
@[simp] theorem adc_imm_pres (s : Machine) : (adc_imm s).1.cpu.cycles = s.cpu.cycles := rfl
@[simp] theorem adc_zp_pres (s : Machine) : (adc_zp s).1.cpu.cycles = s.cpu.cycles := rfl
@[simp] theorem adc_abs_pres (s : Machine) : (adc_abs s).1.cpu.cycles = s.cpu.cycles := rfl
@[simp] theorem sbc_imm_pres (s : Machine) : (sbc_imm s).1.cpu.cycles = s.cpu.cycles := rfl
@[simp] theorem sbc_zp_pres (s : Machine) : (sbc_zp s).1.cpu.cycles = s.cpu.cycles := rfl
@[simp] theorem sbc_indx_pres (s : Machine) : (sbc_indx s).1.cpu.cycles = s.cpu.cycles := rfl
@[simp] theorem sbc_abs_pres (s : Machine) : (sbc_abs s).1.cpu.cycles = s.cpu.cycles := rfl
@[simp] theorem sbc_absx_pres (s : Machine) : (sbc_absx s).1.cpu.cycles = s.cpu.cycles := rfl
@[simp] theorem and_imm_pres (s : Machine) : (and_imm s).1.cpu.cycles = s.cpu.cycles := rfl
@[simp] theorem and_zp_pres (s : Machine) : (and_zp s).1.cpu.cycles = s.cpu.cycles := rfl
@[simp] theorem and_abs_pres (s : Machine) : (and_abs s).1.cpu.cycles = s.cpu.cycles := rfl
@[simp] theorem ora_imm_pres (s : Machine) : (ora_imm s).1.cpu.cycles = s.cpu.cycles := rfl
@[simp] theorem ora_zp_pres (s : Machine) : (ora_zp s).1.cpu.cycles = s.cpu.cycles := rfl
@[simp] theorem ora_abs_pres (s : Machine) : (ora_abs s).1.cpu.cycles = s.cpu.cycles := rfl
@[simp] theorem ora_absy_pres (s : Machine) : (ora_absy s).1.cpu.cycles = s.cpu.cycles := rfl
@[simp] theorem eor_imm_pres (s : Machine) : (eor_imm s).1.cpu.cycles = s.cpu.cycles := rfl
@[simp] theorem eor_zp_pres (s : Machine) : (eor_zp s).1.cpu.cycles = s.cpu.cycles := rfl
@[simp] theorem eor_abs_pres (s : Machine) : (eor_abs s).1.cpu.cycles = s.cpu.cycles := rfl
@[simp] theorem cmp_imm_pres (s : Machine) : (cmp_imm s).1.cpu.cycles = s.cpu.cycles := rfl
@[simp] theorem cmp_zp_pres (s : Machine) : (cmp_zp s).1.cpu.cycles = s.cpu.cycles := rfl
@[simp] theorem cmp_abs_pres (s : Machine) : (cmp_abs s).1.cpu.cycles = s.cpu.cycles := rfl
@[simp] theorem cmp_absx_pres (s : Machine) : (cmp_absx s).1.cpu.cycles = s.cpu.cycles := rfl
@[simp] theorem cmp_indx_pres (s : Machine) : (cmp_indx s).1.cpu.cycles = s.cpu.cycles := rfl
@[simp] theorem cmp_indy_pres (s : Machine) : (cmp_indy s).1.cpu.cycles = s.cpu.cycles := rfl
@[simp] theorem cpx_imm_pres (s : Machine) : (cpx_imm s).1.cpu.cycles = s.cpu.cycles := rfl
@[simp] theorem cpx_zp_pres (s : Machine) : (cpx_zp s).1.cpu.cycles = s.cpu.cycles := rfl
@[simp] theorem cpx_abs_pres (s : Machine) : (cpx_abs s).1.cpu.cycles = s.cpu.cycles := rfl
@[simp] theorem cpy_imm_pres (s : Machine) : (cpy_imm s).1.cpu.cycles = s.cpu.cycles := rfl
@[simp] theorem cpy_zp_pres (s : Machine) : (cpy_zp s).1.cpu.cycles = s.cpu.cycles := rfl
@[simp] theorem cpy_abs_pres (s : Machine) : (cpy_abs s).1.cpu.cycles = s.cpu.cycles := rfl
@[simp] theorem inc_zp_pres (s : Machine) : (inc_zp s).1.cpu.cycles = s.cpu.cycles := rfl
@[simp] theorem inc_abs_pres (s : Machine) : (inc_abs s).1.cpu.cycles = s.cpu.cycles := rfl
@[simp] theorem inc_absx_pres (s : Machine) : (inc_absx s).1.cpu.cycles = s.cpu.cycles := rfl
@[simp] theorem dec_zp_pres (s : Machine) : (dec_zp s).1.cpu.cycles = s.cpu.cycles := rfl
@[simp] theorem dec_abs_pres (s : Machine) : (dec_abs s).1.cpu.cycles = s.cpu.cycles := rfl
@[simp] theorem inx_pres (s : Machine) : (inx s).1.cpu.cycles = s.cpu.cycles := rfl
@[simp] theorem iny_pres (s : Machine) : (iny s).1.cpu.cycles = s.cpu.cycles := rfl
@[simp] theorem dex_pres (s : Machine) : (dex s).1.cpu.cycles = s.cpu.cycles := rfl
@[simp] theorem dey_pres (s : Machine) : (dey s).1.cpu.cycles = s.cpu.cycles := rfl
@[simp] theorem asl_acc_pres (s : Machine) : (asl_acc s).1.cpu.cycles = s.cpu.cycles := rfl
@[simp] theorem asl_zp_pres (s : Machine) : (asl_zp s).1.cpu.cycles = s.cpu.cycles := rfl
@[simp] theorem asl_abs_pres (s : Machine) : (asl_abs s).1.cpu.cycles = s.cpu.cycles := rfl
@[simp] theorem lsr_acc_pres (s : Machine) : (lsr_acc s).1.cpu.cycles = s.cpu.cycles := rfl
@[simp] theorem lsr_zp_pres (s : Machine) : (lsr_zp s).1.cpu.cycles = s.cpu.cycles := rfl
@[simp] theorem lsr_abs_pres (s : Machine) : (lsr_abs s).1.cpu.cycles = s.cpu.cycles := rfl
@[simp] theorem rol_acc_pres (s : Machine) : (rol_acc s).1.cpu.cycles = s.cpu.cycles := rfl
@[simp] theorem rol_zp_pres (s : Machine) : (rol_zp s).1.cpu.cycles = s.cpu.cycles := rfl
@[simp] theorem rol_abs_pres (s : Machine) : (rol_abs s).1.cpu.cycles = s.cpu.cycles := rfl
@[simp] theorem ror_acc_pres (s : Machine) : (ror_acc s).1.cpu.cycles = s.cpu.cycles := rfl
@[simp] theorem ror_zp_pres (s : Machine) : (ror_zp s).1.cpu.cycles = s.cpu.cycles := rfl
@[simp] theorem ror_zpx_pres (s : Machine) : (ror_zpx s).1.cpu.cycles = s.cpu.cycles := rfl
@[simp] theorem ror_abs_pres (s : Machine) : (ror_abs s).1.cpu.cycles = s.cpu.cycles := rfl
@[simp] theorem rra_absx_pres (s : Machine) : (rra_absx s).1.cpu.cycles = s.cpu.cycles := rfl
@[simp] theorem isc_absx_pres (s : Machine) : (isc_absx s).1.cpu.cycles = s.cpu.cycles := rfl
@[simp] theorem jmp_abs_pres (s : Machine) : (jmp_abs s).1.cpu.cycles = s.cpu.cycles := rfl
@[simp] theorem jsr_abs_pres (s : Machine) : (jsr_abs s).1.cpu.cycles = s.cpu.cycles := rfl
@[simp] theorem rts_pres (s : Machine) : (rts s).1.cpu.cycles = s.cpu.cycles := rfl
@[simp] theorem rti_pres (s : Machine) : (rti s).1.cpu.cycles = s.cpu.cycles := rfl
@[simp] theorem pha_pres (s : Machine) : (pha s).1.cpu.cycles = s.cpu.cycles := rfl
@[simp] theorem pla_pres (s : Machine) : (pla s).1.cpu.cycles = s.cpu.cycles := rfl
@[simp] theorem php_pres (s : Machine) : (php s).1.cpu.cycles = s.cpu.cycles := rfl
@[simp] theorem plp_pres (s : Machine) : (plp s).1.cpu.cycles = s.cpu.cycles := rfl
@[simp] theorem ply_pres (s : Machine) : (ply s).1.cpu.cycles = s.cpu.cycles := rfl
@[simp] theorem tax_pres (s : Machine) : (tax s).1.cpu.cycles = s.cpu.cycles := rfl
@[simp] theorem tay_pres (s : Machine) : (tay s).1.cpu.cycles = s.cpu.cycles := rfl
@[simp] theorem txa_pres (s : Machine) : (txa s).1.cpu.cycles = s.cpu.cycles := rfl
@[simp] theorem tya_pres (s : Machine) : (tya s).1.cpu.cycles = s.cpu.cycles := rfl
@[simp] theorem tsx_pres (s : Machine) : (tsx s).1.cpu.cycles = s.cpu.cycles := rfl
@[simp] theorem txs_pres (s : Machine) : (txs s).1.cpu.cycles = s.cpu.cycles := rfl
@[simp] theorem clc_pres (s : Machine) : (clc s).1.cpu.cycles = s.cpu.cycles := rfl
@[simp] theorem sec_pres (s : Machine) : (sec s).1.cpu.cycles = s.cpu.cycles := rfl
@[simp] theorem cli_op_pres (s : Machine) : (cli_op s).1.cpu.cycles = s.cpu.cycles := rfl
@[simp] theorem sei_op_pres (s : Machine) : (sei_op s).1.cpu.cycles = s.cpu.cycles := rfl
@[simp] theorem cld_pres (s : Machine) : (cld s).1.cpu.cycles = s.cpu.cycles := rfl
@[simp] theorem sed_pres (s : Machine) : (sed s).1.cpu.cycles = s.cpu.cycles := rfl
@[simp] theorem clv_pres (s : Machine) : (clv s).1.cpu.cycles = s.cpu.cycles := rfl
@[simp] theorem brk_pres (s : Machine) : (brk s).1.cpu.cycles = s.cpu.cycles := rfl
@[simp] theorem kil_pres (s : Machine) : (kil s).1.cpu.cycles = s.cpu.cycles := rfl
@[simp] theorem nop_ea_pres (s : Machine) : (nop_ea s).1.cpu.cycles = s.cpu.cycles := rfl
@[simp] theorem nop_imm2_pres (s : Machine) : (nop_imm2 s).1.cpu.cycles = s.cpu.cycles := rfl
@[simp] theorem nop_zp3_pres (s : Machine) : (nop_zp3 s).1.cpu.cycles = s.cpu.cycles := rfl
@[simp] theorem nop_absx4_pres (s : Machine) : (nop_absx4 s).1.cpu.cycles = s.cpu.cycles := rfl
@[simp] theorem undoc_nop_pres (s : Machine) : (undoc_nop s).1.cpu.cycles = s.cpu.cycles := rfl
@[simp] theorem unknown_opcode_pres (s : Machine) : (unknown_opcode s).1.cpu.cycles = s.cpu.cycles := rfl
@[simp] theorem bit_zp_pres (s : Machine) : (bit_zp s).1.cpu.cycles = s.cpu.cycles := rfl
@[simp] theorem bit_abs_pres (s : Machine) : (bit_abs s).1.cpu.cycles = s.cpu.cycles := rfl
@[simp] theorem branch_pres (s : Machine) (c : Bool) : (branch s c).1.cpu.cycles = s.cpu.cycles := by
  cases c <;> rfl
@[simp] theorem jmp_ind_pres (s : Machine) : (jmp_ind s).1.cpu.cycles = s.cpu.cycles := by
  unfold jmp_ind
  by_cases h : (read_word s.mem (s.cpu.pc + 1)).1 &&& 0xFF = 0xFF <;> simp [h]
/-- Case-analysis principle for the opcode dispatch: to prove a property of
execOpcode it suffices to prove it of every instruction implementation. -/
theorem execOpcode_cases (s : Machine) (op : Nat) (P : Machine × Nat → Prop)
    (h1 : P (lda_imm s))
    (h2 : P (lda_zp s))
    (h3 : P (lda_zpx s))
    (h4 : P (lda_abs s))
    (h5 : P (lda_absx s))
    (h6 : P (lda_absy s))
    (h7 : P (lda_indx s))
    (h8 : P (lda_indy s))
    (h9 : P (ldx_imm s))
    (h10 : P (ldx_zp s))
    (h11 : P (ldx_abs s))
    (h12 : P (ldx_zpy s))
    (h13 : P (ldx_absy s))
    (h14 : P (ldy_imm s))
    (h15 : P (ldy_zp s))
    (h16 : P (ldy_abs s))
    (h17 : P (ldy_zpx s))
    (h18 : P (sta_zp s))
    (h19 : P (sta_zpx s))
    (h20 : P (sta_abs s))
    (h21 : P (sta_absx s))
    (h22 : P (sta_absy s))
    (h23 : P (sta_indx s))
    (h24 : P (sta_indy s))
    (h25 : P (stx_zp s))
    (h26 : P (stx_abs s))
    (h27 : P (sty_zp s))
    (h28 : P (sty_abs s))
    (h29 : P (sty_zpx s))
    (h30 : P (sax_zp s))
    (h31 : P (nop_imm80 s))
    (h32 : P (lax_indx s))
    (h33 : P (dcp_zp s))
    (h34 : P (adc_imm s))
    (h35 : P (adc_zp s))
    (h36 : P (adc_abs s))
    (h37 : P (sbc_imm s))
    (h38 : P (sbc_zp s))
    (h39 : P (sbc_indx s))
    (h40 : P (sbc_abs s))
    (h41 : P (sbc_absx s))
    (h42 : P (and_imm s))
    (h43 : P (and_zp s))
    (h44 : P (and_abs s))
    (h45 : P (ora_imm s))
    (h46 : P (ora_zp s))
    (h47 : P (ora_abs s))
    (h48 : P (ora_absy s))
    (h49 : P (eor_imm s))
    (h50 : P (eor_zp s))
    (h51 : P (eor_abs s))
    (h52 : P (cmp_imm s))
    (h53 : P (cmp_zp s))
    (h54 : P (cmp_abs s))
    (h55 : P (cmp_absx s))
    (h56 : P (cpx_imm s))
    (h57 : P (cpx_zp s))
    (h58 : P (cpx_abs s))
    (h59 : P (cpy_imm s))
    (h60 : P (cpy_zp s))
    (h61 : P (cpy_abs s))
    (h62 : P (cmp_indx s))
    (h63 : P (cmp_indy s))
    (h64 : P (inc_zp s))
    (h65 : P (inc_abs s))
    (h66 : P (dec_zp s))
    (h67 : P (dec_abs s))
    (h68 : P (inx s))
    (h69 : P (iny s))
    (h70 : P (dex s))
    (h71 : P (dey s))
    (h72 : P (asl_acc s))
    (h73 : P (asl_zp s))
    (h74 : P (asl_abs s))
    (h75 : P (lsr_acc s))
    (h76 : P (lsr_zp s))
    (h77 : P (lsr_abs s))
    (h78 : P (rol_acc s))
    (h79 : P (rol_zp s))
    (h80 : P (rol_abs s))
    (h81 : P (ror_acc s))
    (h82 : P (ror_zp s))
    (h83 : P (ror_zpx s))
    (h84 : P (ror_abs s))
    (h85 : P (inc_absx s))
    (h86 : P (branch s (!getFlag s.cpu.p 0x01)))
    (h87 : P (branch s (getFlag s.cpu.p 0x01)))
    (h88 : P (branch s (getFlag s.cpu.p 0x02)))
    (h89 : P (branch s (!getFlag s.cpu.p 0x02)))
    (h90 : P (branch s (!getFlag s.cpu.p 0x80)))
    (h91 : P (branch s (getFlag s.cpu.p 0x80)))
    (h92 : P (branch s (!getFlag s.cpu.p 0x40)))
    (h93 : P (branch s (getFlag s.cpu.p 0x40)))
    (h94 : P (jmp_abs s))
    (h95 : P (jmp_ind s))
    (h96 : P (jsr_abs s))
    (h97 : P (rts s))
    (h98 : P (rti s))
    (h99 : P (pha s))
    (h100 : P (pla s))
    (h101 : P (php s))
    (h102 : P (plp s))
    (h103 : P (ply s))
    (h104 : P (rra_absx s))
    (h105 : P (lax_zp s))
    (h106 : P (lax_abs s))
    (h107 : P (lax_absy s))
    (h108 : P (isc_absx s))
    (h109 : P (tax s))
    (h110 : P (tay s))
    (h111 : P (txa s))
    (h112 : P (tya s))
    (h113 : P (tsx s))
    (h114 : P (txs s))
    (h115 : P (clc s))
    (h116 : P (sec s))
    (h117 : P (cli_op s))
    (h118 : P (sei_op s))
    (h119 : P (cld s))
    (h120 : P (sed s))
    (h121 : P (clv s))
    (h122 : P (brk s))
    (h123 : P (kil s))
    (h124 : P (nop_ea s))
    (h125 : P (nop_imm2 s))
    (h126 : P (nop_zp3 s))
    (h127 : P (nop_absx4 s))
    (h128 : P (bit_zp s))
    (h129 : P (bit_abs s))
    (h130 : P (undoc_nop s))
    (h131 : P (unknown_opcode s)) :
    P (execOpcode s op) := by
  unfold execOpcode
  by_cases h : op = 0xA9
  · rw [if_pos h]
    exact h1
  rw [if_neg h]; clear h
  by_cases h : op = 0xA5
  · rw [if_pos h]
    exact h2
  rw [if_neg h]; clear h
  by_cases h : op = 0xB5
  · rw [if_pos h]
    exact h3
  rw [if_neg h]; clear h
  by_cases h : op = 0xAD
  · rw [if_pos h]
    exact h4
  rw [if_neg h]; clear h
  by_cases h : op = 0xBD
  · rw [if_pos h]
    exact h5
  rw [if_neg h]; clear h
  by_cases h : op = 0xB9
  · rw [if_pos h]
    exact h6
  rw [if_neg h]; clear h
  by_cases h : op = 0xA1
  · rw [if_pos h]
    exact h7
  rw [if_neg h]; clear h
  by_cases h : op = 0xB1
  · rw [if_pos h]
    exact h8
  rw [if_neg h]; clear h
  by_cases h : op = 0xA2
  · rw [if_pos h]
    exact h9
  rw [if_neg h]; clear h
  by_cases h : op = 0xA6
  · rw [if_pos h]
    exact h10
  rw [if_neg h]; clear h
  by_cases h : op = 0xAE
  · rw [if_pos h]
    exact h11
  rw [if_neg h]; clear h
  by_cases h : op = 0xB6
  · rw [if_pos h]
    exact h12
  rw [if_neg h]; clear h
  by_cases h : op = 0xBE
  · rw [if_pos h]
    exact h13
  rw [if_neg h]; clear h
  by_cases h : op = 0xA0
  · rw [if_pos h]
    exact h14
  rw [if_neg h]; clear h
  by_cases h : op = 0xA4
  · rw [if_pos h]
    exact h15
  rw [if_neg h]; clear h
  by_cases h : op = 0xAC
  · rw [if_pos h]
    exact h16
  rw [if_neg h]; clear h
  by_cases h : op = 0xB4
  · rw [if_pos h]
    exact h17
  rw [if_neg h]; clear h
  by_cases h : op = 0x85
  · rw [if_pos h]
    exact h18
  rw [if_neg h]; clear h
  by_cases h : op = 0x95
  · rw [if_pos h]
    exact h19
  rw [if_neg h]; clear h
  by_cases h : op = 0x8D
  · rw [if_pos h]
    exact h20
  rw [if_neg h]; clear h
  by_cases h : op = 0x9D
  · rw [if_pos h]
    exact h21
  rw [if_neg h]; clear h
  by_cases h : op = 0x99
  · rw [if_pos h]
    exact h22
  rw [if_neg h]; clear h
  by_cases h : op = 0x81
  · rw [if_pos h]
    exact h23
  rw [if_neg h]; clear h
  by_cases h : op = 0x91
  · rw [if_pos h]
    exact h24
  rw [if_neg h]; clear h
  by_cases h : op = 0x86
  · rw [if_pos h]
    exact h25
  rw [if_neg h]; clear h
  by_cases h : op = 0x8E
  · rw [if_pos h]
    exact h26
  rw [if_neg h]; clear h
  by_cases h : op = 0x84
  · rw [if_pos h]
    exact h27
  rw [if_neg h]; clear h
  by_cases h : op = 0x8C
  · rw [if_pos h]
    exact h28
  rw [if_neg h]; clear h
  by_cases h : op = 0x94
  · rw [if_pos h]
    exact h29
  rw [if_neg h]; clear h
  by_cases h : op = 0x87
  · rw [if_pos h]
    exact h30
  rw [if_neg h]; clear h
  by_cases h : op = 0x80
  · rw [if_pos h]
    exact h31
  rw [if_neg h]; clear h
  by_cases h : op = 0xA3
  · rw [if_pos h]
    exact h32
  rw [if_neg h]; clear h
  by_cases h : op = 0xC7
  · rw [if_pos h]
    exact h33
  rw [if_neg h]; clear h
  by_cases h : op = 0x69
  · rw [if_pos h]
    exact h34
  rw [if_neg h]; clear h
  by_cases h : op = 0x65
  · rw [if_pos h]
    exact h35
  rw [if_neg h]; clear h
  by_cases h : op = 0x6D
  · rw [if_pos h]
    exact h36
  rw [if_neg h]; clear h
  by_cases h : op = 0xE9
  · rw [if_pos h]
    exact h37
  rw [if_neg h]; clear h
  by_cases h : op = 0xE5
  · rw [if_pos h]
    exact h38
  rw [if_neg h]; clear h
  by_cases h : op = 0xE1
  · rw [if_pos h]
    exact h39
  rw [if_neg h]; clear h
  by_cases h : op = 0xED
  · rw [if_pos h]
    exact h40
  rw [if_neg h]; clear h
  by_cases h : op = 0xFD
  · rw [if_pos h]
    exact h41
  rw [if_neg h]; clear h
  by_cases h : op = 0x29
  · rw [if_pos h]
    exact h42
  rw [if_neg h]; clear h
  by_cases h : op = 0x25
  · rw [if_pos h]
    exact h43
  rw [if_neg h]; clear h
  by_cases h : op = 0x2D
  · rw [if_pos h]
    exact h44
  rw [if_neg h]; clear h
  by_cases h : op = 0x09
  · rw [if_pos h]
    exact h45
  rw [if_neg h]; clear h
  by_cases h : op = 0x05
  · rw [if_pos h]
    exact h46
  rw [if_neg h]; clear h
  by_cases h : op = 0x0D
  · rw [if_pos h]
    exact h47
  rw [if_neg h]; clear h
  by_cases h : op = 0x19
  · rw [if_pos h]
    exact h48
  rw [if_neg h]; clear h
  by_cases h : op = 0x49
  · rw [if_pos h]
    exact h49
  rw [if_neg h]; clear h
  by_cases h : op = 0x45
  · rw [if_pos h]
    exact h50
  rw [if_neg h]; clear h
  by_cases h : op = 0x4D
  · rw [if_pos h]
    exact h51
  rw [if_neg h]; clear h
  by_cases h : op = 0xC9
  · rw [if_pos h]
    exact h52
  rw [if_neg h]; clear h
  by_cases h : op = 0xC5
  · rw [if_pos h]
    exact h53
  rw [if_neg h]; clear h
  by_cases h : op = 0xCD
  · rw [if_pos h]
    exact h54
  rw [if_neg h]; clear h
  by_cases h : op = 0xDD
  · rw [if_pos h]
    exact h55
  rw [if_neg h]; clear h
  by_cases h : op = 0xE0
  · rw [if_pos h]
    exact h56
  rw [if_neg h]; clear h
  by_cases h : op = 0xE4
  · rw [if_pos h]
    exact h57
  rw [if_neg h]; clear h
  by_cases h : op = 0xEC
  · rw [if_pos h]
    exact h58
  rw [if_neg h]; clear h
  by_cases h : op = 0xC0
  · rw [if_pos h]
    exact h59
  rw [if_neg h]; clear h
  by_cases h : op = 0xC4
  · rw [if_pos h]
    exact h60
  rw [if_neg h]; clear h
  by_cases h : op = 0xCC
  · rw [if_pos h]
    exact h61
  rw [if_neg h]; clear h
  by_cases h : op = 0xC1
  · rw [if_pos h]
    exact h62
  rw [if_neg h]; clear h
  by_cases h : op = 0xD1
  · rw [if_pos h]
    exact h63
  rw [if_neg h]; clear h
  by_cases h : op = 0xE6
  · rw [if_pos h]
    exact h64
  rw [if_neg h]; clear h
  by_cases h : op = 0xEE
  · rw [if_pos h]
    exact h65
  rw [if_neg h]; clear h
  by_cases h : op = 0xC6
  · rw [if_pos h]
    exact h66
  rw [if_neg h]; clear h
  by_cases h : op = 0xCE
  · rw [if_pos h]
    exact h67
  rw [if_neg h]; clear h
  by_cases h : op = 0xE8
  · rw [if_pos h]
    exact h68
  rw [if_neg h]; clear h
  by_cases h : op = 0xC8
  · rw [if_pos h]
    exact h69
  rw [if_neg h]; clear h
  by_cases h : op = 0xCA
  · rw [if_pos h]
    exact h70
  rw [if_neg h]; clear h
  by_cases h : op = 0x88
  · rw [if_pos h]
    exact h71
  rw [if_neg h]; clear h
  by_cases h : op = 0x0A
  · rw [if_pos h]
    exact h72
  rw [if_neg h]; clear h
  by_cases h : op = 0x06
  · rw [if_pos h]
    exact h73
  rw [if_neg h]; clear h
  by_cases h : op = 0x0E
  · rw [if_pos h]
    exact h74
  rw [if_neg h]; clear h
  by_cases h : op = 0x4A
  · rw [if_pos h]
    exact h75
  rw [if_neg h]; clear h
  by_cases h : op = 0x46
  · rw [if_pos h]
    exact h76
  rw [if_neg h]; clear h
  by_cases h : op = 0x4E
  · rw [if_pos h]
    exact h77
  rw [if_neg h]; clear h
  by_cases h : op = 0x2A
  · rw [if_pos h]
    exact h78
  rw [if_neg h]; clear h
  by_cases h : op = 0x26
  · rw [if_pos h]
    exact h79
  rw [if_neg h]; clear h
  by_cases h : op = 0x2E
  · rw [if_pos h]
    exact h80
  rw [if_neg h]; clear h
  by_cases h : op = 0x6A
  · rw [if_pos h]
    exact h81
  rw [if_neg h]; clear h
  by_cases h : op = 0x66
  · rw [if_pos h]
    exact h82
  rw [if_neg h]; clear h
  by_cases h : op = 0x76
  · rw [if_pos h]
    exact h83
  rw [if_neg h]; clear h
  by_cases h : op = 0x6E
  · rw [if_pos h]
    exact h84
  rw [if_neg h]; clear h
  by_cases h : op = 0xFE
  · rw [if_pos h]
    exact h85
  rw [if_neg h]; clear h
  by_cases h : op = 0x90
  · rw [if_pos h]
    exact h86
  rw [if_neg h]; clear h
  by_cases h : op = 0xB0
  · rw [if_pos h]
    exact h87
  rw [if_neg h]; clear h
  by_cases h : op = 0xF0
  · rw [if_pos h]
    exact h88
  rw [if_neg h]; clear h
  by_cases h : op = 0xD0
  · rw [if_pos h]
    exact h89
  rw [if_neg h]; clear h
  by_cases h : op = 0x10
  · rw [if_pos h]
    exact h90
  rw [if_neg h]; clear h
  by_cases h : op = 0x30
  · rw [if_pos h]
    exact h91
  rw [if_neg h]; clear h
  by_cases h : op = 0x50
  · rw [if_pos h]
    exact h92
  rw [if_neg h]; clear h
  by_cases h : op = 0x70
  · rw [if_pos h]
    exact h93
  rw [if_neg h]; clear h
  by_cases h : op = 0x4C
  · rw [if_pos h]
    exact h94
  rw [if_neg h]; clear h
  by_cases h : op = 0x6C
  · rw [if_pos h]
    exact h95
  rw [if_neg h]; clear h
  by_cases h : op = 0x20
  · rw [if_pos h]
    exact h96
  rw [if_neg h]; clear h
  by_cases h : op = 0x60
  · rw [if_pos h]
    exact h97
  rw [if_neg h]; clear h
  by_cases h : op = 0x40
  · rw [if_pos h]
    exact h98
  rw [if_neg h]; clear h
  by_cases h : op = 0x48
  · rw [if_pos h]
    exact h99
  rw [if_neg h]; clear h
  by_cases h : op = 0x68
  · rw [if_pos h]
    exact h100
  rw [if_neg h]; clear h
  by_cases h : op = 0x08
  · rw [if_pos h]
    exact h101
  rw [if_neg h]; clear h
  by_cases h : op = 0x28
  · rw [if_pos h]
    exact h102
  rw [if_neg h]; clear h
  by_cases h : op = 0x7A
  · rw [if_pos h]
    exact h103
  rw [if_neg h]; clear h
  by_cases h : op = 0x7F
  · rw [if_pos h]
    exact h104
  rw [if_neg h]; clear h
  by_cases h : op = 0xA7
  · rw [if_pos h]
    exact h105
  rw [if_neg h]; clear h
  by_cases h : op = 0xAF
  · rw [if_pos h]
    exact h106
  rw [if_neg h]; clear h
  by_cases h : op = 0xBF
  · rw [if_pos h]
    exact h107
  rw [if_neg h]; clear h
  by_cases h : op = 0xFF
  · rw [if_pos h]
    exact h108
  rw [if_neg h]; clear h
  by_cases h : op = 0xAA
  · rw [if_pos h]
    exact h109
  rw [if_neg h]; clear h
  by_cases h : op = 0xA8
  · rw [if_pos h]
    exact h110
  rw [if_neg h]; clear h
  by_cases h : op = 0x8A
  · rw [if_pos h]
    exact h111
  rw [if_neg h]; clear h
  by_cases h : op = 0x98
  · rw [if_pos h]
    exact h112
  rw [if_neg h]; clear h
  by_cases h : op = 0xBA
  · rw [if_pos h]
    exact h113
  rw [if_neg h]; clear h
  by_cases h : op = 0x9A
  · rw [if_pos h]
    exact h114
  rw [if_neg h]; clear h
  by_cases h : op = 0x18
  · rw [if_pos h]
    exact h115
  rw [if_neg h]; clear h
  by_cases h : op = 0x38
  · rw [if_pos h]
    exact h116
  rw [if_neg h]; clear h
  by_cases h : op = 0x58
  · rw [if_pos h]
    exact h117
  rw [if_neg h]; clear h
  by_cases h : op = 0x78
  · rw [if_pos h]
    exact h118
  rw [if_neg h]; clear h
  by_cases h : op = 0xD8
  · rw [if_pos h]
    exact h119
  rw [if_neg h]; clear h
  by_cases h : op = 0xF8
  · rw [if_pos h]
    exact h120
  rw [if_neg h]; clear h
  by_cases h : op = 0xB8
  · rw [if_pos h]
    exact h121
  rw [if_neg h]; clear h
  by_cases h : op = 0x00
  · rw [if_pos h]
    exact h122
  rw [if_neg h]; clear h
  by_cases h : op = 0x02
  · rw [if_pos h]
    exact h123
  rw [if_neg h]; clear h
  by_cases h : op = 0xEA
  · rw [if_pos h]
    exact h124
  rw [if_neg h]; clear h
  by_cases h : op ∈ [0x80, 0x82, 0x89, 0xC2, 0xE2]
  · rw [if_pos h]
    exact h125
  rw [if_neg h]; clear h
  by_cases h : op ∈ [0x04, 0x44, 0x64]
  · rw [if_pos h]
    exact h126
  rw [if_neg h]; clear h
  by_cases h : op ∈ [0x14, 0x1C, 0x3C, 0x5C, 0x7C, 0xDC, 0xFC]
  · rw [if_pos h]
    exact h127
  rw [if_neg h]; clear h
  by_cases h : op = 0x24
  · rw [if_pos h]
    exact h128
  rw [if_neg h]; clear h
  by_cases h : op = 0x2C
  · rw [if_pos h]
    exact h129
  rw [if_neg h]; clear h
  by_cases h : op ∈ [0x02, 0x03, 0x07, 0x0B, 0x0F, 0x12, 0x13, 0x17, 0x1A, 0x1B, 0x1C, 0x1F, 0x22, 0x27, 0x2F, 0x32, 0x33, 0x34, 0x37, 0x3A, 0x3B, 0x3C, 0x3F, 0x42, 0x43, 0x47, 0x4B, 0x4F, 0x52, 0x53, 0x54, 0x57, 0x5A, 0x5B, 0x5C, 0x5F, 0x62, 0x63, 0x64, 0x67, 0x6B, 0x6F, 0x72, 0x73, 0x74, 0x77, 0x7A, 0x7B, 0x7C, 0x7F, 0x80, 0x82, 0x83, 0x87, 0x8B, 0x8F, 0x92, 0x93, 0x97, 0x9B, 0x9C, 0x9E, 0x9F, 0xA3, 0xA7, 0xAB, 0xAF, 0xB2, 0xB3, 0xB7, 0xBB, 0xBF, 0xC2, 0xC3, 0xC7, 0xCB, 0xCF, 0xD2, 0xD3, 0xD4, 0xD7, 0xDA, 0xDB, 0xDC, 0xDF, 0xE2, 0xE3, 0xE7, 0xEB, 0xEF, 0xF2, 0xF3, 0xF4, 0xF7, 0xFA, 0xFB, 0xFC, 0xFF]
  · rw [if_pos h]
    exact h130
  rw [if_neg h]; clear h
  exact h131

theorem execOpcode_cycles_le (s : Machine) (op : Nat) : (execOpcode s op).2 ≤ 8 := by
  apply execOpcode_cases s op (fun r => r.2 ≤ 8) <;>
    first
      | (simp only [branch_cyc]; split <;> simp)
      | simp

theorem execOpcode_counter_eq (s : Machine) (op : Nat) :
    (execOpcode s op).1.cpu.cycles = s.cpu.cycles := by
  apply execOpcode_cases s op (fun r => r.1.cpu.cycles = s.cpu.cycles) <;> simp

/- Facts about reads and writes used by the trap and interrupt theorems. -/

/-- A memory read either leaves the map unchanged or (for an ICR read)
clears the ICR and the pending IRQ line; nothing else ever changes. -/
theorem read_snd_cases (m : MemoryMap) (a : Nat) :
    (m.read a).2 = m ∨ (m.read a).2 = { m with cia1_icr := 0, pending_irq := false } := by
  unfold MemoryMap.read MemoryMap.read_io_area MemoryMap.read_cia1
  dsimp only
  by_cases c1 : 0xD000 ≤ a &&& 0xFFFF ∧ a &&& 0xFFFF < 0xE000
  · rw [if_pos c1]
    by_cases c2 : m.ram 0x01 &&& 0x03 = 0x03
    · rw [if_pos c2]
      by_cases c3 : 0xD000 ≤ a &&& 0xFFFF ∧ a &&& 0xFFFF < 0xD000 + 0x40
      · rw [if_pos c3]; left; rfl
      rw [if_neg c3]; clear c3
      by_cases c3 : 0xD400 ≤ a &&& 0xFFFF ∧ a &&& 0xFFFF < 0xD400 + 0x20
      · rw [if_pos c3]; left; rfl
      rw [if_neg c3]; clear c3
      by_cases c3 : 0xDC00 ≤ a &&& 0xFFFF ∧ a &&& 0xFFFF < 0xDC00 + 0x10
      · rw [if_pos c3]; clear c3
        by_cases d : (a &&& 0xFFFF) - 0xDC00 = 0x04
        · rw [if_pos d]; left; rfl
        rw [if_neg d]; clear d
        by_cases d : (a &&& 0xFFFF) - 0xDC00 = 0x05
        · rw [if_pos d]; left; rfl
        rw [if_neg d]; clear d
        by_cases d : (a &&& 0xFFFF) - 0xDC00 = 0x06
        · rw [if_pos d]; left; rfl
        rw [if_neg d]; clear d
        by_cases d : (a &&& 0xFFFF) - 0xDC00 = 0x07
        · rw [if_pos d]; left; rfl
        rw [if_neg d]; clear d
        by_cases d : (a &&& 0xFFFF) - 0xDC00 = 0x0D
        · rw [if_pos d]; right; rfl
        rw [if_neg d]; clear d
        by_cases d : (a &&& 0xFFFF) - 0xDC00 = 0x0E
        · rw [if_pos d]; left; rfl
        rw [if_neg d]; clear d
        by_cases d : (a &&& 0xFFFF) - 0xDC00 = 0x0F
        · rw [if_pos d]; left; rfl
        rw [if_neg d]; left; rfl
      rw [if_neg c3]; clear c3
      by_cases c3 : 0xDD00 ≤ a &&& 0xFFFF ∧ a &&& 0xFFFF < 0xDD00 + 0x10
      · rw [if_pos c3]; left; rfl
      rw [if_neg c3]; left; rfl
    · rw [if_neg c2]
      cases m.char_rom <;> dsimp only <;> left <;> rfl
  rw [if_neg c1]; clear c1
  by_cases c1 : 0xA000 ≤ a &&& 0xFFFF ∧ a &&& 0xFFFF < 0xC000
  · rw [if_pos c1]
    by_cases c2 : m.ram 0x01 &&& 0x07 = 0x07
    · rw [if_pos c2]
      cases m.basic_rom <;> dsimp only <;> left <;> rfl
    · rw [if_neg c2]; left; rfl
  rw [if_neg c1]; clear c1
  by_cases c1 : 0xE000 ≤ a &&& 0xFFFF ∧ a &&& 0xFFFF < 0x10000
  · rw [if_pos c1]
    by_cases c2 : m.ram 0x01 &&& 0x07 = 0x07
    · rw [if_pos c2]
      cases m.kernal_rom <;> dsimp only <;> left <;> rfl
    · rw [if_neg c2]; left; rfl
  rw [if_neg c1]; left; rfl

/-- A memory read never changes the RAM array. -/
theorem read_ram_eq (m : MemoryMap) (a : Nat) : ((m.read a).2).ram = m.ram := by
  rcases read_snd_cases m a with h | h <;> rw [h]

/-- A memory read never changes Timer A. -/
theorem read_timer_a_eq (m : MemoryMap) (a : Nat) :
    ((m.read a).2).cia1_timer_a = m.cia1_timer_a := by
  rcases read_snd_cases m a with h | h <;> rw [h]

/-- A memory read never changes Timer B. -/
theorem read_timer_b_eq (m : MemoryMap) (a : Nat) :
    ((m.read a).2).cia1_timer_b = m.cia1_timer_b := by
  rcases read_snd_cases m a with h | h <;> rw [h]

/-- Reads below the ROM and I/O windows are plain RAM reads with no side
effect. -/
theorem read_low (m : MemoryMap) (a : Nat) (h : a &&& 0xFFFF < 0xA000) :
    m.read a = (m.ram (a &&& 0xFFFF), m) := by
  unfold MemoryMap.read
  rw [if_neg (by omega), if_neg (by omega), if_neg (by omega)]

/-- Writes below the ROM and I/O windows land in RAM. -/
theorem write_low (m : MemoryMap) (a v : Nat) (h : a &&& 0xFFFF < 0xA000) :
    m.write a v = m.set_ram (a &&& 0xFFFF) (v &&& 0xFF) := by
  unfold MemoryMap.write
  rw [if_neg (by omega), if_neg (by omega), if_neg (by omega)]

/-- Reads in the KERNAL window have no side effect on the map. -/
theorem read_high_snd (m : MemoryMap) (a : Nat) (h : 0xE000 ≤ a &&& 0xFFFF) :
    (m.read a).2 = m := by
  have hlt : a &&& 0xFFFF < 0x10000 := by
    have h16 := Nat.and_pow_two_sub_one_eq_mod a 16
    norm_num at h16
    omega
  unfold MemoryMap.read
  rw [if_neg (by omega), if_neg (by omega), if_pos (by omega)]
  by_cases c2 : m.ram 0x01 &&& 0x07 = 0x07
  · rw [if_pos c2]
    cases m.kernal_rom <;> rfl
  · rw [if_neg c2]

/- Cycle facts of the trap shims and of the composed step. -/

@[simp] theorem chrin_trap_cyc (s : Machine) : (chrin_trap s).2 = 20 := by
  unfold chrin_trap
  dsimp only

@[simp] theorem chrin_trap_counter (s : Machine) :
    (chrin_trap s).1.cpu.cycles = s.cpu.cycles := by
  unfold chrin_trap
  dsimp only
  repeat' split
  all_goals rfl

@[simp] theorem chrout_trap_cyc (s : Machine) : (chrout_trap s).2 = 20 := by
  unfold chrout_trap
  dsimp only

@[simp] theorem chrout_trap_counter (s : Machine) :
    (chrout_trap s).1.cpu.cycles = s.cpu.cycles := by
  unfold chrout_trap
  dsimp only

/-- The execution tail adds exactly the cycle count of the executed opcode
to the cycle counter. -/
theorem step_exec_counter (s : Machine) (op : Nat) :
    (step_exec s op).1.cpu.cycles = s.cpu.cycles + (execOpcode s op).2 := by
  unfold step_exec
  dsimp only
  rw [execOpcode_counter_eq]

@[simp] theorem step_exec_cyc (s : Machine) (op : Nat) :
    (step_exec s op).2 = (execOpcode s op).2 := rfl

/- Claim C5: cycle-counter behaviour of step. -/

/-- Concrete stopped machine for the C5 counterexample. -/
def c5stop : Machine := ⟨{ pc := 0x1000, cycles := 42, stopped := true }, { ram := fun _ => 0 }⟩

/-- C5 counterexample: the claim says step() returns 0 when called on an
already-stopped CPU; the source returns 1 (with a comment explaining that
this avoids an infinite run loop), so the claim is false as stated. -/
theorem c5_stopped_step_returns_one : (step c5stop).2 = 1 ∧ (1 : Nat) ≠ 0 := by
  constructor
  · decide
  · decide

/-- C5 as amended: the cycle counter is non-decreasing and each step adds at
most 8 cycles; a step on an already-stopped CPU returns 1 (not 0) and leaves
the counter unchanged.  (A step can also add 0 cycles without the CPU being
stopped: the KERNAL trap shims and the halting opcodes do not increment the
counter.) -/
theorem c5_cycle_counter_bounds (s : Machine) :
    s.cpu.cycles ≤ (step s).1.cpu.cycles ∧
    (step s).1.cpu.cycles ≤ s.cpu.cycles + 8 ∧
    (s.cpu.stopped = true → (step s).2 = 1 ∧ (step s).1.cpu.cycles = s.cpu.cycles) := by
  unfold step
  by_cases hs : s.cpu.stopped = true
  · rw [if_pos hs]
    exact ⟨Nat.le_refl _, Nat.le_add_right _ 8, fun _ => ⟨rfl, rfl⟩⟩
  rw [if_neg hs]
  dsimp only
  by_cases h1 : s.cpu.pc = 0xFF5B
  · rw [if_pos h1]
    exact ⟨Nat.le_refl _, Nat.le_add_right _ 8, fun h => absurd h hs⟩
  rw [if_neg h1]
  by_cases h2 : s.cpu.pc = 0xFFCF
  · rw [if_pos h2]
    rw [chrin_trap_counter]
    exact ⟨Nat.le_refl _, Nat.le_add_right _ 8, fun h => absurd h hs⟩
  rw [if_neg h2]
  by_cases h3 : s.cpu.pc = 0xFFD2
  · rw [if_pos h3]
    rw [chrout_trap_counter]
    exact ⟨Nat.le_refl _, Nat.le_add_right _ 8, fun h => absurd h hs⟩
  rw [if_neg h3]
  dsimp only
  rw [step_exec_counter]
  dsimp only
  have hb := execOpcode_cycles_le
    (⟨s.cpu, ((s.mem.read s.cpu.pc).2)⟩ : Machine) ((s.mem.read s.cpu.pc).1)
  exact ⟨by omega, by omega, fun h => absurd h hs⟩

/-- Witness for the amended C5 at the concrete stopped machine. -/
theorem c5_cycle_counter_bounds_witness :
    c5stop.cpu.stopped = true ∧
    ((step c5stop).2 = 1 ∧ (step c5stop).1.cpu.cycles = c5stop.cpu.cycles) :=
  ⟨rfl, (c5_cycle_counter_bounds c5stop).2.2 rfl⟩

/- Claim C1: the RTS program-counter computation. -/

/-- RAM for the C1 failing input: an RTS opcode at $2000 and the saved
return-address bytes low = $FF at $01FE, high = $01 at $01FF. -/
def c1ram : Nat → Nat := fun a =>
  if a = 0x2000 then 0x60
  else if a = 0x1FE then 0xFF
  else if a = 0x1FF then 0x01
  else 0

def c1mach : Machine := ⟨{ pc := 0x2000, sp := 0xFD }, { ram := c1ram }⟩

/-- C1: the claim (and the spec, which says implementers MUST use the
corrected form) requires PC = (((high << 8) | low) + 1) & 0xFFFF = $0200
for low = $FF, high = $01.  The source computes
(pc_high << 8) | pc_low + 1 with Python precedence, giving $0100, so the
code diverges from the claim at this input: popping low = $FF with an odd
high byte loses the carry into the high byte. -/
theorem c1_rts_addition_bug :
    (step c1mach).1.cpu.pc = 0x0100 ∧
    (((0x01 <<< 8) ||| 0xFF) + 1) &&& 0xFFFF = 0x0200 ∧
    (0x0100 : Nat) ≠ 0x0200 := by
  refine ⟨by decide, by decide, by decide⟩

/- Claim C7: the stack pointer range across the CINT trap. -/

/-- Machine at the CINT trap address with SP = $FF, the C7 failing input. -/
def c7mach : Machine := ⟨{ pc := 0xFF5B, sp := 0xFF }, { ram := fun _ => 0 }⟩

/-- C7: the claim (and the data model of the spec) says SP is an 8-bit
register, always within 0-255.  The CINT trap executes sp := sp + 2 without
the & 0xFF mask used by every other SP update, so from SP = $FF the step
leaves SP = $101 = 257, outside the 8-bit range. -/
theorem c7_cint_sp_overflow :
    (step c7mach).1.cpu.sp = 0x101 ∧ ¬ ((step c7mach).1.cpu.sp ≤ 0xFF) := by
  refine ⟨by decide, by decide⟩

/- Claim C8: the CIA timer counter range. -/

/-- C8 counterexample state, built through the public register interface:
enable I/O ($01 = $37), program a Timer A latch of 0 ($DC04/$DC05 = 0), and
start the timer ($DC0E bit 0).  The counter is then 0 with a latch of 0. -/
def c8mem : MemoryMap :=
  ((((({ ram := fun _ => 0 } : MemoryMap).write 0x0001 0x37).write
      0xDC04 0).write 0xDC05 0).write 0xDC0E 0x01)

/-- C8 counterexample: with a latch of 0 the running timer reloads to 0 on
underflow, and the next tick drives the counter negative (here to -2 after
a 2-cycle instruction), leaving the $0000-$FFFF range; the counter then
stays negative because the underflow test requires a positive previous
value.  The claim is false for latch 0. -/
theorem c8_latch_zero_counter_negative :
    c8mem.cia1_timer_a.latch = 0 ∧
    c8mem.cia1_timer_a.running = true ∧
    (updateCiaTimers c8mem 2).cia1_timer_a.counter = -2 ∧
    ¬ (0 ≤ (updateCiaTimers c8mem 2).cia1_timer_a.counter) := by
  refine ⟨by decide, by decide, by decide, by decide⟩

/-- C8 as amended: for every latch value in 1..$FFFF and counter in
1..$FFFF (the range the reload rule re-establishes), every configuration,
and every elapsed cycle count, the counter stays within 1..$FFFF, hence
within $0000-$FFFF, after a tick.  The claim holds only once latch 0 is
excluded. -/
theorem c8_timer_counter_in_range (t : CIATimer) (cycles : Nat)
    (hl1 : 1 ≤ t.latch) (hl2 : t.latch ≤ 0xFFFF)
    (hc1 : 1 ≤ t.counter) (hc2 : t.counter ≤ 0xFFFF) :
    0 ≤ (t.update cycles).1.counter ∧ (t.update cycles).1.counter ≤ 0xFFFF := by
  unfold CIATimer.update
  by_cases hr : (!t.running) = true
  · rw [if_pos hr]
    constructor <;> dsimp only <;> omega
  rw [if_neg hr]
  by_cases hm : t.input_mode = 0
  · rw [if_pos hm]
    dsimp only
    by_cases hu : t.counter > 0 ∧ t.counter - (cycles : Int) ≤ 0
    · rw [if_pos hu]
      by_cases hi : t.irq_enabled = true
      · rw [if_pos hi]
        constructor <;> dsimp only <;> omega
      rw [if_neg hi]
      by_cases ho : t.one_shot = true
      · rw [if_pos ho]
        constructor <;> dsimp only <;> omega
      rw [if_neg ho]
      constructor <;> dsimp only <;> omega
    · rw [if_neg hu]
      constructor <;> dsimp only <;> omega
  · rw [if_neg hm]
    constructor <;> dsimp only <;> omega

/-- Witness for the amended C8 at a concrete timer. -/
theorem c8_timer_counter_in_range_witness :
    (1 ≤ ({ latch := 5, counter := 3, running := true } : CIATimer).latch) ∧
    (0 ≤ (({ latch := 5, counter := 3, running := true } : CIATimer).update 4).1.counter ∧
      (({ latch := 5, counter := 3, running := true } : CIATimer).update 4).1.counter ≤ 0xFFFF) :=
  ⟨by decide,
    c8_timer_counter_in_range { latch := 5, counter := 3, running := true } 4
      (by decide) (by decide) (by decide) (by decide)⟩

/- Window dispatch lemmas for read and write, and write-side RAM frames. -/

/-- CIA register writes never touch RAM. -/
theorem write_cia1_ram (m : MemoryMap) (reg v : Nat) :
    (m.write_cia1 reg v).ram = m.ram := by
  unfold MemoryMap.write_cia1
  repeat' split
  all_goals rfl

/-- VIC register writes never touch RAM. -/
theorem write_vic_ram (m : MemoryMap) (reg v : Nat) :
    (m.write_vic reg v).ram = m.ram := by
  unfold MemoryMap.write_vic
  repeat' split
  all_goals rfl

/-- I/O writes never touch RAM. -/
theorem write_io_ram (m : MemoryMap) (a v : Nat) :
    (m.write_io_area a v).ram = m.ram := by
  unfold MemoryMap.write_io_area
  repeat' split
  · exact write_vic_ram m _ _
  · rfl
  · exact write_cia1_ram m _ _
  · rfl
  · rfl

/-- A write never changes RAM outside the (masked) target address. -/
theorem write_ram_frame (m : MemoryMap) (a v x : Nat) (h : x ≠ a &&& 0xFFFF) :
    ((m.write a v).ram) x = m.ram x := by
  unfold MemoryMap.write
  by_cases c1 : 0xA000 ≤ a &&& 0xFFFF ∧ a &&& 0xFFFF < 0xC000
  · rw [if_pos c1]
    unfold MemoryMap.set_ram
    simp [h]
  rw [if_neg c1]; clear c1
  by_cases c1 : 0xE000 ≤ a &&& 0xFFFF ∧ a &&& 0xFFFF < 0x10000
  · rw [if_pos c1]
    unfold MemoryMap.set_ram
    simp [h]
  rw [if_neg c1]; clear c1
  by_cases c1 : 0xD000 ≤ a &&& 0xFFFF ∧ a &&& 0xFFFF < 0xE000
  · rw [if_pos c1]
    by_cases c2 : m.ram 0x01 &&& 0x03 = 0x03
    · rw [if_pos c2, write_io_ram]
    · rw [if_neg c2]
      unfold MemoryMap.set_ram
      simp [h]
  rw [if_neg c1]
  unfold MemoryMap.set_ram
  simp [h]

/-- Reading inside the $D000 window with I/O banked out consults the
character ROM if present, else RAM. -/
theorem read_char_window (m : MemoryMap) (a : Nat)
    (h : 0xD000 ≤ a &&& 0xFFFF ∧ a &&& 0xFFFF < 0xE000)
    (hio : ¬ (m.ram 0x01 &&& 0x03 = 0x03)) :
    m.read a = (match m.char_rom with
      | some rom => (rom ((a &&& 0xFFFF) - 0xD000), m)
      | none => (m.ram (a &&& 0xFFFF), m)) := by
  unfold MemoryMap.read
  rw [if_pos h, if_neg hio]

/-- Reading inside the $D000 window with I/O banked in dispatches to the
I/O registers. -/
theorem read_io_window (m : MemoryMap) (a : Nat)
    (h : 0xD000 ≤ a &&& 0xFFFF ∧ a &&& 0xFFFF < 0xE000)
    (hio : m.ram 0x01 &&& 0x03 = 0x03) :
    m.read a = m.read_io_area (a &&& 0xFFFF) := by
  unfold MemoryMap.read
  rw [if_pos h, if_pos hio]

/-- Reading inside the BASIC window. -/
theorem read_basic_window (m : MemoryMap) (a : Nat)
    (h : 0xA000 ≤ a &&& 0xFFFF ∧ a &&& 0xFFFF < 0xC000) :
    m.read a = (if m.ram 0x01 &&& 0x07 = 0x07 then
        match m.basic_rom with
        | some rom => (rom ((a &&& 0xFFFF) - 0xA000), m)
        | none => (m.ram (a &&& 0xFFFF), m)
      else (m.ram (a &&& 0xFFFF), m)) := by
  unfold MemoryMap.read
  rw [if_neg (by omega), if_pos h]

/-- Reading inside the KERNAL window. -/
theorem read_kernal_window (m : MemoryMap) (a : Nat)
    (h : 0xE000 ≤ a &&& 0xFFFF ∧ a &&& 0xFFFF < 0x10000) :
    m.read a = (if m.ram 0x01 &&& 0x07 = 0x07 then
        match m.kernal_rom with
        | some rom => (rom ((a &&& 0xFFFF) - 0xE000), m)
        | none => (m.ram (a &&& 0xFFFF), m)
      else (m.ram (a &&& 0xFFFF), m)) := by
  unfold MemoryMap.read
  rw [if_neg (by omega), if_neg (by omega), if_pos h]

/-- Reading below every special window is a RAM read. -/
theorem read_plain (m : MemoryMap) (a : Nat)
    (h1 : ¬ (0xD000 ≤ a &&& 0xFFFF ∧ a &&& 0xFFFF < 0xE000))
    (h2 : ¬ (0xA000 ≤ a &&& 0xFFFF ∧ a &&& 0xFFFF < 0xC000))
    (h3 : ¬ (0xE000 ≤ a &&& 0xFFFF ∧ a &&& 0xFFFF < 0x10000)) :
    m.read a = (m.ram (a &&& 0xFFFF), m) := by
  unfold MemoryMap.read
  rw [if_neg h1, if_neg h2, if_neg h3]

/-- Writing inside the BASIC or KERNAL windows stores into RAM underneath. -/
theorem write_rom_window (m : MemoryMap) (a v : Nat)
    (h : (0xA000 ≤ a &&& 0xFFFF ∧ a &&& 0xFFFF < 0xC000) ∨
         (0xE000 ≤ a &&& 0xFFFF ∧ a &&& 0xFFFF < 0x10000)) :
    m.write a v = m.set_ram (a &&& 0xFFFF) (v &&& 0xFF) := by
  unfold MemoryMap.write
  rcases h with h | h
  · rw [if_pos h]
  · rw [if_neg (by omega), if_pos h]

/-- Writing inside the $D000 window dispatches on the I/O bit. -/
theorem write_char_window (m : MemoryMap) (a v : Nat)
    (h : 0xD000 ≤ a &&& 0xFFFF ∧ a &&& 0xFFFF < 0xE000) :
    m.write a v = (if m.ram 0x01 &&& 0x03 = 0x03
      then m.write_io_area (a &&& 0xFFFF) (v &&& 0xFF)
      else m.set_ram (a &&& 0xFFFF) (v &&& 0xFF)) := by
  unfold MemoryMap.write
  rw [if_neg (by omega), if_neg (by omega), if_pos h]

/-- Writing outside every special window stores into RAM. -/
theorem write_plain (m : MemoryMap) (a v : Nat)
    (h1 : ¬ (0xA000 ≤ a &&& 0xFFFF ∧ a &&& 0xFFFF < 0xC000))
    (h2 : ¬ (0xE000 ≤ a &&& 0xFFFF ∧ a &&& 0xFFFF < 0x10000))
    (h3 : ¬ (0xD000 ≤ a &&& 0xFFFF ∧ a &&& 0xFFFF < 0xE000)) :
    m.write a v = m.set_ram (a &&& 0xFFFF) (v &&& 0xFF) := by
  unfold MemoryMap.write
  rw [if_neg h1, if_neg h2, if_neg h3]

/-- The stored byte at the written RAM address. -/
theorem set_ram_get (m : MemoryMap) (a v : Nat) : ((m.set_ram a v).ram) a = v := by
  unfold MemoryMap.set_ram
  simp

/-- set_ram only changes the RAM array. -/
theorem set_ram_char (m : MemoryMap) (a v : Nat) :
    (m.set_ram a v).char_rom = m.char_rom := rfl

/- Claim C6: write-then-read under banking. -/

/-- A Bool cannot be both false and true. -/
theorem bool_contra {C : Prop} {b : Bool} (h1 : b = false) (h2 : b = true) : C := by
  rw [h1] at h2
  exact absurd h2 (by simp)

/-- Masking a value to 16 bits keeps it below $10000. -/
theorem mask16_lt (a : Nat) : a &&& 0xFFFF < 0x10000 := by
  have h := Nat.and_pow_two_sub_one_eq_mod a 16
  norm_num at h
  omega

/-- A byte-sized value is unchanged by the & 0xFF write mask. -/
theorem land255_eq_self (v : Nat) (h : v ≤ 0xFF) : v &&& 0xFF = v := by
  have h8 := Nat.and_pow_two_sub_one_eq_mod v 8
  norm_num at h8
  omega

/-- The address is ROM-masked when, after masking to 16 bits, it falls in a
window where the read path of MemoryMap.read consults a present ROM image:
the character window with I/O banked out, or the BASIC/KERNAL windows with
$01 selecting ROM. -/
def romMasked (m : MemoryMap) (addr : Nat) : Bool :=
  if 0xD000 ≤ addr &&& 0xFFFF ∧ addr &&& 0xFFFF < 0xE000 then
    (!(m.ram 0x01 &&& 0x03 == 0x03)) && m.char_rom.isSome
  else if 0xA000 ≤ addr &&& 0xFFFF ∧ addr &&& 0xFFFF < 0xC000 then
    (m.ram 0x01 &&& 0x07 == 0x07) && m.basic_rom.isSome
  else if 0xE000 ≤ addr &&& 0xFFFF ∧ addr &&& 0xFFFF < 0x10000 then
    (m.ram 0x01 &&& 0x07 == 0x07) && m.kernal_rom.isSome
  else false

/-- The address lands in the $D000-$DFFF window while I/O is banked in. -/
def ioEnabledWindow (m : MemoryMap) (addr : Nat) : Bool :=
  decide (0xD000 ≤ addr &&& 0xFFFF ∧ addr &&& 0xFFFF < 0xE000) &&
    (m.ram 0x01 &&& 0x03 == 0x03)

/-- The ROM byte a masked address reads. -/
def romByte (m : MemoryMap) (addr : Nat) : Nat :=
  if 0xD000 ≤ addr &&& 0xFFFF ∧ addr &&& 0xFFFF < 0xE000 then
    (m.char_rom.getD (fun _ => 0)) ((addr &&& 0xFFFF) - 0xD000)
  else if 0xA000 ≤ addr &&& 0xFFFF ∧ addr &&& 0xFFFF < 0xC000 then
    (m.basic_rom.getD (fun _ => 0)) ((addr &&& 0xFFFF) - 0xA000)
  else (m.kernal_rom.getD (fun _ => 0)) ((addr &&& 0xFFFF) - 0xE000)

/-- C6 counterexample memory: I/O banked in ($01 = $37), no ROM images. -/
def c6mem : MemoryMap := { ram := fun a => if a = 1 then 0x37 else 0 }

/-- C6 counterexample: at the SID address $D400 with I/O banked in, the
write is discarded and the read returns 0, although the address is not
masked by any ROM image, so write-then-read does not return the written
value and the claimed equivalence fails in the only-if direction. -/
theorem c6_sid_write_read_fails :
    romMasked (c6mem.write 0xD400 5) 0xD400 = false ∧
    ((c6mem.write 0xD400 5).read 0xD400).1 = 0 ∧
    (0 : Nat) ≠ 5 := by
  refine ⟨by decide, by decide, by decide⟩

/-- C6 as amended: for every byte v, if the written address is neither
ROM-masked nor inside the I/O window with I/O enabled, write-then-read
returns v; if it is ROM-masked, the read returns the ROM byte and v is
nevertheless stored in the underlying RAM.  The banking tests use the state
after the write, which differs from the state before only for writes to $01
itself. -/
theorem c6_write_read (m : MemoryMap) (addr v : Nat) (hv : v ≤ 0xFF) :
    (romMasked (m.write addr v) addr = false →
      ioEnabledWindow (m.write addr v) addr = false →
      ((m.write addr v).read addr).1 = v) ∧
    (romMasked (m.write addr v) addr = true →
      ((m.write addr v).read addr).1 = romByte (m.write addr v) addr ∧
      ((m.write addr v).ram) (addr &&& 0xFFFF) = v) := by
  have h16 := mask16_lt addr
  have hm := land255_eq_self v hv
  by_cases cw1 : 0xD000 ≤ addr &&& 0xFFFF ∧ addr &&& 0xFFFF < 0xE000
  · have hne1 : (0x01 : Nat) ≠ addr &&& 0xFFFF := by omega
    by_cases cio : m.ram 0x01 &&& 0x03 = 0x03
    · have hio1 : (m.write addr v).ram 0x01 = m.ram 0x01 := write_ram_frame m addr v 0x01 hne1
      have hiow : ioEnabledWindow (m.write addr v) addr = true := by
        unfold ioEnabledWindow
        rw [hio1]
        simp only [Bool.and_eq_true, decide_eq_true_eq, beq_iff_eq]
        exact ⟨cw1, cio⟩
      have hmask : romMasked (m.write addr v) addr = false := by
        unfold romMasked
        rw [if_pos cw1, hio1]
        simp [cio]
      exact ⟨fun _ hbad => bool_contra hbad hiow, fun hbad => bool_contra hmask hbad⟩
    · have hw : m.write addr v = m.set_ram (addr &&& 0xFFFF) (v &&& 0xFF) := by
        rw [write_char_window m addr v cw1, if_neg cio]
      have hram1 : (m.write addr v).ram 0x01 = m.ram 0x01 := write_ram_frame m addr v 0x01 hne1
      have hrama : (m.write addr v).ram (addr &&& 0xFFFF) = v := by
        rw [hw, set_ram_get, hm]
      have hcrom : (m.write addr v).char_rom = m.char_rom := by
        rw [hw]
        rfl
      have hread := read_char_window (m.write addr v) addr cw1 (by rw [hram1]; exact cio)
      rw [hcrom] at hread
      cases hc : m.char_rom with
      | some rom =>
        rw [hc] at hread
        have hmask : romMasked (m.write addr v) addr = true := by
          unfold romMasked
          rw [if_pos cw1, hram1, hcrom, hc]
          simp [cio]
        refine ⟨fun hbad _ => bool_contra hbad hmask, fun _ => ⟨?_, hrama⟩⟩
        rw [hread]
        unfold romByte
        rw [if_pos cw1, hcrom, hc]
        rfl
      | none =>
        rw [hc] at hread
        have hmask : romMasked (m.write addr v) addr = false := by
          unfold romMasked
          rw [if_pos cw1, hcrom, hc]
          simp
        refine ⟨fun _ _ => ?_, fun hbad => bool_contra hmask hbad⟩
        rw [hread]
        exact hrama
  · by_cases cw2 : 0xA000 ≤ addr &&& 0xFFFF ∧ addr &&& 0xFFFF < 0xC000
    · have hne1 : (0x01 : Nat) ≠ addr &&& 0xFFFF := by omega
      have hw : m.write addr v = m.set_ram (addr &&& 0xFFFF) (v &&& 0xFF) :=
        write_rom_window m addr v (Or.inl cw2)
      have hram1 : (m.write addr v).ram 0x01 = m.ram 0x01 := write_ram_frame m addr v 0x01 hne1
      have hrama : (m.write addr v).ram (addr &&& 0xFFFF) = v := by
        rw [hw, set_ram_get, hm]
      have hbrom : (m.write addr v).basic_rom = m.basic_rom := by
        rw [hw]
        rfl
      have hread := read_basic_window (m.write addr v) addr cw2
      rw [hbrom, hram1] at hread
      by_cases cb : m.ram 0x01 &&& 0x07 = 0x07
      · rw [if_pos cb] at hread
        cases hc : m.basic_rom with
        | some rom =>
          rw [hc] at hread
          have hmask : romMasked (m.write addr v) addr = true := by
            unfold romMasked
            rw [if_neg cw1, if_pos cw2, hram1, hbrom, hc]
            simp [cb]
          refine ⟨fun hbad _ => bool_contra hbad hmask, fun _ => ⟨?_, hrama⟩⟩
          rw [hread]
          unfold romByte
          rw [if_neg cw1, if_pos cw2, hbrom, hc]
          rfl
        | none =>
          rw [hc] at hread
          have hmask : romMasked (m.write addr v) addr = false := by
            unfold romMasked
            rw [if_neg cw1, if_pos cw2, hbrom, hc]
            simp
          refine ⟨fun _ _ => ?_, fun hbad => bool_contra hmask hbad⟩
          rw [hread]
          exact hrama
      · rw [if_neg cb] at hread
        have hmask : romMasked (m.write addr v) addr = false := by
          unfold romMasked
          rw [if_neg cw1, if_pos cw2, hram1]
          simp [cb]
        refine ⟨fun _ _ => ?_, fun hbad => bool_contra hmask hbad⟩
        rw [hread]
        exact hrama
    · by_cases cw3 : 0xE000 ≤ addr &&& 0xFFFF ∧ addr &&& 0xFFFF < 0x10000
      · have hne1 : (0x01 : Nat) ≠ addr &&& 0xFFFF := by omega
        have hw : m.write addr v = m.set_ram (addr &&& 0xFFFF) (v &&& 0xFF) :=
          write_rom_window m addr v (Or.inr cw3)
        have hram1 : (m.write addr v).ram 0x01 = m.ram 0x01 := write_ram_frame m addr v 0x01 hne1
        have hrama : (m.write addr v).ram (addr &&& 0xFFFF) = v := by
          rw [hw, set_ram_get, hm]
        have hkrom : (m.write addr v).kernal_rom = m.kernal_rom := by
          rw [hw]
          rfl
        have hread := read_kernal_window (m.write addr v) addr cw3
        rw [hkrom, hram1] at hread
        by_cases cb : m.ram 0x01 &&& 0x07 = 0x07
        · rw [if_pos cb] at hread
          cases hc : m.kernal_rom with
          | some rom =>
            rw [hc] at hread
            have hmask : romMasked (m.write addr v) addr = true := by
              unfold romMasked
              rw [if_neg cw1, if_neg cw2, if_pos cw3, hram1, hkrom, hc]
              simp [cb]
            refine ⟨fun hbad _ => bool_contra hbad hmask, fun _ => ⟨?_, hrama⟩⟩
            rw [hread]
            unfold romByte
            rw [if_neg cw1, if_neg cw2, hkrom, hc]
            rfl
          | none =>
            rw [hc] at hread
            have hmask : romMasked (m.write addr v) addr = false := by
              unfold romMasked
              rw [if_neg cw1, if_neg cw2, if_pos cw3, hkrom, hc]
              simp
            refine ⟨fun _ _ => ?_, fun hbad => bool_contra hmask hbad⟩
            rw [hread]
            exact hrama
        · rw [if_neg cb] at hread
          have hmask : romMasked (m.write addr v) addr = false := by
            unfold romMasked
            rw [if_neg cw1, if_neg cw2, if_pos cw3, hram1]
            simp [cb]
          refine ⟨fun _ _ => ?_, fun hbad => bool_contra hmask hbad⟩
          rw [hread]
          exact hrama
      · have hw : m.write addr v = m.set_ram (addr &&& 0xFFFF) (v &&& 0xFF) :=
          write_plain m addr v cw2 cw3 cw1
        have hrama : (m.write addr v).ram (addr &&& 0xFFFF) = v := by
          rw [hw, set_ram_get, hm]
        have hread := read_plain (m.write addr v) addr cw1 cw2 cw3
        have hmask : romMasked (m.write addr v) addr = false := by
          unfold romMasked
          rw [if_neg cw1, if_neg cw2, if_neg cw3]
        refine ⟨fun _ _ => ?_, fun hbad => bool_contra hmask hbad⟩
        rw [hread]
        exact hrama

/-- Witness for the amended C6: a plain RAM address and a ROM-masked BASIC
address, both with concrete maps. -/
def c6romMem : MemoryMap :=
  { ram := fun a => if a = 1 then 0x37 else 0, basic_rom := some (fun _ => 0x11) }

theorem c6_write_read_witness :
    (0x42 : Nat) ≤ 0xFF ∧
    (romMasked (c6romMem.write 0xA123 0x42) 0xA123 = true →
      ((c6romMem.write 0xA123 0x42).read 0xA123).1 = romByte (c6romMem.write 0xA123 0x42) 0xA123 ∧
      ((c6romMem.write 0xA123 0x42).ram) (0xA123 &&& 0xFFFF) = 0x42) :=
  ⟨by decide, (c6_write_read c6romMem 0xA123 0x42 (by decide)).2⟩

/- Claim C2: the trap test does not consult banking. -/

/-- C2 as amended: the KERNAL trap shims fire purely on the program-counter
value; no banking hypothesis is needed (the source consults only the PC).
CINT returns to $FCFE with SP grown by 2 in 1 cycle, CHRIN and CHROUT each
consume 20 cycles. -/
theorem c2_traps_fire_regardless_of_banking (s : Machine) (h : s.cpu.stopped = false) :
    (s.cpu.pc = 0xFF5B →
      (step s).1.cpu.pc = 0xFCFE ∧ (step s).1.cpu.sp = s.cpu.sp + 2 ∧ (step s).2 = 1) ∧
    (s.cpu.pc = 0xFFCF → (step s).2 = 20) ∧
    (s.cpu.pc = 0xFFD2 → (step s).2 = 20) := by
  unfold step
  rw [if_neg (by rw [h]; exact fun hh => nomatch hh)]
  dsimp only
  refine ⟨fun hpc => ?_, fun hpc => ?_, fun hpc => ?_⟩
  · rw [if_pos hpc]
    exact ⟨rfl, rfl, rfl⟩
  · rw [if_neg (by rw [hpc]; decide), if_pos hpc, chrin_trap_cyc]
  · rw [if_neg (by rw [hpc]; decide), if_neg (by rw [hpc]; decide), if_pos hpc,
      chrout_trap_cyc]

/-- Witness machine for the amended C2: the CINT trap address. -/
def c2w : Machine := ⟨{ pc := 0xFF5B, sp := 0x80 }, { ram := fun _ => 0 }⟩

theorem c2_traps_fire_regardless_of_banking_witness :
    c2w.cpu.stopped = false ∧
    ((step c2w).1.cpu.pc = 0xFCFE ∧ (step c2w).1.cpu.sp = c2w.cpu.sp + 2 ∧ (step c2w).2 = 1) :=
  ⟨rfl, (c2_traps_fire_regardless_of_banking c2w rfl).1 rfl⟩

/-- C2 counterexample state: banking deselects the KERNAL ROM ($01 = 0, so
$01 & 7 is not 7) although a KERNAL image is present, and RAM holds a NOP
opcode ($EA) at $FFD2. -/
def c2ram : Nat → Nat := fun a =>
  if a = 0xFFD2 then 0xEA
  else if a = 0x1FE then 0x34
  else if a = 0x1FF then 0x12
  else 0

def c2mach : Machine :=
  ⟨{ pc := 0xFFD2, a := 0x41, sp := 0xFD },
   { ram := c2ram, kernal_rom := some (fun _ => 0x60) }⟩

/-- C2 counterexample: the claim says that when banking does not select the
KERNAL ROM, the RAM byte at PC ($EA, a 2-cycle NOP that would set PC to
$FFD3) is executed.  Instead the CHROUT shim runs: the step consumes 20
cycles, writes the character in A to screen RAM, and loads PC from the
stack ($1235), so the claim is false at this state. -/
theorem c2_trap_ignores_banking :
    c2mach.mem.ram 0x01 &&& 0x07 ≠ 0x07 ∧
    (c2mach.mem.read 0xFFD2).1 = 0xEA ∧
    (step c2mach).2 = 20 ∧
    (step c2mach).1.cpu.pc = 0x1235 ∧
    (step c2mach).1.mem.ram 0x0400 = 0x41 ∧
    (step c2mach).1.cpu.pc ≠ 0xFFD3 := by
  refine ⟨by decide, by decide, by decide, by decide, by decide, by decide⟩

/- Claim C3: carriage return at the bottom row. -/

/-- Masking with 0xFF twice is the same as once. -/
theorem land255_idem (x : Nat) : (x &&& 0xFF) &&& 0xFF = x &&& 0xFF := by
  rw [Nat.and_assoc]
  norm_num

/-- Behaviour of the CHROUT shim on a carriage return with a valid cursor:
the cursor pointer is set to the start of row (row + 1) mod 25 and no RAM
cell other than $D1/$D2 changes (in particular the screen is not
scrolled). -/
theorem chrout_cr (s : Machine) (ha : s.cpu.a = 0x0D)
    (hlo : 0x0400 ≤ s.mem.ram 0xD1 ||| (s.mem.ram 0xD2 <<< 8))
    (hhi : s.mem.ram 0xD1 ||| (s.mem.ram 0xD2 <<< 8) < 0x07E8) :
    ((chrout_trap s).1.mem.ram 0xD1 =
       (0x0400 + ((((s.mem.ram 0xD1 ||| (s.mem.ram 0xD2 <<< 8)) - 0x0400) / 40 + 1) % 25) * 40)
         &&& 0xFF) ∧
    ((chrout_trap s).1.mem.ram 0xD2 =
       ((0x0400 + ((((s.mem.ram 0xD1 ||| (s.mem.ram 0xD2 <<< 8)) - 0x0400) / 40 + 1) % 25) * 40)
         >>> 8) &&& 0xFF) ∧
    (∀ a2, a2 ≠ 0xD1 → a2 ≠ 0xD2 → (chrout_trap s).1.mem.ram a2 = s.mem.ram a2) := by
  have e1 : (0xD1 : Nat) &&& 0xFFFF = 0xD1 := by decide
  have e2 : (0xD2 : Nat) &&& 0xFFFF = 0xD2 := by decide
  have h1 : s.mem.read 0xD1 = (s.mem.ram 0xD1, s.mem) := by
    have h := read_low s.mem 0xD1 (by decide)
    rwa [e1] at h
  unfold chrout_trap
  rw [h1]
  dsimp only
  have h2 : s.mem.read 0xD2 = (s.mem.ram 0xD2, s.mem) := by
    have h := read_low s.mem 0xD2 (by decide)
    rwa [e2] at h
  rw [h2]
  dsimp only
  rw [if_neg (not_or.mpr ⟨by omega, by omega⟩), if_pos ha]
  dsimp only
  rw [write_low _ 0xD1 _ (by decide), e1]
  rw [write_low _ 0xD2 _ (by decide), e2]
  simp only [land255_idem]
  simp only [read_ram_eq]
  unfold MemoryMap.set_ram
  dsimp only
  refine ⟨by norm_num, by norm_num, ?_⟩
  intro a2 hne1 hne2
  simp [hne1, hne2]

/-- C3 as amended: a carriage return printed through the CHROUT trap moves
the cursor to the start of row (row + 1) mod 25 - so from row 24 it wraps
to row 0, column 0 - and the screen is not scrolled: no RAM cell other than
the cursor pointer $D1/$D2 changes. -/
theorem c3_cr_wraps_mod25 (s : Machine) (h : s.cpu.stopped = false)
    (hpc : s.cpu.pc = 0xFFD2) (ha : s.cpu.a = 0x0D)
    (hlo : 0x0400 ≤ s.mem.ram 0xD1 ||| (s.mem.ram 0xD2 <<< 8))
    (hhi : s.mem.ram 0xD1 ||| (s.mem.ram 0xD2 <<< 8) < 0x07E8) :
    ((step s).1.mem.ram 0xD1 =
       (0x0400 + ((((s.mem.ram 0xD1 ||| (s.mem.ram 0xD2 <<< 8)) - 0x0400) / 40 + 1) % 25) * 40)
         &&& 0xFF) ∧
    ((step s).1.mem.ram 0xD2 =
       ((0x0400 + ((((s.mem.ram 0xD1 ||| (s.mem.ram 0xD2 <<< 8)) - 0x0400) / 40 + 1) % 25) * 40)
         >>> 8) &&& 0xFF) ∧
    (∀ a2, a2 ≠ 0xD1 → a2 ≠ 0xD2 → (step s).1.mem.ram a2 = s.mem.ram a2) := by
  unfold step
  rw [if_neg (by rw [h]; exact fun hh => nomatch hh)]
  dsimp only
  rw [if_neg (by rw [hpc]; decide), if_neg (by rw [hpc]; decide), if_pos hpc]
  have hfetch : (s.mem.read s.cpu.pc).2 = s.mem := by
    rw [hpc]
    exact read_high_snd s.mem 0xFFD2 (by decide)
  rw [hfetch]
  exact chrout_cr ⟨s.cpu, s.mem⟩ ha hlo hhi

/-- Witness machine for the amended C3: cursor at row 5, column 0. -/
def c3w : Machine :=
  ⟨{ pc := 0xFFD2, a := 0x0D, sp := 0xFD },
   { ram := fun a => if a = 0xD1 then 0xC8 else if a = 0xD2 then 0x04 else 0 }⟩

theorem c3_cr_wraps_mod25_witness :
    (c3w.cpu.stopped = false ∧ c3w.cpu.pc = 0xFFD2 ∧ c3w.cpu.a = 0x0D ∧
      0x0400 ≤ c3w.mem.ram 0xD1 ||| (c3w.mem.ram 0xD2 <<< 8) ∧
      c3w.mem.ram 0xD1 ||| (c3w.mem.ram 0xD2 <<< 8) < 0x07E8) ∧
    ((step c3w).1.mem.ram 0xD1 =
       (0x0400 + ((((c3w.mem.ram 0xD1 ||| (c3w.mem.ram 0xD2 <<< 8)) - 0x0400) / 40 + 1) % 25) * 40)
         &&& 0xFF) :=
  ⟨⟨rfl, rfl, rfl, by decide, by decide⟩,
   (c3_cr_wraps_mod25 c3w rfl rfl rfl (by decide) (by decide)).1⟩

/-- C3 counterexample state: cursor at row 24, column 0 ($07C0), a marker
byte 7 at the start of row 1 ($0428), carriage return in A. -/
def c3ram : Nat → Nat := fun a =>
  if a = 0xD1 then 0xC0
  else if a = 0xD2 then 0x07
  else if a = 0x428 then 7
  else if a = 0x1FE then 0x34
  else if a = 0x1FF then 0x12
  else 0

def c3mach : Machine := ⟨{ pc := 0xFFD2, a := 0x0D, sp := 0xFD }, { ram := c3ram }⟩

/-- C3 counterexample: after a carriage return at row 24 the claim expects
the screen to scroll (so $0400 would receive the old row-1 marker 7) and
the cursor to stay at row 24 ($07C0).  Instead the cursor wraps to $0400
(row 0) and the screen is untouched. -/
theorem c3_cr_row24_no_scroll :
    (step c3mach).1.mem.ram 0xD1 = 0x00 ∧
    (step c3mach).1.mem.ram 0xD2 = 0x04 ∧
    ((step c3mach).1.mem.ram 0xD1 ||| ((step c3mach).1.mem.ram 0xD2 <<< 8)) = 0x0400 ∧
    (0x0400 : Nat) ≠ 0x07C0 ∧
    (step c3mach).1.mem.ram 0x0400 = 0 ∧
    c3mach.mem.ram 0x0428 = 7 := by
  refine ⟨by decide, by decide, by decide, by decide, by decide, by decide⟩

/- Claim C4: the CHRIN keyboard-buffer read. -/

/-- CHRIN with a nonempty buffer and the default buffer pointer: the first
buffer byte is loaded into A and then cleared to 0 in RAM (it is not
shifted away), and $C6 decrements by one; no other RAM cell changes. -/
theorem chrin_nonzero (s : Machine) (hf7 : s.mem.ram 0xF7 = 0) (hf8 : s.mem.ram 0xF8 = 0)
    (hb : s.mem.ram 0xC6 ≤ 0xFF) (hpos : 0 < s.mem.ram 0xC6) :
    (chrin_trap s).1.cpu.a = s.mem.ram 0x0277 ∧
    (chrin_trap s).1.mem.ram 0xC6 = s.mem.ram 0xC6 - 1 ∧
    (chrin_trap s).1.mem.ram 0x0277 = 0 ∧
    (∀ a2, a2 ≠ 0xC6 → a2 ≠ 0x0277 → (chrin_trap s).1.mem.ram a2 = s.mem.ram a2) := by
  have eC6 : (0xC6 : Nat) &&& 0xFFFF = 0xC6 := by decide
  have eF7 : (0xF7 : Nat) &&& 0xFFFF = 0xF7 := by decide
  have eF8 : (0xF8 : Nat) &&& 0xFFFF = 0xF8 := by decide
  have e277 : (0x0277 : Nat) &&& 0xFFFF = 0x0277 := by decide
  have hC6 : s.mem.read 0xC6 = (s.mem.ram 0xC6, s.mem) := by
    have h := read_low s.mem 0xC6 (by decide)
    rwa [eC6] at h
  have hF7 : s.mem.read 0xF7 = (s.mem.ram 0xF7, s.mem) := by
    have h := read_low s.mem 0xF7 (by decide)
    rwa [eF7] at h
  have hF8 : s.mem.read 0xF8 = (s.mem.ram 0xF8, s.mem) := by
    have h := read_low s.mem 0xF8 (by decide)
    rwa [eF8] at h
  have h277 : s.mem.read 0x0277 = (s.mem.ram 0x0277, s.mem) := by
    have h := read_low s.mem 0x0277 (by decide)
    rwa [e277] at h
  unfold chrin_trap
  rw [hC6]
  dsimp only
  rw [if_pos hpos, hF7, hF8]
  dsimp only
  rw [hf7, hf8]
  have hptr : ((0 : Nat) ||| 0 <<< 8) = 0 := by decide
  rw [if_pos hptr, h277]
  dsimp only
  rw [write_low _ 0xC6 _ (by decide), eC6, write_low _ 0x0277 _ (by decide), e277]
  simp only [read_ram_eq]
  unfold MemoryMap.set_ram
  dsimp only
  have hlen : ((s.mem.ram 0xC6 - 1) &&& 0xFF) &&& 0xFF = s.mem.ram 0xC6 - 1 := by
    rw [land255_idem, land255_eq_self _ (by omega)]
  refine ⟨trivial, ?_, by norm_num, ?_⟩
  · norm_num
    exact hlen
  · intro a2 hne1 hne2
    simp [hne1, hne2]

/-- CHRIN with an empty buffer after the one-shot RUN injection has already
happened: A is set to 0 and RAM is untouched. -/
theorem chrin_zero (s : Machine) (hzero : s.mem.ram 0xC6 = 0)
    (hinj : s.cpu.run_injected = true) :
    (chrin_trap s).1.cpu.a = 0 ∧
    (∀ a2, (chrin_trap s).1.mem.ram a2 = s.mem.ram a2) := by
  have eC6 : (0xC6 : Nat) &&& 0xFFFF = 0xC6 := by decide
  have hC6 : s.mem.read 0xC6 = (s.mem.ram 0xC6, s.mem) := by
    have h := read_low s.mem 0xC6 (by decide)
    rwa [eC6] at h
  unfold chrin_trap
  rw [hC6]
  dsimp only
  rw [if_neg (by omega), if_neg (by rw [hinj]; decide)]
  dsimp only
  simp only [read_ram_eq]
  exact ⟨trivial, fun a2 => trivial⟩

/-- C4 as amended: for a CHRIN trap with the default buffer pointer
($F7/$F8 = 0) and a byte-valued $C6: with a nonempty buffer the first byte
at $0277 is loaded into A, $C6 decrements by exactly 1, and the consumed
byte at $0277 is overwritten with 0 - the remaining buffer bytes are NOT
shifted left, every other RAM cell is unchanged; with an empty buffer
(after the one-shot RUN auto-injection has already happened) A is set to 0
and RAM is untouched. -/
theorem c4_chrin_buffer_read (s : Machine) (h : s.cpu.stopped = false)
    (hpc : s.cpu.pc = 0xFFCF) (hf7 : s.mem.ram 0xF7 = 0) (hf8 : s.mem.ram 0xF8 = 0)
    (hb : s.mem.ram 0xC6 ≤ 0xFF) :
    (0 < s.mem.ram 0xC6 →
      (step s).1.cpu.a = s.mem.ram 0x0277 ∧
      (step s).1.mem.ram 0xC6 = s.mem.ram 0xC6 - 1 ∧
      (step s).1.mem.ram 0x0277 = 0 ∧
      (∀ a2, a2 ≠ 0xC6 → a2 ≠ 0x0277 → (step s).1.mem.ram a2 = s.mem.ram a2)) ∧
    (s.mem.ram 0xC6 = 0 → s.cpu.run_injected = true →
      (step s).1.cpu.a = 0 ∧ (∀ a2, (step s).1.mem.ram a2 = s.mem.ram a2)) := by
  unfold step
  rw [if_neg (by rw [h]; exact fun hh => nomatch hh)]
  dsimp only
  rw [if_neg (by rw [hpc]; decide), if_pos hpc]
  have hfetch : (s.mem.read s.cpu.pc).2 = s.mem := by
    rw [hpc]
    exact read_high_snd s.mem 0xFFCF (by decide)
  rw [hfetch]
  exact ⟨fun hpos => chrin_nonzero ⟨s.cpu, s.mem⟩ hf7 hf8 hb hpos,
         fun hzero hinj => chrin_zero ⟨s.cpu, s.mem⟩ hzero hinj⟩

/-- Witness machine for the amended C4: two buffered characters. -/
def c4w : Machine :=
  ⟨{ pc := 0xFFCF, sp := 0xFD },
   { ram := fun a => if a = 0xC6 then 2 else if a = 0x0277 then 0x41
       else if a = 0x0278 then 0x42 else 0 }⟩

theorem c4_chrin_buffer_read_witness :
    (c4w.cpu.stopped = false ∧ c4w.cpu.pc = 0xFFCF ∧ c4w.mem.ram 0xF7 = 0 ∧
      c4w.mem.ram 0xF8 = 0 ∧ c4w.mem.ram 0xC6 ≤ 0xFF ∧ 0 < c4w.mem.ram 0xC6) ∧
    ((step c4w).1.cpu.a = c4w.mem.ram 0x0277 ∧
      (step c4w).1.mem.ram 0xC6 = c4w.mem.ram 0xC6 - 1 ∧
      (step c4w).1.mem.ram 0x0277 = 0 ∧
      (∀ a2, a2 ≠ 0xC6 → a2 ≠ 0x0277 → (step c4w).1.mem.ram a2 = c4w.mem.ram a2)) :=
  ⟨⟨rfl, rfl, rfl, rfl, by decide, by decide⟩,
   (c4_chrin_buffer_read c4w rfl rfl rfl rfl (by decide)).1 (by decide)⟩

/-- C4 counterexample state: buffer length 2, characters $41 and $42. -/
def c4ram : Nat → Nat := fun a =>
  if a = 0xC6 then 2
  else if a = 0x0277 then 0x41
  else if a = 0x0278 then 0x42
  else if a = 0x1FE then 0x34
  else if a = 0x1FF then 0x12
  else 0

def c4mach : Machine := ⟨{ pc := 0xFFCF, sp := 0xFD }, { ram := c4ram }⟩

/-- C4 counterexample: the claim says the remaining buffer bytes shift left
by one position, so after consuming $41 the byte at $0277 would be the old
second byte $42.  Instead the source clears $0277 to 0 and leaves $0278 in
place: no shift happens. -/
theorem c4_chrin_does_not_shift :
    (step c4mach).1.cpu.a = 0x41 ∧
    (step c4mach).1.mem.ram 0xC6 = 1 ∧
    (step c4mach).1.mem.ram 0x0277 = 0 ∧
    (step c4mach).1.mem.ram 0x0278 = 0x42 ∧
    (step c4mach).1.mem.ram 0x0277 ≠ 0x42 := by
  refine ⟨by decide, by decide, by decide, by decide, by decide⟩

/- Claims C9 and C10: interrupt service and CLI. -/

/-- The CIA service never clears the pending IRQ line. -/
theorem handleCia_pending (m : MemoryMap) :
    (handleCiaInterrupt m).pending_irq = m.pending_irq := by
  have eA0 : (0xA0 : Nat) &&& 0xFFFF = 0xA0 := by decide
  have eA1 : (0xA1 : Nat) &&& 0xFFFF = 0xA1 := by decide
  have eA2 : (0xA2 : Nat) &&& 0xFFFF = 0xA2 := by decide
  unfold handleCiaInterrupt
  by_cases hc : m.cia1_icr &&& 0x01 ≠ 0
  · rw [if_pos hc]
    have h0 : m.read 0xA0 = (m.ram 0xA0, m) := by
      have h := read_low m 0xA0 (by decide)
      rwa [eA0] at h
    rw [h0]
    dsimp only
    have h1 : m.read 0xA1 = (m.ram 0xA1, m) := by
      have h := read_low m 0xA1 (by decide)
      rwa [eA1] at h
    rw [h1]
    dsimp only
    have h2 : m.read 0xA2 = (m.ram 0xA2, m) := by
      have h := read_low m 0xA2 (by decide)
      rwa [eA2] at h
    rw [h2]
    dsimp only
    rw [write_low _ 0xA0 _ (by decide), eA0]
    rw [write_low _ 0xA1 _ (by decide), eA1]
    rw [write_low _ 0xA2 _ (by decide), eA2]
    rfl
  · rw [if_neg hc]

/-- The CIA service never clears the ICR. -/
theorem handleCia_icr (m : MemoryMap) :
    (handleCiaInterrupt m).cia1_icr = m.cia1_icr := by
  have eA0 : (0xA0 : Nat) &&& 0xFFFF = 0xA0 := by decide
  have eA1 : (0xA1 : Nat) &&& 0xFFFF = 0xA1 := by decide
  have eA2 : (0xA2 : Nat) &&& 0xFFFF = 0xA2 := by decide
  unfold handleCiaInterrupt
  by_cases hc : m.cia1_icr &&& 0x01 ≠ 0
  · rw [if_pos hc]
    have h0 : m.read 0xA0 = (m.ram 0xA0, m) := by
      have h := read_low m 0xA0 (by decide)
      rwa [eA0] at h
    rw [h0]
    dsimp only
    have h1 : m.read 0xA1 = (m.ram 0xA1, m) := by
      have h := read_low m 0xA1 (by decide)
      rwa [eA1] at h
    rw [h1]
    dsimp only
    have h2 : m.read 0xA2 = (m.ram 0xA2, m) := by
      have h := read_low m 0xA2 (by decide)
      rwa [eA2] at h
    rw [h2]
    dsimp only
    rw [write_low _ 0xA0 _ (by decide), eA0]
    rw [write_low _ 0xA1 _ (by decide), eA1]
    rw [write_low _ 0xA2 _ (by decide), eA2]
    rfl
  · rw [if_neg hc]

/-- The CIA service touches RAM only at the jiffy bytes $A0/$A1/$A2. -/
theorem handleCia_ram_frame (m : MemoryMap) (x : Nat)
    (hx0 : x ≠ 0xA0) (hx1 : x ≠ 0xA1) (hx2 : x ≠ 0xA2) :
    (handleCiaInterrupt m).ram x = m.ram x := by
  have eA0 : (0xA0 : Nat) &&& 0xFFFF = 0xA0 := by decide
  have eA1 : (0xA1 : Nat) &&& 0xFFFF = 0xA1 := by decide
  have eA2 : (0xA2 : Nat) &&& 0xFFFF = 0xA2 := by decide
  unfold handleCiaInterrupt
  by_cases hc : m.cia1_icr &&& 0x01 ≠ 0
  · rw [if_pos hc]
    have h0 : m.read 0xA0 = (m.ram 0xA0, m) := by
      have h := read_low m 0xA0 (by decide)
      rwa [eA0] at h
    rw [h0]
    dsimp only
    have h1 : m.read 0xA1 = (m.ram 0xA1, m) := by
      have h := read_low m 0xA1 (by decide)
      rwa [eA1] at h
    rw [h1]
    dsimp only
    have h2 : m.read 0xA2 = (m.ram 0xA2, m) := by
      have h := read_low m 0xA2 (by decide)
      rwa [eA2] at h
    rw [h2]
    dsimp only
    rw [write_low _ 0xA0 _ (by decide), eA0]
    rw [write_low _ 0xA1 _ (by decide), eA1]
    rw [write_low _ 0xA2 _ (by decide), eA2]
    unfold MemoryMap.set_ram
    simp [hx0, hx1, hx2]
  · rw [if_neg hc]

/-- Ticking the CIA with both timers stopped changes nothing. -/
theorem updateCiaTimers_not_running (m : MemoryMap) (cycles : Nat)
    (ha : m.cia1_timer_a.running = false) (hb2 : m.cia1_timer_b.running = false) :
    updateCiaTimers m cycles = m := by
  have hua : m.cia1_timer_a.update cycles = (m.cia1_timer_a, false) := by
    unfold CIATimer.update
    rw [ha]
    rfl
  have hub : ∀ k, m.cia1_timer_b.update k = (m.cia1_timer_b, false) := by
    intro k
    unfold CIATimer.update
    rw [hb2]
    rfl
  unfold updateCiaTimers
  by_cases him : m.cia1_timer_b.input_mode = 2
  · simp [hua, hub, him, ha]
  · simp [hua, hub, him, ha]

/- Claim C9: frame of the CIA interrupt service. -/

/-- C9 (amended): when the post-execution state of a step has the pending
IRQ line set, the I flag clear and ICR bit 7 set, the service runs and the
only machine state it touches is RAM at $A0/$A1/$A2: the whole CPU state
(PC, SP, P, registers, cycle counter) is exactly the post-execution CPU
state, the pending line and the ICR are unchanged (still asserted), RAM off
the jiffy bytes is unchanged, and the cycle count of the step is that of
the executed instruction.  The original claim also said the service fires
on every later instruction executed with I = 0 until the ICR is read; that
part is false because CLI clears the pending line (see the counterexample). -/
theorem c9_service_only_jiffy (s : Machine)
    (h : s.cpu.stopped = false)
    (h1 : s.cpu.pc ≠ 0xFF5B) (h2 : s.cpu.pc ≠ 0xFFCF) (h3 : s.cpu.pc ≠ 0xFFD2)
    (hp : (step_pre s).1.mem.pending_irq = true)
    (hI : ¬ (getFlag (step_pre s).1.cpu.p 0x04 = true))
    (hicr : (step_pre s).1.mem.cia1_icr &&& 0x80 ≠ 0) :
    (step s).1.cpu = (step_pre s).1.cpu ∧
    (step s).1.mem.pending_irq = true ∧
    (step s).1.mem.cia1_icr = (step_pre s).1.mem.cia1_icr ∧
    (∀ x, x ≠ 0xA0 → x ≠ 0xA1 → x ≠ 0xA2 →
      (step s).1.mem.ram x = (step_pre s).1.mem.ram x) ∧
    (step s).2 = (step_pre s).2 := by
  have hstop : ¬ (s.cpu.stopped = true) := by
    rw [h]
    exact fun hh => nomatch hh
  simp only [step_pre] at hp hI hicr
  simp only [step, step_pre]
  rw [if_neg hstop, if_neg h1, if_neg h2, if_neg h3]
  rw [if_pos (And.intro hp hI), if_pos hicr]
  dsimp only
  refine ⟨rfl, ?_, ?_, ?_, rfl⟩
  · rw [handleCia_pending]
    exact hp
  · exact handleCia_icr _
  · intro x hx0 hx1 hx2
    exact handleCia_ram_frame _ x hx0 hx1 hx2

def c9w : Machine :=
  ⟨{ pc := 0x1000, p := 0 },
   { ram := fun a => if a = 0x1000 then 0xEA else 0,
     cia1_icr := 0x81, pending_irq := true }⟩

/-- C9 witness: a NOP executed with an asserted, enabled interrupt; the
service leaves the pending line set and charges only the NOP cycles. -/
theorem c9_service_only_jiffy_witness :
    (step c9w).1.mem.pending_irq = true ∧ (step c9w).2 = (step_pre c9w).2 := by
  have hh := c9_service_only_jiffy c9w (by decide) (by decide) (by decide)
    (by decide) (by decide) (by decide) (by decide)
  exact ⟨hh.2.1, hh.2.2.2.2⟩

def c9c : Machine :=
  ⟨{ pc := 0x1000, p := 0 },
   { ram := fun a => if a = 0x1000 then 0x58 else 0,
     cia1_icr := 0x81, pending_irq := true }⟩

/-- C9 counterexample: pending IRQ asserted, I clear, ICR bit 7 set, and the
instruction executed is CLI ($58).  The ICR at $DC0D is never read (it still
holds $81 afterwards), yet no service fires in this step (the jiffy bytes
stay 0) and the pending line is discarded, so the service does NOT fire on
every instruction executed with I = 0 until the ICR is read. -/
theorem c9_cli_discards_service :
    c9c.mem.pending_irq = true ∧
    getFlag c9c.cpu.p 0x04 = false ∧
    c9c.mem.cia1_icr &&& 0x80 = 0x80 ∧
    (step c9c).1.mem.ram 0xA0 = 0 ∧
    (step c9c).1.mem.ram 0xA1 = 0 ∧
    (step c9c).1.mem.ram 0xA2 = 0 ∧
    (step c9c).1.mem.pending_irq = false ∧
    (step c9c).1.mem.cia1_icr = 0x81 := by
  refine ⟨by decide, by decide, by decide, by decide, by decide, by decide,
    by decide, by decide⟩

/- Claim C10: CLI discards a pending interrupt. -/

/-- The AND of a number with 4 in terms of division and remainder. -/
theorem and_four (p : Nat) : p &&& 4 = 4 * (p / 4 % 2) := by
  have e4 : (2 : Nat) ^ 2 = 4 := by norm_num
  have h := Nat.and_two_pow p 2
  rw [Nat.testBit_to_div_mod, e4] at h
  rw [h]
  by_cases hb : p / 4 % 2 = 1
  · rw [hb]
    simp
  · rw [decide_eq_false hb]
    have h2 : p / 4 % 2 = 0 := by omega
    rw [h2]
    simp

/-- Clearing the I bit by subtracting its set part really clears it. -/
theorem clear_four (p : Nat) : (p - (p &&& 4)) &&& 4 = 0 := by
  rw [and_four p, and_four (p - 4 * (p / 4 % 2))]
  omega

/-- Ticking the CIA with both timers stopped after CLI cleared the pending
line changes nothing. -/
theorem updateCiaTimers_clear_pending (m : MemoryMap) (cycles : Nat)
    (ha : m.cia1_timer_a.running = false) (hb2 : m.cia1_timer_b.running = false) :
    updateCiaTimers { m with pending_irq := false } cycles
      = { m with pending_irq := false } :=
  updateCiaTimers_not_running _ _ ha hb2

/-- C10: a step that executes CLI ($58) at a non-trap address, with both
CIA timers stopped so no new underflow can occur, ends with the pending
IRQ line false and the I flag clear, the program counter advanced by one,
and RAM untouched — in particular the jiffy bytes are untouched, so an
interrupt that became pending while I = 1 is discarded by CLI instead of
being serviced. -/
theorem c10_cli_clears_pending_before_I (s : Machine)
    (h : s.cpu.stopped = false)
    (h1 : s.cpu.pc ≠ 0xFF5B) (h2 : s.cpu.pc ≠ 0xFFCF) (h3 : s.cpu.pc ≠ 0xFFD2)
    (hop : (s.mem.read s.cpu.pc).1 = 0x58)
    (hta : s.mem.cia1_timer_a.running = false)
    (htb : s.mem.cia1_timer_b.running = false) :
    (step s).1.mem.pending_irq = false ∧
    getFlag (step s).1.cpu.p 0x04 = false ∧
    (step s).1.cpu.pc = (s.cpu.pc + 1) &&& 0xFFFF ∧
    (∀ x, (step s).1.mem.ram x = ((s.mem.read s.cpu.pc).2).ram x) ∧
    (step s).2 = 2 := by
  have hstop : ¬ (s.cpu.stopped = true) := by
    rw [h]
    exact fun hh => nomatch hh
  have hex : ∀ t : Machine, execOpcode t 0x58 = cli_op t := fun t => rfl
  have hca : ((s.mem.read s.cpu.pc).2).cia1_timer_a.running = false := by
    rw [read_timer_a_eq]
    exact hta
  have hcb : ((s.mem.read s.cpu.pc).2).cia1_timer_b.running = false := by
    rw [read_timer_b_eq]
    exact htb
  simp only [step, step_exec]
  rw [if_neg hstop, if_neg h1, if_neg h2, if_neg h3, hop, hex]
  simp only [cli_op]
  simp only [updateCiaTimers_clear_pending _ _ hca hcb]
  rw [if_neg ?hcond]
  case hcond =>
    exact fun hh => nomatch hh.1
  refine ⟨by trivial, ?_, by trivial, fun x => by trivial, by trivial⟩
  show getFlag (setFlag s.cpu.p 0x04 false) 0x04 = false
  unfold getFlag setFlag
  rw [if_neg (fun hh => nomatch hh)]
  simp [clear_four]

def c10w : Machine :=
  ⟨{ pc := 0x2000, p := 0x04 },
   { ram := fun a => if a = 0x2000 then 0x58 else 0,
     cia1_icr := 0x81, pending_irq := true }⟩

/-- C10 witness: an interrupt pending while I = 1; the CLI at $2000 discards
it (pending becomes false, I becomes clear, nothing is serviced). -/
theorem c10_cli_clears_pending_before_I_witness :
    c10w.mem.pending_irq = true ∧ getFlag c10w.cpu.p 0x04 = true ∧
    (step c10w).1.mem.pending_irq = false ∧
    getFlag (step c10w).1.cpu.p 0x04 = false ∧
    (step c10w).1.mem.ram 0xA0 = 0 := by
  have hh := c10_cli_clears_pending_before_I c10w (by decide) (by decide)
    (by decide) (by decide) (by decide) (by decide) (by decide)
  refine ⟨by decide, by decide, hh.1, hh.2.1, ?_⟩
  rw [hh.2.2.2.1 0xA0]
  decide

end C64
